import Mathlib

/-! slang-rhi, CUDA backend: command queue and device.

A shallow embedding of `src/cuda/cuda-command-queue.cpp` and of the resource
factory, the shader program factory and the device choice of
`src/cuda/cuda-device.cpp`.

Conventions of the embedding.

* The CUDA driver is an external collaborator.  Every driver call the code
  issues is appended to a trace of `BackendCall`s.  The copies between linear
  memory ranges (`cuMemcpy`, `cuMemcpyAsync`) act on an explicit device memory
  and succeed exactly when both ranges are in bounds; the status code of every
  other call is taken from the parameter `Backend.status`.
* Driver work is applied in issue order: the queue's stream is created with
  flags 0 (a blocking stream), and `cuMemcpy` is synchronous.
* A pointer is an allocation together with a byte offset; `nullptr` is
  `Ptr.null` for raw memory and `none` for object references.
* Behaviour that C++ leaves undefined (dereferencing `nullptr`, indexing
  outside an array, a mismatching `checked_cast`) and a firing assertion stop
  the execution: they are recorded as a `Fault`, after which nothing more is
  executed.
* The assertion macros are not part of the translated files; whether they are
  compiled in is the parameter `Backend.asserts`.
* Sizes, offsets and extents are natural numbers (no wrap-around).
-/

set_option linter.unusedVariables false

namespace rhi

/-! ## Result codes and faults -/

/-- Result codes of `slang.h` that the CUDA backend returns.  `backendFailure`
is the result of a failed driver call. -/
inductive Result
  | SLANG_OK
  | SLANG_FAIL
  | SLANG_E_NOT_AVAILABLE
  | SLANG_E_INVALID_ARG
  | backendFailure (native : Nat)
  deriving DecidableEq, Repr

/-- The test `SLANG_FAILED(r)`: every code other than `SLANG_OK` is a failure. -/
def SLANG_FAILED (r : Result) : Bool :=
  match r with
  | Result.SLANG_OK => false
  | _ => true

/-- Status code of a CUDA driver call. -/
abbrev CUresult := Nat

/-- The driver's success code. -/
def CUDA_SUCCESS : CUresult := 0

/-- Modelled from the spec: the macros `SLANG_CUDA_HANDLE_ERROR` and
`SLANG_CUDA_RETURN_ON_FAIL` are not in the translated files.  Section 7 of the
spec has a failed native call reported as a backend failure that keeps the
native error code. -/
def SLANG_CUDA_HANDLE_ERROR (code : CUresult) : Result :=
  Result.backendFailure code

/-- Ways in which execution stops without returning a result. -/
inductive Fault
  | assertion
  | nullDereference
  | outOfBounds
  | badCast
  | divisionByZero
  deriving DecidableEq, Repr

/-- How a device call ends: it returns a result code, or it stops on a fault. -/
inductive Exit
  | returned (r : Result)
  | fatal (f : Fault)
  deriving DecidableEq, Repr

/-! ## Memory -/

/-- A byte.  Bytes are only moved around, never computed with. -/
abbrev Byte := Nat

/-- A raw address: null, a byte offset into a device allocation, or host
memory given by the bytes readable from the address on. -/
inductive Ptr
  | null
  | device (alloc : Nat) (offset : Nat)
  | host (bytes : List Byte)
  deriving DecidableEq, Repr

/-- Pointer arithmetic `(uint8_t*)p + k`. -/
def Ptr.add (p : Ptr) (k : Nat) : Ptr :=
  match p with
  | Ptr.null => Ptr.null
  | Ptr.device a off => Ptr.device a (off + k)
  | Ptr.host bs => Ptr.host (bs.drop k)

/-- Device memory: the contents of every allocation, by allocation number. -/
abbrev DeviceMemory := List (List Byte)

/-- Read `size` bytes at `src`; `none` when the range is not readable. -/
def load (mem : DeviceMemory) (src : Ptr) (size : Nat) : Option (List Byte) :=
  match src with
  | Ptr.null => if size = 0 then some [] else none
  | Ptr.device a off =>
    match mem[a]? with
    | some bs => if off + size ≤ bs.length then some ((bs.drop off).take size) else none
    | none => none
  | Ptr.host bs => if size ≤ bs.length then some (bs.take size) else none

/-- Overwrite the bytes at offset `off` of `bs` with `data`. -/
def splice (bs : List Byte) (off : Nat) (data : List Byte) : List Byte :=
  bs.take off ++ data ++ bs.drop (off + data.length)

/-- Write `data` at the device address `dst`; `none` when the range is not
writable device memory. -/
def store (mem : DeviceMemory) (dst : Ptr) (data : List Byte) : Option DeviceMemory :=
  match dst with
  | Ptr.null => if data.length = 0 then some mem else none
  | Ptr.device a off =>
    match mem[a]? with
    | some bs => if off + data.length ≤ bs.length then some (mem.set a (splice bs off data)) else none
    | none => none
  | Ptr.host _ => none

/-- The driver's error code for an invalid address range. -/
def CUDA_ERROR_INVALID_VALUE : CUresult := 1

/-- The driver's `cuMemcpy(dst, src, size)` towards device memory: all bytes
are read, then written; when either range is invalid nothing changes and an
error is reported. -/
def cuMemcpy (mem : DeviceMemory) (dst src : Ptr) (size : Nat) : CUresult × DeviceMemory :=
  match load mem src size with
  | some data =>
    match store mem dst data with
    | some mem' => (CUDA_SUCCESS, mem')
    | none => (CUDA_ERROR_INVALID_VALUE, mem)
  | none => (CUDA_ERROR_INVALID_VALUE, mem)

/-- The driver's `cuMemcpy` towards a host blob with contents `blob`: the
blob's first `size` bytes are replaced when the source range is readable and
fits. -/
def cuMemcpyToHost (mem : DeviceMemory) (blob : List Byte) (src : Ptr) (size : Nat) :
    CUresult × List Byte :=
  match load mem src size with
  | some data => if size ≤ blob.length then (CUDA_SUCCESS, splice blob 0 data) else (CUDA_ERROR_INVALID_VALUE, blob)
  | none => (CUDA_ERROR_INVALID_VALUE, blob)

/-! ## Formats and texture descriptions -/

/-- Pixel formats: those named in `getCUDAFormat`, and three of the formats it
does not name. -/
inductive Format
  | Unknown
  | R32G32B32A32_FLOAT | R32G32B32_FLOAT | R32G32_FLOAT | R32_FLOAT | D32_FLOAT
  | R16G16B16A16_FLOAT | R16G16_FLOAT | R16_FLOAT
  | R32G32B32A32_UINT | R32G32B32_UINT | R32G32_UINT | R32_UINT
  | R16G16B16A16_UINT | R16G16_UINT | R16_UINT
  | R8G8B8A8_UINT | R8G8_UINT | R8_UINT | R8G8B8A8_UNORM
  | R32G32B32A32_SINT | R32G32B32_SINT | R32G32_SINT | R32_SINT
  | R16G16B16A16_SINT | R16G16_SINT | R16_SINT
  | R8G8B8A8_SINT | R8G8_SINT | R8_SINT
  | B8G8R8A8_UNORM | R8G8B8A8_SNORM
  deriving DecidableEq, Repr

/-- Component formats of a CUDA array. -/
inductive CUarray_format
  | CU_AD_FORMAT_UNSIGNED_INT8
  | CU_AD_FORMAT_UNSIGNED_INT16
  | CU_AD_FORMAT_UNSIGNED_INT32
  | CU_AD_FORMAT_SIGNED_INT8
  | CU_AD_FORMAT_SIGNED_INT16
  | CU_AD_FORMAT_SIGNED_INT32
  | CU_AD_FORMAT_HALF
  | CU_AD_FORMAT_FLOAT
  deriving DecidableEq, Repr

/-- The entries of the format table that the backend reads. -/
structure FormatInfo where
  channelCount : Nat
  blockSizeInBytes : Nat
  pixelsPerBlock : Nat
  deriving DecidableEq, Repr

/-- Modelled from the spec: the table behind `getFormatInfo` is not in the
translated files.  Channel count and component width are read off the format
name; every listed format has one pixel per block. -/
def getFormatInfo (format : Format) : FormatInfo :=
  match format with
  | Format.Unknown => ⟨0, 0, 1⟩
  | Format.R32G32B32A32_FLOAT => ⟨4, 16, 1⟩
  | Format.R32G32B32_FLOAT => ⟨3, 12, 1⟩
  | Format.R32G32_FLOAT => ⟨2, 8, 1⟩
  | Format.R32_FLOAT => ⟨1, 4, 1⟩
  | Format.D32_FLOAT => ⟨1, 4, 1⟩
  | Format.R16G16B16A16_FLOAT => ⟨4, 8, 1⟩
  | Format.R16G16_FLOAT => ⟨2, 4, 1⟩
  | Format.R16_FLOAT => ⟨1, 2, 1⟩
  | Format.R32G32B32A32_UINT => ⟨4, 16, 1⟩
  | Format.R32G32B32_UINT => ⟨3, 12, 1⟩
  | Format.R32G32_UINT => ⟨2, 8, 1⟩
  | Format.R32_UINT => ⟨1, 4, 1⟩
  | Format.R16G16B16A16_UINT => ⟨4, 8, 1⟩
  | Format.R16G16_UINT => ⟨2, 4, 1⟩
  | Format.R16_UINT => ⟨1, 2, 1⟩
  | Format.R8G8B8A8_UINT => ⟨4, 4, 1⟩
  | Format.R8G8_UINT => ⟨2, 2, 1⟩
  | Format.R8_UINT => ⟨1, 1, 1⟩
  | Format.R8G8B8A8_UNORM => ⟨4, 4, 1⟩
  | Format.R32G32B32A32_SINT => ⟨4, 16, 1⟩
  | Format.R32G32B32_SINT => ⟨3, 12, 1⟩
  | Format.R32G32_SINT => ⟨2, 8, 1⟩
  | Format.R32_SINT => ⟨1, 4, 1⟩
  | Format.R16G16B16A16_SINT => ⟨4, 8, 1⟩
  | Format.R16G16_SINT => ⟨2, 4, 1⟩
  | Format.R16_SINT => ⟨1, 2, 1⟩
  | Format.R8G8B8A8_SINT => ⟨4, 4, 1⟩
  | Format.R8G8_SINT => ⟨2, 2, 1⟩
  | Format.R8_SINT => ⟨1, 1, 1⟩
  | Format.B8G8R8A8_UNORM => ⟨4, 4, 1⟩
  | Format.R8G8B8A8_SNORM => ⟨4, 4, 1⟩

/-- Shape of a texture. -/
inductive TextureType
  | Texture1D
  | Texture2D
  | Texture3D
  | TextureCube
  deriving DecidableEq, Repr

/-- Usage flags of a texture. -/
inductive TextureUsage
  | ShaderResource
  | UnorderedAccess
  | RenderTarget
  | CopySource
  | CopyDestination
  deriving DecidableEq, Repr

/-- The helper `is_set(usage, flag)` on a set of usage flags. -/
def is_set (usage : List TextureUsage) (flag : TextureUsage) : Bool :=
  usage.contains flag

/-- Extents of a texture. -/
structure Extents where
  width : Nat
  height : Nat
  depth : Nat
  deriving DecidableEq, Repr

/-- The fields of `TextureDesc` that the backend reads. -/
structure TextureDesc where
  type : TextureType
  size : Extents
  arrayLength : Nat
  mipLevelCount : Nat
  format : Format
  usage : List TextureUsage
  deriving DecidableEq, Repr

/-- One entry of the init data of a texture: the host bytes of a subresource. -/
structure SubresourceData where
  data : List Byte
  strideY : Nat
  strideZ : Nat
  deriving DecidableEq, Repr

/-! ## Driver descriptors and handles -/

/-- The driver's `CUDA_ARRAY3D_DESCRIPTOR`. -/
structure CUDA_ARRAY3D_DESCRIPTOR where
  Width : Nat
  Height : Nat
  Depth : Nat
  Format : CUarray_format
  NumChannels : Nat
  Flags : Nat
  deriving DecidableEq, Repr

/-- The driver's `CUDA_ARRAY_DESCRIPTOR`. -/
structure CUDA_ARRAY_DESCRIPTOR where
  Width : Nat
  Height : Nat
  Format : CUarray_format
  NumChannels : Nat
  deriving DecidableEq, Repr

/-- Flag of a layered array. -/
def CUDA_ARRAY3D_LAYERED : Nat := 1

/-- Flag of a cube map array. -/
def CUDA_ARRAY3D_CUBEMAP : Nat := 4

/-- A driver array handle, identified by the descriptor of the array. -/
structure CUarray where
  desc : CUDA_ARRAY3D_DESCRIPTOR
  deriving DecidableEq, Repr

/-- A driver mip-chain handle, identified by descriptor and level count. -/
structure CUmipmappedArray where
  desc : CUDA_ARRAY3D_DESCRIPTOR
  numLevels : Nat
  deriving DecidableEq, Repr

/-- Kinds of resource a surface or texture object views. -/
inductive CUresourcetype
  | CU_RESOURCE_TYPE_ARRAY
  | CU_RESOURCE_TYPE_MIPMAPPED_ARRAY
  deriving DecidableEq, Repr

/-- The driver's `CUDA_RESOURCE_DESC`; the two members of its union are kept
as two optional fields. -/
structure CUDA_RESOURCE_DESC where
  resType : CUresourcetype
  hArray : Option CUarray
  hMipmappedArray : Option CUmipmappedArray
  deriving DecidableEq, Repr

/-- Address modes of a texture object. -/
inductive CUaddress_mode
  | CU_TR_ADDRESS_MODE_WRAP
  | CU_TR_ADDRESS_MODE_CLAMP
  deriving DecidableEq, Repr

/-- Filter modes of a texture object. -/
inductive CUfilter_mode
  | CU_TR_FILTER_MODE_POINT
  | CU_TR_FILTER_MODE_LINEAR
  deriving DecidableEq, Repr

/-- Flag of a texture object: coordinates are normalized. -/
def CU_TRSF_NORMALIZED_COORDINATES : Nat := 2

/-- The driver's `CUDA_TEXTURE_DESC`, the fields the backend sets. -/
structure CUDA_TEXTURE_DESC where
  addressMode0 : CUaddress_mode
  addressMode1 : CUaddress_mode
  addressMode2 : CUaddress_mode
  filterMode : CUfilter_mode
  flags : Nat
  deriving DecidableEq, Repr

/-- A surface object handle, identified by the resource it views. -/
structure CUsurfObject where
  res : CUDA_RESOURCE_DESC
  deriving DecidableEq, Repr

/-- A texture object handle, identified by resource and sampling state. -/
structure CUtexObject where
  res : CUDA_RESOURCE_DESC
  tex : CUDA_TEXTURE_DESC
  deriving DecidableEq, Repr

/-- Kinds of native handle. -/
inductive NativeHandleType
  | Undefined
  | Win32
  | FileDescriptor
  | D3D12Resource
  | VkBuffer
  | CUdevice
  deriving DecidableEq, Repr

/-- A handle of another API. -/
structure NativeHandle where
  type : NativeHandleType
  value : Nat
  deriving DecidableEq, Repr

/-- Modelled from the spec: the conversion of `NativeHandle` to `bool`, used
as `!handle`, is not in the translated files.  A handle is null when its type
is `Undefined`. -/
def NativeHandle.toBool (h : NativeHandle) : Bool :=
  decide (h.type ≠ NativeHandleType.Undefined)

/-- Kinds of external memory the driver imports. -/
inductive CUexternalMemoryHandleType
  | CU_EXTERNAL_MEMORY_HANDLE_TYPE_OPAQUE_WIN32
  | CU_EXTERNAL_MEMORY_HANDLE_TYPE_D3D12_RESOURCE
  deriving DecidableEq, Repr

/-- Flag of a dedicated external allocation. -/
def CUDA_EXTERNAL_MEMORY_DEDICATED : Nat := 1

/-- The driver's `CUDA_EXTERNAL_MEMORY_HANDLE_DESC`. -/
structure CUDA_EXTERNAL_MEMORY_HANDLE_DESC where
  type : CUexternalMemoryHandleType
  handle : Nat
  size : Nat
  flags : Nat
  deriving DecidableEq, Repr

/-- An external memory handle, identified by the imported descriptor. -/
structure CUexternalMemory where
  desc : CUDA_EXTERNAL_MEMORY_HANDLE_DESC
  deriving DecidableEq, Repr

/-- The driver's `CUDA_MEMCPY2D`, for a copy from host memory to an array. -/
structure CUDA_MEMCPY2D where
  dstArray : Option CUarray
  srcHost : List Byte
  srcPitch : Nat
  WidthInBytes : Nat
  Height : Nat
  deriving DecidableEq, Repr

/-- The driver's `CUDA_MEMCPY3D`, for a copy from host memory to an array. -/
structure CUDA_MEMCPY3D where
  dstArray : Option CUarray
  srcHost : List Byte
  srcPitch : Nat
  WidthInBytes : Nat
  Height : Nat
  Depth : Nat
  deriving DecidableEq, Repr

/-- The driver's `CUDA_MEMCPY2D`, for a copy from an array to host memory of
`dstSize` bytes. -/
structure CUDA_MEMCPY2D_TO_HOST where
  srcArray : Option CUarray
  dstSize : Nat
  dstPitch : Nat
  WidthInBytes : Nat
  Height : Nat
  deriving DecidableEq, Repr

/-- The device attributes `_findMaxFlopsDeviceIndex` asks the driver for. -/
inductive CUdevice_attribute
  | CU_DEVICE_ATTRIBUTE_COMPUTE_MODE
  | CU_DEVICE_ATTRIBUTE_COMPUTE_CAPABILITY_MAJOR
  | CU_DEVICE_ATTRIBUTE_COMPUTE_CAPABILITY_MINOR
  | CU_DEVICE_ATTRIBUTE_MULTIPROCESSOR_COUNT
  | CU_DEVICE_ATTRIBUTE_CLOCK_RATE
  deriving DecidableEq, Repr

/-- The calls made to the external collaborators, with their arguments: the
CUDA driver, and the kernel compiler (`compileKernel`). -/
inductive BackendCall
  | cuMemcpy (dst src : Ptr) (size : Nat)
  | cuMemcpyAsync (dst src : Ptr) (size : Nat)
  | cuModuleGetGlobal (module : Nat)
  | cuLaunchKernel (kernel : Nat) (gridX gridY gridZ : Int) (blockX blockY blockZ : Int)
      (sharedMemBytes : Nat) (stream : Nat) (argBuffer : List Byte) (argSize : Nat)
  | cuEventRecord (event : Nat) (stream : Nat)
  | cuStreamSynchronize (stream : Nat)
  | compileKernel (pipeline : Nat) (specializationArgs : List Nat)
  | cuMemAllocManaged (size : Nat)
  | cuMipmappedArrayCreate (desc : CUDA_ARRAY3D_DESCRIPTOR) (numLevels : Nat)
  | cuArray3DCreate (desc : CUDA_ARRAY3D_DESCRIPTOR)
  | cuArrayCreate (desc : CUDA_ARRAY_DESCRIPTOR)
  | cuMipmappedArrayGetLevel (mipmapped : Option CUmipmappedArray) (level : Nat)
  | cuArrayGetDescriptor (array : Option CUarray)
  | cuMemcpy2D (copyParam : CUDA_MEMCPY2D)
  | cuMemcpy3D (copyParam : CUDA_MEMCPY3D)
  | cuSurfObjectCreate (res : CUDA_RESOURCE_DESC)
  | cuTexObjectCreate (res : CUDA_RESOURCE_DESC) (tex : CUDA_TEXTURE_DESC)
  | cuImportExternalMemory (desc : CUDA_EXTERNAL_MEMORY_HANDLE_DESC)
  | cuExternalMemoryGetMappedBuffer (memory : CUexternalMemory) (size : Nat)
  | cuExternalMemoryGetMappedMipmappedArray (memory : CUexternalMemory)
      (desc : CUDA_ARRAY3D_DESCRIPTOR) (numLevels : Nat)
  | cuMemcpy2DToHost (copyParam : CUDA_MEMCPY2D_TO_HOST)
  | cuModuleLoadData (image : List Byte)
  | cuModuleGetFunction (module : Nat) (name : String)
  | cuDeviceGetCount
  | cuDeviceGet (ordinal : Nat)
  | cuDeviceGetAttribute (attrib : CUdevice_attribute) (device : Nat)
  deriving DecidableEq, Repr

/-! ## Shader programs, pipelines and shader objects -/

/-- One kernel of a program layout: its name and declared thread-group size. -/
structure KernelInfo where
  name : String
  threadGroupSize : Nat × Nat × Nat
  deriving DecidableEq, Repr

/-- Modelled from the spec: the class `RootShaderObjectLayoutImpl` is not in
the translated files.  The layout lists the kernels of the program in entry
point order; the thread-group shape is queried from it by kernel name. -/
structure RootShaderObjectLayoutImpl where
  kernels : List KernelInfo
  deriving DecidableEq, Repr

/-- Position of the first kernel called `kernelName` at or after position
`start`, or -1. -/
def findKernel (kernelName : String) : List KernelInfo → Nat → Int
  | [], _ => -1
  | k :: rest, start => if k.name = kernelName then (start : Int) else findKernel kernelName rest (start + 1)

/-- The layout's `getKernelIndex(kernelName)`: the index of the kernel with
that name, or -1 when there is none. -/
def RootShaderObjectLayoutImpl.getKernelIndex (layout : RootShaderObjectLayoutImpl)
    (kernelName : String) : Int :=
  findKernel kernelName layout.kernels 0

/-- The layout's `getKernelThreadGroupSize(kernelId, out)`; an index outside
the kernel list is an out-of-bounds access. -/
def RootShaderObjectLayoutImpl.getKernelThreadGroupSize (layout : RootShaderObjectLayoutImpl)
    (kernelId : Int) : Except Fault (Nat × Nat × Nat) :=
  if kernelId < 0 then Except.error Fault.outOfBounds
  else
    match layout.kernels[kernelId.toNat]? with
    | some k => Except.ok k.threadGroupSize
    | none => Except.error Fault.outOfBounds

/-- A CUDA program: the fields `dispatchCompute` and `createShaderProgram`
use.  A module or kernel handle that is not set is 0, a name that is not set
is empty, a layout that is not set is null. -/
structure ShaderProgramImpl where
  kernelName : String
  cudaModule : Nat
  cudaKernel : Nat
  layout : Option RootShaderObjectLayoutImpl := none
  deriving DecidableEq, Repr

/-- Modelled from the spec: the class `Pipeline` is not in the translated
files.  Section 3 of the spec gives a pipeline two states: unspecialized (a
generic program, here named by a number) and specialized (a concrete kernel
ready to launch, here the compiled program reached in the code through
`m_computePipeline->m_program`). -/
inductive Pipeline
  | Unspecialized (id : Nat)
  | Specialized (program : ShaderProgramImpl)
  deriving DecidableEq, Repr

/-- An entry point object: its parameter block, held in host memory. -/
structure EntryPointShaderObject where
  buffer : List Byte
  deriving DecidableEq, Repr

/-- A root shader object: its program layout, the device address of its
global-scope data (`getBuffer()`), one object per entry point, and the
concrete type arguments its bindings carry. -/
structure RootShaderObjectImpl where
  layout : RootShaderObjectLayoutImpl
  buffer : Ptr
  entryPointObjects : List EntryPointShaderObject
  specializationArgs : List Nat
  deriving DecidableEq, Repr

/-- A shader object as recorded in a command buffer: a root object, or one of
the other variants (plain, mutable, entry point). -/
inductive ShaderObjectBase
  | root (object : RootShaderObjectImpl)
  | other (buffer : Ptr)
  deriving DecidableEq, Repr

/-- The cast `dynamic_cast<RootShaderObjectImpl*>(object)`. -/
def ShaderObjectBase.asRoot (object : Option ShaderObjectBase) : Option RootShaderObjectImpl :=
  match object with
  | some (ShaderObjectBase.root r) => some r
  | _ => none

/-! ## Resources -/

/-- The fields of `BufferDesc` that the backend reads. -/
structure BufferDesc where
  size : Nat
  elementSize : Nat
  format : Format
  deriving DecidableEq, Repr

/-- A buffer: its description, its device address and, for an imported
buffer, the external memory it maps. -/
structure BufferImpl where
  m_desc : BufferDesc
  m_cudaMemory : Ptr
  m_cudaExternalMemory : Option CUexternalMemory
  deriving DecidableEq, Repr

/-- A timestamp query pool: one driver event per slot. -/
structure QueryPoolImpl where
  m_events : List Nat
  deriving DecidableEq, Repr

/-- A texture and its backing store handles. -/
structure TextureImpl where
  m_desc : TextureDesc
  m_cudaArray : Option CUarray
  m_cudaMipMappedArray : Option CUmipmappedArray
  m_cudaSurfObj : Option CUsurfObject
  m_cudaTexObj : Option CUtexObject
  m_cudaExternalMemory : Option CUexternalMemory
  deriving DecidableEq, Repr

/-! ## Command buffers -/

/-- Names of the recorded operations. -/
inductive CommandName
  | SetPipeline
  | BindRootShaderObject
  | DispatchCompute
  | CopyBuffer
  | UploadBufferData
  | WriteTimestamp
  deriving DecidableEq, Repr

/-- A recorded operation: its name and its operands (immediate scalars, or
indices into the object table or the blob table). -/
structure Command where
  name : CommandName
  operands : List Nat
  deriving DecidableEq, Repr

/-- The operand `cmd.operands[k]`. -/
def Command.operand (cmd : Command) (k : Nat) : Nat :=
  cmd.operands.getD k 0

/-- An entry of the object table of a command buffer. -/
inductive Object
  | pipeline (p : Pipeline)
  | shaderObject (o : ShaderObjectBase)
  | buffer (b : BufferImpl)
  | queryPool (q : QueryPoolImpl)
  deriving DecidableEq, Repr

/-- Modelled from the spec: the class `CommandBufferImpl` is not in the
translated files.  A command buffer is an ordered log of operations with an
object table and a blob table, both indexed by integer handles. -/
structure CommandBufferImpl where
  m_commands : List Command
  m_objects : List Object
  m_data : List (List Byte)
  deriving DecidableEq, Repr

/-- The accessor `getObject<Pipeline>(index)`. -/
def CommandBufferImpl.getPipeline (cb : CommandBufferImpl) (index : Nat) : Except Fault Pipeline :=
  match cb.m_objects[index]? with
  | some (Object.pipeline p) => Except.ok p
  | some _ => Except.error Fault.badCast
  | none => Except.error Fault.outOfBounds

/-- The accessor `getObject<ShaderObjectBase>(index)`. -/
def CommandBufferImpl.getShaderObject (cb : CommandBufferImpl) (index : Nat) :
    Except Fault ShaderObjectBase :=
  match cb.m_objects[index]? with
  | some (Object.shaderObject o) => Except.ok o
  | some _ => Except.error Fault.badCast
  | none => Except.error Fault.outOfBounds

/-- The accessor `getObject<Buffer>(index)`. -/
def CommandBufferImpl.getBuffer (cb : CommandBufferImpl) (index : Nat) : Except Fault BufferImpl :=
  match cb.m_objects[index]? with
  | some (Object.buffer b) => Except.ok b
  | some _ => Except.error Fault.badCast
  | none => Except.error Fault.outOfBounds

/-- The accessor `getObject<QueryPool>(index)`. -/
def CommandBufferImpl.getQueryPool (cb : CommandBufferImpl) (index : Nat) :
    Except Fault QueryPoolImpl :=
  match cb.m_objects[index]? with
  | some (Object.queryPool p) => Except.ok p
  | some _ => Except.error Fault.badCast
  | none => Except.error Fault.outOfBounds

/-- The accessor `getData<uint8_t>(index)`: the host address of a blob. -/
def CommandBufferImpl.getData (cb : CommandBufferImpl) (index : Nat) : Except Fault Ptr :=
  match cb.m_data[index]? with
  | some bytes => Except.ok (Ptr.host bytes)
  | none => Except.error Fault.outOfBounds

/-! ## The external collaborators -/

/-- What the code takes from outside the translated files: whether the
assertion macros are compiled in, the status code the driver gives to each
call, the kernel compiler, the address and size of a module's
`SLANG_globalParams` symbol, the effect of a kernel on device memory, the
shared helpers `fixupTextureDesc` and `fixupBufferDesc`, the value a format
field holds before anything is written to it, the device address at which
the driver maps an imported external memory, the bytes the driver copies out
of an array, the handles the driver gives to a loaded module and to a
function of a module, and what the driver answers about the devices of the
machine: their number, the handle of the device with a given ordinal, and the
value of an attribute of a device. -/
structure Backend where
  asserts : Bool
  status : BackendCall → CUresult
  compile : Nat → List Nat → ShaderProgramImpl
  moduleGlobal : Nat → Ptr × Nat
  kernel : Nat → Int × Int × Int → Int × Int × Int → List Byte → DeviceMemory → DeviceMemory
  fixupTextureDesc : TextureDesc → TextureDesc
  fixupBufferDesc : BufferDesc → BufferDesc
  uninitializedFormat : CUarray_format
  mappedBuffer : CUexternalMemory → Ptr
  arrayBytes : Option CUarray → List Byte
  loadedModule : List Byte → Nat
  moduleFunction : Nat → String → Nat
  deviceCount : Int := 0
  deviceHandle : Nat → Nat := fun ordinal => ordinal
  deviceAttribute : CUdevice_attribute → Nat → Int := fun _ _ => 0

/-! ## Device and queue state -/

/-- Key of the specialization cache: an unspecialized pipeline and the
concrete type arguments. -/
abbrev PipelineKey := Nat × List Nat

/-- The state of the device that the queue and the resource factory act on:
the specialization cache, device memory, and the calls issued so far. -/
structure DeviceImpl where
  shaderCache : List (PipelineKey × Pipeline)
  memory : DeviceMemory
  trace : List BackendCall
  deriving DecidableEq, Repr

/-- The cache's `getSpecializedPipeline(key)`. -/
def getSpecializedPipeline (cache : List (PipelineKey × Pipeline)) (key : PipelineKey) :
    Option Pipeline :=
  match cache with
  | [] => none
  | (k, p) :: rest => if k = key then some p else getSpecializedPipeline rest key

/-- Modelled from the spec: `Device::maybeSpecializePipeline` is not in the
translated files.  Section 4.3: a dispatch with an unspecialized pipeline and a
bound root object derives the key from the root object's concrete type
arguments and consults the cache; on a hit the cached pipeline is reused, on a
miss a kernel is compiled for the key, inserted, and used.  A specialized
pipeline needs no specialization.  Without a pipeline, or without a root object
to derive the key from, no pipeline is produced and a validation error is
returned. -/
def DeviceImpl.maybeSpecializePipeline (be : Backend) (dev : DeviceImpl)
    (currentPipeline : Option Pipeline) (rootObject : Option RootShaderObjectImpl) :
    DeviceImpl × Result × Option Pipeline :=
  match currentPipeline with
  | none => (dev, Result.SLANG_E_INVALID_ARG, none)
  | some (Pipeline.Specialized program) => (dev, Result.SLANG_OK, some (Pipeline.Specialized program))
  | some (Pipeline.Unspecialized id) =>
    match rootObject with
    | none => (dev, Result.SLANG_E_INVALID_ARG, none)
    | some root =>
      match getSpecializedPipeline dev.shaderCache (id, root.specializationArgs) with
      | some p => (dev, Result.SLANG_OK, some p)
      | none =>
        let p := Pipeline.Specialized (be.compile id root.specializationArgs)
        ({ dev with
            shaderCache := ((id, root.specializationArgs), p) :: dev.shaderCache
            trace := dev.trace ++ [BackendCall.compileKernel id root.specializationArgs] },
          Result.SLANG_OK, some p)

/-- The CUDA command queue: its device, its stream, the current pipeline and
root object, and the fault that stopped execution, if any. -/
structure CommandQueueImpl where
  m_device : DeviceImpl
  stream : Nat
  currentPipeline : Option Pipeline
  currentRootObject : Option RootShaderObjectImpl
  fault : Option Fault
  deriving DecidableEq, Repr

/-- Stop execution with fault `f`. -/
def CommandQueueImpl.raise (q : CommandQueueImpl) (f : Fault) : CommandQueueImpl :=
  { q with fault := some f }

/-- Append a call to the device's trace. -/
def DeviceImpl.record (dev : DeviceImpl) (call : BackendCall) : DeviceImpl :=
  { dev with trace := dev.trace ++ [call] }

/-- The conversion `int(v)` of an unsigned operand: reduction to 32 bits in
two's complement. -/
def toInt32 (v : Nat) : Int :=
  if v % 2 ^ 32 < 2 ^ 31 then ((v % 2 ^ 32 : Nat) : Int) else ((v % 2 ^ 32 : Nat) : Int) - 2 ^ 32

/-! ## The command queue (`cuda-command-queue.cpp`) -/

/-- The queue's `setPipeline(state)`. -/
def CommandQueueImpl.setPipeline (q : CommandQueueImpl) (state : Option Pipeline) : CommandQueueImpl :=
  { q with currentPipeline := state }

/-- The queue's `bindRootShaderObject(object)`: the current root object
becomes the object cast to a root object, null when the cast fails. -/
def CommandQueueImpl.bindRootShaderObject (q : CommandQueueImpl) (object : Option ShaderObjectBase) :
    CommandQueueImpl × Result :=
  match ShaderObjectBase.asRoot object with
  | some r => ({ q with currentRootObject := some r }, Result.SLANG_OK)
  | none => ({ q with currentRootObject := none }, Result.SLANG_E_INVALID_ARG)

/-- The launch part of `dispatchCompute`, once pipeline `program` and root
object `root` are at hand: kernel lookup, copy of the global parameters to the
`SLANG_globalParams` symbol, and the kernel launch. -/
def CommandQueueImpl.launch (be : Backend) (q : CommandQueueImpl) (program : ShaderProgramImpl)
    (root : RootShaderObjectImpl) (x y z : Int) : CommandQueueImpl :=
  let kernelId := root.layout.getKernelIndex program.kernelName
  if be.asserts && decide (kernelId = -1) then q.raise Fault.assertion
  else
    match root.layout.getKernelThreadGroupSize kernelId with
    | Except.error f => q.raise f
    | Except.ok threadGroupSize =>
      let getGlobal := BackendCall.cuModuleGetGlobal program.cudaModule
      let globalParams : Ptr × Nat :=
        if be.status getGlobal = CUDA_SUCCESS then be.moduleGlobal program.cudaModule else (Ptr.null, 0)
      let copied := cuMemcpy q.m_device.memory globalParams.1 root.buffer globalParams.2
      let dev1 : DeviceImpl :=
        { q.m_device with
            memory := copied.2
            trace := q.m_device.trace ++
              [getGlobal, BackendCall.cuMemcpyAsync globalParams.1 root.buffer globalParams.2] }
      match root.entryPointObjects[kernelId.toNat]? with
      | none => { q with m_device := dev1, fault := some Fault.outOfBounds }
      | some entryPoint =>
        let block : Int × Int × Int :=
          (toInt32 threadGroupSize.1, toInt32 threadGroupSize.2.1, toInt32 threadGroupSize.2.2)
        let launchCall := BackendCall.cuLaunchKernel program.cudaKernel x y z block.1 block.2.1 block.2.2
          0 q.stream entryPoint.buffer entryPoint.buffer.length
        let cudaLaunchResult := be.status launchCall
        let dev2 : DeviceImpl :=
          { dev1 with
              memory := if cudaLaunchResult = CUDA_SUCCESS
                then be.kernel program.cudaKernel (x, y, z) block entryPoint.buffer dev1.memory
                else dev1.memory
              trace := dev1.trace ++ [launchCall] }
        if be.asserts && decide (cudaLaunchResult ≠ CUDA_SUCCESS)
        then { q with m_device := dev2, fault := some Fault.assertion }
        else { q with m_device := dev2 }

/-- The queue's `dispatchCompute(x, y, z)`.  The result of
`maybeSpecializePipeline` is not looked at; the new pipeline is dereferenced
and becomes the current pipeline; then the root object is dereferenced. -/
def CommandQueueImpl.dispatchCompute (be : Backend) (q : CommandQueueImpl) (x y z : Int) :
    CommandQueueImpl :=
  let specialized := q.m_device.maybeSpecializePipeline be q.currentPipeline q.currentRootObject
  match specialized.2.2 with
  | none => { q with m_device := specialized.1, fault := some Fault.nullDereference }
  | some (Pipeline.Unspecialized id) =>
    { q with
        m_device := specialized.1
        currentPipeline := some (Pipeline.Unspecialized id)
        fault := some Fault.nullDereference }
  | some (Pipeline.Specialized program) =>
    let q1 : CommandQueueImpl :=
      { q with m_device := specialized.1, currentPipeline := some (Pipeline.Specialized program) }
    match q.currentRootObject with
    | none => q1.raise Fault.nullDereference
    | some root => q1.launch be program root x y z

/-- The queue's `copyBuffer(dst, dstOffset, src, srcOffset, size)`; the
status of the copy is not looked at. -/
def CommandQueueImpl.copyBuffer (q : CommandQueueImpl) (dst : Option BufferImpl) (dstOffset : Nat)
    (src : Option BufferImpl) (srcOffset : Nat) (size : Nat) : CommandQueueImpl :=
  match dst, src with
  | some dstImpl, some srcImpl =>
    let d := dstImpl.m_cudaMemory.add dstOffset
    let s := srcImpl.m_cudaMemory.add srcOffset
    { q with
        m_device :=
          { q.m_device with
              memory := (cuMemcpy q.m_device.memory d s size).2
              trace := q.m_device.trace ++ [BackendCall.cuMemcpy d s size] } }
  | _, _ => q.raise Fault.nullDereference

/-- The queue's `uploadBufferData(dst, offset, size, data)`; the status of
the copy is not looked at. -/
def CommandQueueImpl.uploadBufferData (q : CommandQueueImpl) (dst : Option BufferImpl) (offset : Nat)
    (size : Nat) (data : Ptr) : CommandQueueImpl :=
  match dst with
  | some dstImpl =>
    let d := dstImpl.m_cudaMemory.add offset
    { q with
        m_device :=
          { q.m_device with
              memory := (cuMemcpy q.m_device.memory d data size).2
              trace := q.m_device.trace ++ [BackendCall.cuMemcpy d data size] } }
  | none => q.raise Fault.nullDereference

/-- The queue's `writeTimestamp(pool, index)`. -/
def CommandQueueImpl.writeTimestamp (q : CommandQueueImpl) (pool : Option QueryPoolImpl) (index : Nat) :
    CommandQueueImpl :=
  match pool with
  | some poolImpl =>
    match poolImpl.m_events[index]? with
    | some event => { q with m_device := q.m_device.record (BackendCall.cuEventRecord event q.stream) }
    | none => q.raise Fault.outOfBounds
  | none => q.raise Fault.nullDereference

/-- One turn of the loop of `execute`: the switch on the name of `cmd`.
Nothing is executed once execution has stopped. -/
def CommandQueueImpl.executeCommand (be : Backend) (commandBuffer : CommandBufferImpl)
    (q : CommandQueueImpl) (cmd : Command) : CommandQueueImpl :=
  match q.fault with
  | some _ => q
  | none =>
    match cmd.name with
    | CommandName.SetPipeline =>
      match commandBuffer.getPipeline (cmd.operand 0) with
      | Except.ok p => q.setPipeline (some p)
      | Except.error f => q.raise f
    | CommandName.BindRootShaderObject =>
      match commandBuffer.getShaderObject (cmd.operand 0) with
      | Except.ok o => (q.bindRootShaderObject (some o)).1
      | Except.error f => q.raise f
    | CommandName.DispatchCompute =>
      q.dispatchCompute be (toInt32 (cmd.operand 0)) (toInt32 (cmd.operand 1)) (toInt32 (cmd.operand 2))
    | CommandName.CopyBuffer =>
      match commandBuffer.getBuffer (cmd.operand 0), commandBuffer.getBuffer (cmd.operand 2) with
      | Except.ok dst, Except.ok src =>
        q.copyBuffer (some dst) (cmd.operand 1) (some src) (cmd.operand 3) (cmd.operand 4)
      | Except.error f, _ => q.raise f
      | Except.ok _, Except.error f => q.raise f
    | CommandName.UploadBufferData =>
      match commandBuffer.getBuffer (cmd.operand 0), commandBuffer.getData (cmd.operand 3) with
      | Except.ok dst, Except.ok data =>
        q.uploadBufferData (some dst) (cmd.operand 1) (cmd.operand 2) data
      | Except.error f, _ => q.raise f
      | Except.ok _, Except.error f => q.raise f
    | CommandName.WriteTimestamp =>
      match commandBuffer.getQueryPool (cmd.operand 0) with
      | Except.ok pool => q.writeTimestamp (some pool) (cmd.operand 1)
      | Except.error f => q.raise f

/-- The loop of `execute` over the commands still to run. -/
def CommandQueueImpl.executeCommands (be : Backend) (commandBuffer : CommandBufferImpl) :
    List Command → CommandQueueImpl → CommandQueueImpl
  | [], q => q
  | cmd :: rest, q =>
    CommandQueueImpl.executeCommands be commandBuffer rest (q.executeCommand be commandBuffer cmd)

/-- The queue's `execute(commandBuffer)`. -/
def CommandQueueImpl.execute (be : Backend) (q : CommandQueueImpl) (commandBuffer : CommandBufferImpl) :
    CommandQueueImpl :=
  CommandQueueImpl.executeCommands be commandBuffer commandBuffer.m_commands q

/-- The loop of `submit`: `remaining` more turns, the next one with index `i`. -/
def CommandQueueImpl.submitLoop (be : Backend) (commandBuffers : List CommandBufferImpl) :
    Nat → Nat → CommandQueueImpl → CommandQueueImpl
  | 0, _, q => q
  | remaining + 1, i, q =>
    match q.fault with
    | some _ => q
    | none =>
      match commandBuffers[i]? with
      | none => q.raise Fault.outOfBounds
      | some commandBuffer =>
        CommandQueueImpl.submitLoop be commandBuffers remaining (i + 1) (q.execute be commandBuffer)

/-- The queue's `submit(count, commandBuffers, fence, valueToSignal)`. -/
def CommandQueueImpl.submit (be : Backend) (q : CommandQueueImpl) (count : Nat)
    (commandBuffers : List CommandBufferImpl) (fence : Option Nat) (valueToSignal : Nat) :
    CommandQueueImpl :=
  match q.fault with
  | some _ => q
  | none =>
    if be.asserts && fence.isSome then q.raise Fault.assertion
    else CommandQueueImpl.submitLoop be commandBuffers count 0 q

/-- The queue's `waitOnHost()`: the stream is synchronized; a failure is
handed to the error handler and changes nothing else. -/
def CommandQueueImpl.waitOnHost (q : CommandQueueImpl) : CommandQueueImpl :=
  match q.fault with
  | some _ => q
  | none => { q with m_device := q.m_device.record (BackendCall.cuStreamSynchronize q.stream) }

/-- The queue's `waitForFenceValuesOnDevice(fenceCount, fences, waitValues)`. -/
def CommandQueueImpl.waitForFenceValuesOnDevice (q : CommandQueueImpl) (fenceCount : Nat)
    (fences : List Nat) (waitValues : List Nat) : CommandQueueImpl × Result :=
  (q, Result.SLANG_FAIL)

/-- The queue's `getNativeHandle(outHandle)`: the handle is cleared. -/
def CommandQueueImpl.getNativeHandle (q : CommandQueueImpl) : Result × NativeHandle :=
  (Result.SLANG_E_NOT_AVAILABLE, { type := NativeHandleType.Undefined, value := 0 })

/-! ## Device calls: control flow -/

/-- A run of straight-line device code: the driver calls issued, and either
the value computed or the way the enclosing function ended early. -/
structure Run (α : Type) where
  calls : List BackendCall
  res : Except Exit α

/-- A run that computes `a` without any driver call. -/
def Run.pure {α : Type} (a : α) : Run α :=
  { calls := [], res := Except.ok a }

/-- Sequencing: `f` runs only when `r` did not end the function. -/
def Run.bind {α β : Type} (r : Run α) (f : α → Run β) : Run β :=
  match r.res with
  | Except.ok a => { calls := r.calls ++ (f a).calls, res := (f a).res }
  | Except.error e => { calls := r.calls, res := Except.error e }

/-- The statement `return r;`. -/
def Run.ret {α : Type} (r : Result) : Run α :=
  { calls := [], res := Except.error (Exit.returned r) }

/-- Execution stops on fault `f`. -/
def Run.fault {α : Type} (f : Fault) : Run α :=
  { calls := [], res := Except.error (Exit.fatal f) }

/-- The macro `SLANG_RHI_ASSERT(cond)`: fatal when assertions are compiled in
and `cond` is false. -/
def Run.assert (be : Backend) (cond : Bool) : Run Unit :=
  if be.asserts && !cond then Run.fault Fault.assertion else Run.pure ()

/-- The macro `SLANG_CUDA_RETURN_ON_FAIL(call)`. -/
def Run.call (be : Backend) (call : BackendCall) : Run Unit :=
  { calls := [call]
    res := if be.status call = CUDA_SUCCESS then Except.ok ()
      else Except.error (Exit.returned (SLANG_CUDA_HANDLE_ERROR (be.status call))) }

/-- What a device call leaves behind: the device state, how the call ended,
and the content of its output parameter (`none` is `nullptr`). -/
structure ApiResult (α : Type) where
  device : DeviceImpl
  exit : Exit
  out : Option α

/-- Close a function body that ends in `return SLANG_OK` after writing `v` to
its output parameter; when the body ended early the output parameter keeps
its previous content `out`. -/
def Run.finish {α : Type} (dev : DeviceImpl) (out : Option α) (body : Run (Option α)) : ApiResult α :=
  match body.res with
  | Except.ok v =>
    { device := { dev with trace := dev.trace ++ body.calls }, exit := Exit.returned Result.SLANG_OK, out := v }
  | Except.error e =>
    { device := { dev with trace := dev.trace ++ body.calls }, exit := e, out := out }

/-! ## The device (`cuda-device.cpp`): formats -/

/-- The switch of `getCUDAFormat`: the CUDA component format of a pixel
format, `none` in the default case. -/
def cudaFormatOf (format : Format) : Option CUarray_format :=
  match format with
  | Format.R32G32B32A32_FLOAT | Format.R32G32B32_FLOAT | Format.R32G32_FLOAT | Format.R32_FLOAT
  | Format.D32_FLOAT => some CUarray_format.CU_AD_FORMAT_FLOAT
  | Format.R16G16B16A16_FLOAT | Format.R16G16_FLOAT | Format.R16_FLOAT =>
    some CUarray_format.CU_AD_FORMAT_HALF
  | Format.R32G32B32A32_UINT | Format.R32G32B32_UINT | Format.R32G32_UINT | Format.R32_UINT =>
    some CUarray_format.CU_AD_FORMAT_UNSIGNED_INT32
  | Format.R16G16B16A16_UINT | Format.R16G16_UINT | Format.R16_UINT =>
    some CUarray_format.CU_AD_FORMAT_UNSIGNED_INT16
  | Format.R8G8B8A8_UINT | Format.R8G8_UINT | Format.R8_UINT | Format.R8G8B8A8_UNORM =>
    some CUarray_format.CU_AD_FORMAT_UNSIGNED_INT8
  | Format.R32G32B32A32_SINT | Format.R32G32B32_SINT | Format.R32G32_SINT | Format.R32_SINT =>
    some CUarray_format.CU_AD_FORMAT_SIGNED_INT32
  | Format.R16G16B16A16_SINT | Format.R16G16_SINT | Format.R16_SINT =>
    some CUarray_format.CU_AD_FORMAT_SIGNED_INT16
  | Format.R8G8B8A8_SINT | Format.R8G8_SINT | Format.R8_SINT =>
    some CUarray_format.CU_AD_FORMAT_SIGNED_INT8
  | _ => none

/-- The device's `getCUDAFormat(format, outFormat)`: the run yields the value
written to `outFormat`; in the default case the assertion fires and
`SLANG_FAIL` is returned. -/
def DeviceImpl.getCUDAFormat (be : Backend) (format : Format) : Run CUarray_format :=
  match cudaFormatOf format with
  | some f => Run.pure f
  | none => Run.bind (Run.assert be false) (fun _ => Run.ret Result.SLANG_FAIL)

/-! ## The device: sampler, input layout, render pipeline, buffers -/

/-- The device's `createSampler(desc, outSampler)`. -/
def DeviceImpl.createSampler {SamplerDesc ISampler : Type} (dev : DeviceImpl) (desc : SamplerDesc)
    (outSampler : Option ISampler) : ApiResult ISampler :=
  { device := dev, exit := Exit.returned Result.SLANG_OK, out := none }

/-- The device's `createInputLayout(desc, outLayout)`. -/
def DeviceImpl.createInputLayout {InputLayoutDesc IInputLayout : Type} (dev : DeviceImpl)
    (desc : InputLayoutDesc) (outLayout : Option IInputLayout) : ApiResult IInputLayout :=
  { device := dev, exit := Exit.returned Result.SLANG_E_NOT_AVAILABLE, out := outLayout }

/-- The device's `createRenderPipeline(desc, outPipeline)`. -/
def DeviceImpl.createRenderPipeline {RenderPipelineDesc IPipeline : Type} (dev : DeviceImpl)
    (desc : RenderPipelineDesc) (outPipeline : Option IPipeline) : ApiResult IPipeline :=
  { device := dev, exit := Exit.returned Result.SLANG_E_NOT_AVAILABLE, out := outPipeline }

/-- The device's `readBuffer(buffer, offset, size, outBlob)`: a blob of
`size` bytes is created and filled by a copy whose status is not looked at. -/
def DeviceImpl.readBuffer (dev : DeviceImpl) (buffer : Option BufferImpl) (offset size : Nat)
    (outBlob : Option (List Byte)) : ApiResult (List Byte) :=
  match buffer with
  | none => { device := dev, exit := Exit.fatal Fault.nullDereference, out := outBlob }
  | some bufferImpl =>
    let blob : List Byte := List.replicate size 0
    let src := bufferImpl.m_cudaMemory.add offset
    { device := dev.record (BackendCall.cuMemcpy (Ptr.host blob) src size)
      exit := Exit.returned Result.SLANG_OK
      out := some (cuMemcpyToHost dev.memory blob src size).2 }

/-- The device's `createBuffer(descIn, initData, outBuffer)`.  A successful
`cuMemAllocManaged` adds a fresh allocation of `desc.size` bytes. -/
def DeviceImpl.createBuffer (be : Backend) (dev : DeviceImpl) (descIn : BufferDesc)
    (initData : Option (List Byte)) (outBuffer : Option BufferImpl) : ApiResult BufferImpl :=
  let desc := be.fixupBufferDesc descIn
  let alloc := BackendCall.cuMemAllocManaged desc.size
  if be.status alloc ≠ CUDA_SUCCESS then
    { device := dev.record alloc
      exit := Exit.returned (SLANG_CUDA_HANDLE_ERROR (be.status alloc))
      out := outBuffer }
  else
    let address := Ptr.device dev.memory.length 0
    let buffer : BufferImpl := { m_desc := desc, m_cudaMemory := address, m_cudaExternalMemory := none }
    let dev1 : DeviceImpl :=
      { dev with memory := dev.memory ++ [List.replicate desc.size 0], trace := dev.trace ++ [alloc] }
    match initData with
    | none => { device := dev1, exit := Exit.returned Result.SLANG_OK, out := some buffer }
    | some bytes =>
      let copied := cuMemcpy dev1.memory address (Ptr.host bytes) desc.size
      let dev2 : DeviceImpl :=
        { dev1 with
            memory := copied.2
            trace := dev1.trace ++ [BackendCall.cuMemcpy address (Ptr.host bytes) desc.size] }
      if copied.1 ≠ CUDA_SUCCESS then
        { device := dev2, exit := Exit.returned (SLANG_CUDA_HANDLE_ERROR copied.1), out := outBuffer }
      else { device := dev2, exit := Exit.returned Result.SLANG_OK, out := some buffer }

/-- The switch on `handle.type` shared by the two import functions; `none`
is its default case. -/
def externalMemoryHandleType (type : NativeHandleType) : Option CUexternalMemoryHandleType :=
  match type with
  | NativeHandleType.D3D12Resource =>
    some CUexternalMemoryHandleType.CU_EXTERNAL_MEMORY_HANDLE_TYPE_D3D12_RESOURCE
  | NativeHandleType.Win32 => some CUexternalMemoryHandleType.CU_EXTERNAL_MEMORY_HANDLE_TYPE_OPAQUE_WIN32
  | _ => none

/-- Body of `createBufferFromSharedHandle`. -/
def DeviceImpl.createBufferFromSharedHandleBody (be : Backend) (handle : NativeHandle)
    (desc : BufferDesc) : Run (Option BufferImpl) :=
  if !handle.toBool then Run.pure none
  else
    match externalMemoryHandleType handle.type with
    | none => Run.ret Result.SLANG_FAIL
    | some type =>
      let externalMemoryHandleDesc : CUDA_EXTERNAL_MEMORY_HANDLE_DESC :=
        { type := type, handle := handle.value, size := desc.size, flags := CUDA_EXTERNAL_MEMORY_DEDICATED }
      let externalMemory : CUexternalMemory := { desc := externalMemoryHandleDesc }
      Run.bind (Run.call be (BackendCall.cuImportExternalMemory externalMemoryHandleDesc)) (fun _ =>
      Run.bind (Run.call be (BackendCall.cuExternalMemoryGetMappedBuffer externalMemory desc.size)) (fun _ =>
      Run.pure (some
        { m_desc := desc
          m_cudaMemory := be.mappedBuffer externalMemory
          m_cudaExternalMemory := some externalMemory })))

/-- The device's `createBufferFromSharedHandle(handle, desc, outBuffer)`. -/
def DeviceImpl.createBufferFromSharedHandle (be : Backend) (dev : DeviceImpl) (handle : NativeHandle)
    (desc : BufferDesc) (outBuffer : Option BufferImpl) : ApiResult BufferImpl :=
  Run.finish dev outBuffer (DeviceImpl.createBufferFromSharedHandleBody be handle desc)

/-! ## The device: textures -/

/-- The extents `createTexture` works with, after the switch on the texture
type: dimensions above the rank are zero, and a cube has depth 1. -/
def massagedExtents (desc : TextureDesc) : Nat × Nat × Nat :=
  match desc.type with
  | TextureType.Texture1D => (desc.size.width, 0, 0)
  | TextureType.Texture2D => (desc.size.width, desc.size.height, 0)
  | TextureType.Texture3D => (desc.size.width, desc.size.height, desc.size.depth)
  | TextureType.TextureCube => (desc.size.width, desc.size.height, 1)

/-- The switch on the CUDA format that sets `elementSize`; in its default
case the assertion fires and `SLANG_FAIL` is returned. -/
def elementSizeFor (be : Backend) (format : CUarray_format) (numChannels : Nat) : Run Nat :=
  match format with
  | CUarray_format.CU_AD_FORMAT_FLOAT => Run.pure (4 * numChannels)
  | CUarray_format.CU_AD_FORMAT_HALF => Run.pure (2 * numChannels)
  | CUarray_format.CU_AD_FORMAT_UNSIGNED_INT8 => Run.pure (1 * numChannels)
  | _ => Run.bind (Run.assert be false) (fun _ => Run.ret Result.SLANG_FAIL)

/-- The test `type == Texture1D || type == Texture2D || type == TextureCube`. -/
def is1D2DOrCube (type : TextureType) : Bool :=
  decide (type = TextureType.Texture1D) || decide (type = TextureType.Texture2D) ||
    decide (type = TextureType.TextureCube)

/-- The array handle behind a `CUDA_ARRAY_DESCRIPTOR`. -/
def CUarray.of2D (d : CUDA_ARRAY_DESCRIPTOR) : CUarray :=
  { desc := { Width := d.Width, Height := d.Height, Depth := 0, Format := d.Format,
              NumChannels := d.NumChannels, Flags := 0 } }

/-- The branch of `createTexture` for `mipLevelCount > 1`: a mip-chain is
created. -/
def createMipmappedArray (be : Backend) (desc : TextureDesc) (width height depth : Nat)
    (format : CUarray_format) (numChannels : Nat) (tex : TextureImpl) : Run TextureImpl :=
  let arrayDesc : CUDA_ARRAY3D_DESCRIPTOR :=
    { Width := width, Height := height, Depth := depth, Format := format,
      NumChannels := numChannels, Flags := 0 }
  let layered : Run CUDA_ARRAY3D_DESCRIPTOR :=
    if desc.arrayLength > 1 then
      if is1D2DOrCube desc.type then
        Run.pure { arrayDesc with Flags := arrayDesc.Flags ||| CUDA_ARRAY3D_LAYERED, Depth := desc.arrayLength }
      else Run.bind (Run.assert be false) (fun _ => Run.ret Result.SLANG_FAIL)
    else Run.pure arrayDesc
  Run.bind layered (fun arrayDesc1 =>
    let arrayDesc2 : CUDA_ARRAY3D_DESCRIPTOR :=
      if desc.type = TextureType.TextureCube then
        { arrayDesc1 with Flags := arrayDesc1.Flags ||| CUDA_ARRAY3D_CUBEMAP, Depth := arrayDesc1.Depth * 6 }
      else arrayDesc1
    Run.bind (Run.call be (BackendCall.cuMipmappedArrayCreate arrayDesc2 desc.mipLevelCount)) (fun _ =>
      Run.pure { tex with m_cudaMipMappedArray := some { desc := arrayDesc2, numLevels := desc.mipLevelCount } }))

/-- The branch of `createTexture` for a single mip level: a plain array is
created. -/
def createPlainArray (be : Backend) (desc : TextureDesc) (width height depth : Nat)
    (format : CUarray_format) (numChannels : Nat) (tex : TextureImpl) : Run TextureImpl :=
  if desc.arrayLength > 1 then
    if is1D2DOrCube desc.type then
      Run.bind (Run.assert be false) (fun _ => Run.ret Result.SLANG_FAIL)
    else
      let arrayDesc : CUDA_ARRAY3D_DESCRIPTOR :=
        { Width := width, Height := height
          Depth := if desc.type = TextureType.TextureCube then desc.arrayLength * 6 else desc.arrayLength
          Format := format, NumChannels := numChannels
          Flags := if desc.type = TextureType.TextureCube then 0 ||| CUDA_ARRAY3D_CUBEMAP else 0 }
      Run.bind (Run.call be (BackendCall.cuArray3DCreate arrayDesc)) (fun _ =>
        Run.pure { tex with m_cudaArray := some { desc := arrayDesc } })
  else if decide (desc.type = TextureType.Texture3D) || decide (desc.type = TextureType.TextureCube) then
    let arrayDesc : CUDA_ARRAY3D_DESCRIPTOR :=
      { Width := width, Height := height
        Depth := if desc.type = TextureType.TextureCube then 6 else depth
        Format := format, NumChannels := numChannels
        Flags := if desc.type = TextureType.TextureCube then 0 ||| CUDA_ARRAY3D_CUBEMAP else 0 }
    Run.bind (Run.call be (BackendCall.cuArray3DCreate arrayDesc)) (fun _ =>
      Run.pure { tex with m_cudaArray := some { desc := arrayDesc } })
  else
    let arrayDesc : CUDA_ARRAY_DESCRIPTOR :=
      { Width := width, Height := height, Format := format, NumChannels := numChannels }
    Run.bind (Run.call be (BackendCall.cuArrayCreate arrayDesc)) (fun _ =>
      Run.pure { tex with m_cudaArray := some (CUarray.of2D arrayDesc) })

/-- The array creation of `createTexture`: the texture with its array handle
set, and the resource type. -/
def createTextureArray (be : Backend) (desc : TextureDesc) (width height depth : Nat)
    (format : CUarray_format) (numChannels : Nat) (tex : TextureImpl) :
    Run (TextureImpl × CUresourcetype) :=
  if desc.mipLevelCount > 1 then
    Run.bind (createMipmappedArray be desc width height depth format numChannels tex) (fun t =>
      Run.pure (t, CUresourcetype.CU_RESOURCE_TYPE_MIPMAPPED_ARRAY))
  else
    Run.bind (createPlainArray be desc width height depth format numChannels tex) (fun t =>
      Run.pure (t, CUresourcetype.CU_RESOURCE_TYPE_ARRAY))

/-- An extent at a mip level: `v >> mipLevel`, and 1 when that is 0. -/
def mipExtent (v mipLevel : Nat) : Nat :=
  if v >>> mipLevel = 0 then 1 else v >>> mipLevel

/-- The driver's array for one level of a mip-chain: width and a non-zero
height are halved per level (never below 1); the depth is halved too unless
the chain is layered or a cube map. -/
def CUmipmappedArray.level (m : CUmipmappedArray) (mipLevel : Nat) : CUarray :=
  { desc :=
      { m.desc with
          Width := mipExtent m.desc.Width mipLevel
          Height := if m.desc.Height = 0 then 0 else mipExtent m.desc.Height mipLevel
          Depth := if m.desc.Flags &&& (CUDA_ARRAY3D_LAYERED ||| CUDA_ARRAY3D_CUBEMAP) ≠ 0 ∨ m.desc.Depth = 0
            then m.desc.Depth else mipExtent m.desc.Depth mipLevel } }

/-- The vector operation `workspace.resize(n)`. -/
def resize (workspace : List Byte) (n : Nat) : List Byte :=
  workspace.take n ++ List.replicate (n - workspace.length) 0

/-- The loop that gathers faces into the workspace: `remaining` more turns,
the next one for face `j`.  Each turn copies `faceSizeInBytes` bytes of
`initData[mipLevel + j * mipLevelCount]` to offset `faceSizeInBytes * j`. -/
def gatherFaces (initData : List SubresourceData) (mipLevel mipLevelCount faceSizeInBytes : Nat) :
    Nat → Nat → List Byte → Except Fault (List Byte)
  | 0, _, workspace => Except.ok workspace
  | remaining + 1, j, workspace =>
    match initData[mipLevel + j * mipLevelCount]? with
    | none => Except.error Fault.outOfBounds
    | some subresource =>
      if faceSizeInBytes ≤ subresource.data.length then
        gatherFaces initData mipLevel mipLevelCount faceSizeInBytes remaining (j + 1)
          (splice workspace (faceSizeInBytes * j) (subresource.data.take faceSizeInBytes))
      else Except.error Fault.outOfBounds

/-- A gather of `faceCount` faces into the resized workspace, as a run. -/
def stageFaces (initData : List SubresourceData) (mipLevel mipLevelCount faceSizeInBytes faceCount : Nat)
    (workspace : List Byte) : Run (List Byte) :=
  match gatherFaces initData mipLevel mipLevelCount faceSizeInBytes faceCount 0
      (resize workspace (faceSizeInBytes * faceCount)) with
  | Except.ok w => Run.pure w
  | Except.error f => Run.fault f

/-- The number of faces gathered for an arrayed texture: the array length,
times 6 for a cube. -/
def arrayFaceCount (desc : TextureDesc) : Nat :=
  if desc.type = TextureType.TextureCube then desc.arrayLength * 6 else desc.arrayLength

/-- The source data of one mip level: the workspace afterwards, and the bytes
at `srcDataPtr`. -/
def stageMipLevel (be : Backend) (desc : TextureDesc) (initData : List SubresourceData)
    (elementSize mipWidth mipHeight mipLevel : Nat) (workspace : List Byte) :
    Run (List Byte × List Byte) :=
  if desc.arrayLength > 1 then
    Run.bind (Run.assert be (is1D2DOrCube desc.type)) (fun _ =>
    Run.bind (stageFaces initData mipLevel desc.mipLevelCount (elementSize * mipWidth * mipHeight)
      (arrayFaceCount desc) workspace) (fun w => Run.pure (w, w)))
  else if desc.type = TextureType.TextureCube then
    Run.bind (stageFaces initData mipLevel desc.mipLevelCount (elementSize * mipWidth * mipHeight) 6
      workspace) (fun w => Run.pure (w, w))
  else
    match initData[mipLevel]? with
    | some subresource => Run.pure (workspace, subresource.data)
    | none => Run.fault Fault.outOfBounds

/-- The copy of one staged mip level into its array. -/
def copyMipLevel (be : Backend) (desc : TextureDesc) (dstArray : Option CUarray)
    (elementSize mipWidth mipHeight mipDepth : Nat) (srcData : List Byte) : Run Unit :=
  if desc.arrayLength > 1 then
    Run.bind (Run.assert be (is1D2DOrCube desc.type)) (fun _ =>
      Run.call be (BackendCall.cuMemcpy3D
        { dstArray := dstArray, srcHost := srcData, srcPitch := mipWidth * elementSize
          WidthInBytes := mipWidth * elementSize, Height := mipHeight
          Depth := if desc.type = TextureType.TextureCube then desc.arrayLength * 6 else desc.arrayLength }))
  else
    match desc.type with
    | TextureType.Texture1D | TextureType.Texture2D =>
      Run.call be (BackendCall.cuMemcpy2D
        { dstArray := dstArray, srcHost := srcData, srcPitch := mipWidth * elementSize
          WidthInBytes := mipWidth * elementSize, Height := mipHeight })
    | TextureType.Texture3D | TextureType.TextureCube =>
      Run.call be (BackendCall.cuMemcpy3D
        { dstArray := dstArray, srcHost := srcData, srcPitch := mipWidth * elementSize
          WidthInBytes := mipWidth * elementSize, Height := mipHeight, Depth := mipDepth })

/-- The destination array of a mip level: the plain array, or the level of
the mip-chain when there is one. -/
def mipLevelArray (be : Backend) (tex : TextureImpl) (mipLevel : Nat) : Run (Option CUarray) :=
  match tex.m_cudaMipMappedArray with
  | some m =>
    Run.bind (Run.call be (BackendCall.cuMipmappedArrayGetLevel (some m) mipLevel)) (fun _ =>
      Run.pure (some (m.level mipLevel)))
  | none => Run.pure tex.m_cudaArray

/-- The plausibility check of a mip level against the descriptor of its array. -/
def checkMipLevel (be : Backend) (dstArray : Option CUarray) (mipWidth mipHeight : Nat) : Run Unit :=
  Run.bind (Run.call be (BackendCall.cuArrayGetDescriptor dstArray)) (fun _ =>
    match dstArray with
    | some a =>
      Run.bind (Run.assert be (decide (mipWidth = a.desc.Width))) (fun _ =>
        Run.assert be (decide (mipHeight = a.desc.Height) ||
          (decide (mipHeight = 1) && decide (a.desc.Height = 0))))
    | none => Run.pure ())

/-- One turn of the upload loop of `createTexture`, for level `mipLevel`; the
run yields the workspace afterwards. -/
def uploadMipLevel (be : Backend) (desc : TextureDesc) (initData : List SubresourceData)
    (width height depth elementSize : Nat) (tex : TextureImpl) (mipLevel : Nat)
    (workspace : List Byte) : Run (List Byte) :=
  let mipWidth := mipExtent width mipLevel
  let mipHeight := mipExtent height mipLevel
  let mipDepth := if desc.type = TextureType.TextureCube then 6 else mipExtent depth mipLevel
  Run.bind (mipLevelArray be tex mipLevel) (fun dstArray =>
  Run.bind (Run.assert be dstArray.isSome) (fun _ =>
  Run.bind (checkMipLevel be dstArray mipWidth mipHeight) (fun _ =>
  Run.bind (stageMipLevel be desc initData elementSize mipWidth mipHeight mipLevel workspace) (fun staged =>
  Run.bind (copyMipLevel be desc dstArray elementSize mipWidth mipHeight mipDepth staged.2) (fun _ =>
  Run.pure staged.1)))))

/-- The upload loop of `createTexture`: `remaining` more levels, the next one
being `mipLevel`. -/
def uploadMipLevels (be : Backend) (desc : TextureDesc) (initData : List SubresourceData)
    (width height depth elementSize : Nat) (tex : TextureImpl) :
    Nat → Nat → List Byte → Run Unit
  | 0, _, _ => Run.pure ()
  | remaining + 1, mipLevel, workspace =>
    Run.bind (uploadMipLevel be desc initData width height depth elementSize tex mipLevel workspace)
      (fun w => uploadMipLevels be desc initData width height depth elementSize tex remaining
        (mipLevel + 1) w)

/-- The sampling state `createTexture` gives every texture object. -/
def defaultTextureDesc : CUDA_TEXTURE_DESC :=
  { addressMode0 := CUaddress_mode.CU_TR_ADDRESS_MODE_WRAP
    addressMode1 := CUaddress_mode.CU_TR_ADDRESS_MODE_WRAP
    addressMode2 := CUaddress_mode.CU_TR_ADDRESS_MODE_WRAP
    filterMode := CUfilter_mode.CU_TR_FILTER_MODE_LINEAR
    flags := CU_TRSF_NORMALIZED_COORDINATES }

/-- The last block of `createTexture`: a surface object when the usage has
`UnorderedAccess`, and the texture object for sampling. -/
def createTextureObjects (be : Backend) (desc : TextureDesc) (resourceType : CUresourcetype)
    (tex : TextureImpl) : Run TextureImpl :=
  let resDesc : CUDA_RESOURCE_DESC :=
    { resType := resourceType, hArray := tex.m_cudaArray, hMipmappedArray := tex.m_cudaMipMappedArray }
  let withSurface : Run TextureImpl :=
    if is_set desc.usage TextureUsage.UnorderedAccess then
      Run.bind (Run.assert be (decide (desc.mipLevelCount = 1))) (fun _ =>
      Run.bind (Run.call be (BackendCall.cuSurfObjectCreate resDesc)) (fun _ =>
      Run.pure { tex with m_cudaSurfObj := some { res := resDesc } }))
    else Run.pure tex
  Run.bind withSurface (fun tex1 =>
  Run.bind (Run.call be (BackendCall.cuTexObjectCreate resDesc defaultTextureDesc)) (fun _ =>
  Run.pure { tex1 with m_cudaTexObj := some { res := resDesc, tex := defaultTextureDesc } }))

/-- Body of `createTexture`. -/
def DeviceImpl.createTextureBody (be : Backend) (desc : TextureDesc)
    (initData : Option (List SubresourceData)) : Run (Option TextureImpl) :=
  let tex : TextureImpl :=
    { m_desc := be.fixupTextureDesc desc, m_cudaArray := none, m_cudaMipMappedArray := none
      m_cudaSurfObj := none, m_cudaTexObj := none, m_cudaExternalMemory := none }
  let width := (massagedExtents desc).1
  let height := (massagedExtents desc).2.1
  let depth := (massagedExtents desc).2.2
  Run.bind (DeviceImpl.getCUDAFormat be desc.format) (fun format =>
  let numChannels := (getFormatInfo desc.format).channelCount
  Run.bind (elementSizeFor be format numChannels) (fun elementSize =>
  Run.bind (createTextureArray be desc width height depth format numChannels tex) (fun created =>
  let upload : Run Unit :=
    match initData with
    | some data =>
      uploadMipLevels be desc data width height depth elementSize created.1 desc.mipLevelCount 0 []
    | none => Run.pure ()
  Run.bind upload (fun _ =>
  Run.bind (createTextureObjects be desc created.2 created.1) (fun t => Run.pure (some t))))))

/-- The device's `createTexture(desc, initData, outTexture)`. -/
def DeviceImpl.createTexture (be : Backend) (dev : DeviceImpl) (desc : TextureDesc)
    (initData : Option (List SubresourceData)) (outTexture : Option TextureImpl) :
    ApiResult TextureImpl :=
  Run.finish dev outTexture (DeviceImpl.createTextureBody be desc initData)

/-- Body of `createTextureFromSharedHandle`.  The result of `getCUDAFormat`
is not looked at; when it writes no format the field keeps the value it had. -/
def DeviceImpl.createTextureFromSharedHandleBody (be : Backend) (handle : NativeHandle)
    (desc : TextureDesc) (size : Nat) : Run (Option TextureImpl) :=
  if !handle.toBool then Run.pure none
  else
    match externalMemoryHandleType handle.type with
    | none => Run.ret Result.SLANG_FAIL
    | some type =>
      let externalMemoryHandleDesc : CUDA_EXTERNAL_MEMORY_HANDLE_DESC :=
        { type := type, handle := handle.value, size := size, flags := CUDA_EXTERNAL_MEMORY_DEDICATED }
      let externalMemory : CUexternalMemory := { desc := externalMemoryHandleDesc }
      Run.bind (Run.call be (BackendCall.cuImportExternalMemory externalMemoryHandleDesc)) (fun _ =>
      let written : Run CUarray_format :=
        match cudaFormatOf desc.format with
        | some f => Run.pure f
        | none => Run.bind (Run.assert be false) (fun _ => Run.pure be.uninitializedFormat)
      Run.bind written (fun format =>
      let arrayDesc : CUDA_ARRAY3D_DESCRIPTOR :=
        { Width := desc.size.width, Height := desc.size.height, Depth := desc.size.depth
          Format := format, NumChannels := (getFormatInfo desc.format).channelCount, Flags := 0 }
      let mipArray : CUmipmappedArray := { desc := arrayDesc, numLevels := desc.mipLevelCount }
      Run.bind (Run.call be (BackendCall.cuExternalMemoryGetMappedMipmappedArray externalMemory arrayDesc
        desc.mipLevelCount)) (fun _ =>
      Run.bind (Run.call be (BackendCall.cuMipmappedArrayGetLevel (some mipArray) 0)) (fun _ =>
      let cuArray := mipArray.level 0
      let surfDesc : CUDA_RESOURCE_DESC :=
        { resType := CUresourcetype.CU_RESOURCE_TYPE_ARRAY, hArray := some cuArray, hMipmappedArray := none }
      Run.bind (Run.call be (BackendCall.cuSurfObjectCreate surfDesc)) (fun _ =>
      Run.bind (Run.call be (BackendCall.cuTexObjectCreate surfDesc defaultTextureDesc)) (fun _ =>
      Run.pure (some
        { m_desc := desc
          m_cudaArray := some cuArray
          m_cudaMipMappedArray := some mipArray
          m_cudaSurfObj := some { res := surfDesc }
          m_cudaTexObj := some { res := surfDesc, tex := defaultTextureDesc }
          m_cudaExternalMemory := some externalMemory })))))))

/-- The device's `createTextureFromSharedHandle(handle, desc, size, outTexture)`. -/
def DeviceImpl.createTextureFromSharedHandle (be : Backend) (dev : DeviceImpl) (handle : NativeHandle)
    (desc : TextureDesc) (size : Nat) (outTexture : Option TextureImpl) : ApiResult TextureImpl :=
  Run.finish dev outTexture (DeviceImpl.createTextureFromSharedHandleBody be handle desc size)

/-! ## The device: reading a texture back -/

/-- What `readTexture` leaves behind: the device state, how the call ended,
and the contents of its three output parameters. -/
structure ReadTextureResult where
  device : DeviceImpl
  exit : Exit
  outBlob : Option (List Byte)
  outRowPitch : Nat
  outPixelSize : Nat

/-- The device's `readTexture(texture, outBlob, outRowPitch, outPixelSize)`
for a texture whose format has the table entry `formatInfo`.  The blob has
`size` bytes whatever the driver delivers. -/
def DeviceImpl.readTextureWith (be : Backend) (dev : DeviceImpl) (formatInfo : FormatInfo)
    (textureImpl : TextureImpl) (outBlob : Option (List Byte)) (outRowPitch outPixelSize : Nat) :
    ReadTextureResult :=
  let width := textureImpl.m_desc.size.width
  let height := textureImpl.m_desc.size.height
  if formatInfo.pixelsPerBlock = 0 then
    { device := dev, exit := Exit.fatal Fault.divisionByZero, outBlob := outBlob
      outRowPitch := outRowPitch, outPixelSize := outPixelSize }
  else
    let pixelSize := formatInfo.blockSizeInBytes / formatInfo.pixelsPerBlock
    let rowPitch := width * pixelSize
    let size := height * rowPitch
    let copy := BackendCall.cuMemcpy2DToHost
      { srcArray := textureImpl.m_cudaArray, dstSize := size, dstPitch := rowPitch
        WidthInBytes := rowPitch, Height := height }
    if be.status copy ≠ CUDA_SUCCESS then
      { device := dev.record copy, exit := Exit.returned (SLANG_CUDA_HANDLE_ERROR (be.status copy))
        outBlob := outBlob, outRowPitch := outRowPitch, outPixelSize := outPixelSize }
    else
      { device := dev.record copy, exit := Exit.returned Result.SLANG_OK
        outBlob := some (resize (be.arrayBytes textureImpl.m_cudaArray) size)
        outRowPitch := rowPitch, outPixelSize := pixelSize }

/-- The device's `readTexture(texture, outBlob, outRowPitch, outPixelSize)`. -/
def DeviceImpl.readTexture (be : Backend) (dev : DeviceImpl) (texture : Option TextureImpl)
    (outBlob : Option (List Byte)) (outRowPitch outPixelSize : Nat) : ReadTextureResult :=
  match texture with
  | none =>
    { device := dev, exit := Exit.fatal Fault.nullDereference, outBlob := outBlob
      outRowPitch := outRowPitch, outPixelSize := outPixelSize }
  | some textureImpl =>
    dev.readTextureWith be (getFormatInfo textureImpl.m_desc.format) textureImpl outBlob outRowPitch
      outPixelSize

/-! ## The device: shader programs -/

/-- Slang's reflection of a program: its entry points, in order. -/
structure ProgramLayout where
  entryPoints : List KernelInfo
  deriving DecidableEq, Repr

/-- Modelled from the spec: slang's `IComponentType` and the helper
`getEntryPointCodeFromShaderCache` are not in the translated files.  A program
is given by a number, its specialization parameter count, its layout (null
when there is none), and what compiling its entry point 0 yields: a result
code, the kernel code and the diagnostics blob (each null when absent). -/
structure ComponentType where
  id : Nat
  specializationParamCount : Nat
  layout : Option ProgramLayout
  compileResult : Result
  kernelCode : Option (List Byte)
  diagnostics : Option (List Byte)
  deriving DecidableEq, Repr

/-- The field of `ShaderProgramDesc` that the backend reads. -/
structure ShaderProgramDesc where
  slangGlobalScope : Option ComponentType
  deriving DecidableEq, Repr

/-- Kinds of debug message. -/
inductive DebugMessageType
  | Info
  | Warning
  | Error
  deriving DecidableEq, Repr

/-- Modelled from the spec: the constructor of `RootShaderObjectLayoutImpl`
is not in the translated files.  The layout has one kernel per entry point of
the program layout, in entry point order; a null program layout is
dereferenced. -/
def RootShaderObjectLayoutImpl.ofProgramLayout (programLayout : Option ProgramLayout) :
    Except Fault RootShaderObjectLayoutImpl :=
  match programLayout with
  | some l => Except.ok { kernels := l.entryPoints }
  | none => Except.error Fault.nullDereference

/-- What `createShaderProgram` leaves behind: the device state, how the call
ended, the contents of the program output and of the optional diagnostics
output (`none` when the caller supplied none), and the messages handed to
`handleMessage`. -/
structure ShaderProgramResult where
  device : DeviceImpl
  exit : Exit
  outProgram : Option ShaderProgramImpl
  outDiagnosticBlob : Option (Option (List Byte))
  messages : List (DebugMessageType × List Byte)

/-- The part of `createShaderProgram` after a successful compilation: module
load, kernel lookup by the name of entry point 0, and the root layout.  The
late test for a null program layout comes after the layout was dereferenced
for the kernel name. -/
def DeviceImpl.loadShaderProgram (be : Backend) (scope : ComponentType) :
    Run (Option ShaderProgramImpl) :=
  match scope.kernelCode with
  | none => Run.fault Fault.nullDereference
  | some code =>
    Run.bind (Run.call be (BackendCall.cuModuleLoadData code)) (fun _ =>
    match scope.layout with
    | none => Run.fault Fault.nullDereference
    | some programLayout =>
      match programLayout.entryPoints[0]? with
      | none => Run.fault Fault.nullDereference
      | some entryPoint =>
        Run.bind (Run.call be
          (BackendCall.cuModuleGetFunction (be.loadedModule code) entryPoint.name)) (fun _ =>
        Run.pure (some
          { kernelName := entryPoint.name
            cudaModule := be.loadedModule code
            cudaKernel := be.moduleFunction (be.loadedModule code) entryPoint.name
            layout := some { kernels := programLayout.entryPoints } })))

/-- The device's `createShaderProgram(desc, outProgram, outDiagnosticBlob)`. -/
def DeviceImpl.createShaderProgram (be : Backend) (dev : DeviceImpl) (desc : ShaderProgramDesc)
    (outProgram : Option ShaderProgramImpl) (outDiagnosticBlob : Option (Option (List Byte))) :
    ShaderProgramResult :=
  match desc.slangGlobalScope with
  | none =>
    { device := dev, exit := Exit.fatal Fault.nullDereference, outProgram := outProgram
      outDiagnosticBlob := outDiagnosticBlob, messages := [] }
  | some scope =>
    if scope.specializationParamCount ≠ 0 then
      match RootShaderObjectLayoutImpl.ofProgramLayout scope.layout with
      | Except.error f =>
        { device := dev, exit := Exit.fatal f, outProgram := outProgram
          outDiagnosticBlob := outDiagnosticBlob, messages := [] }
      | Except.ok layout =>
        { device := dev, exit := Exit.returned Result.SLANG_OK
          outProgram := some { kernelName := "", cudaModule := 0, cudaKernel := 0, layout := some layout }
          outDiagnosticBlob := outDiagnosticBlob, messages := [] }
    else
      let compiled := dev.record (BackendCall.compileKernel scope.id [])
      let messages : List (DebugMessageType × List Byte) :=
        match scope.diagnostics with
        | some text =>
          [(if scope.compileResult = Result.SLANG_OK then DebugMessageType.Warning
            else DebugMessageType.Error, text)]
        | none => []
      let diagnosticBlob : Option (Option (List Byte)) :=
        match scope.diagnostics, outDiagnosticBlob with
        | some text, some _ => some (some text)
        | _, _ => outDiagnosticBlob
      if SLANG_FAILED scope.compileResult then
        { device := compiled, exit := Exit.returned scope.compileResult, outProgram := outProgram
          outDiagnosticBlob := diagnosticBlob, messages := messages }
      else
        let loaded := Run.finish compiled outProgram (DeviceImpl.loadShaderProgram be scope)
        { device := loaded.device, exit := loaded.exit, outProgram := loaded.out
          outDiagnosticBlob := diagnosticBlob, messages := messages }

/-! ## The device: choice of the CUDA device -/

/-- The `n` bytes at `p` are device memory: `p` points into an allocation
that holds at least `n` bytes from `p` on. -/
def deviceRange (mem : DeviceMemory) (p : Ptr) (n : Nat) : Bool :=
  match p with
  | Ptr.device a off =>
    match mem[a]? with
    | some bs => decide (off + n ≤ bs.length)
    | none => false
  | _ => false

/-- Number of compilations of the kernel for (`id`, `args`) in a trace. -/
def compileCount (trace : List BackendCall) (id : Nat) (args : List Nat) : Nat :=
  trace.count (BackendCall.compileKernel id args)

/-- Invariant of the specialization cache: no key was compiled more than
once, and a key that is not in the cache was never compiled. -/
def DeviceImpl.CompiledOnce (dev : DeviceImpl) : Prop :=
  ∀ id args, compileCount dev.trace id args ≤ 1 ∧
    (getSpecializedPipeline dev.shaderCache (id, args) = none → compileCount dev.trace id args = 0)

/-- Two device states with the same cache and the same compilations. -/
def DeviceImpl.SameCompiles (d1 d2 : DeviceImpl) : Prop :=
  d2.shaderCache = d1.shaderCache ∧
    ∀ id args, compileCount d2.trace id args = compileCount d1.trace id args

/-- Device state `d2` continues `d1`: the cache invariant carries over, and
every pipeline cached in `d1` is still cached, under the same key, in `d2`. -/
def DeviceImpl.Continues (d1 d2 : DeviceImpl) : Prop :=
  (d1.CompiledOnce → d2.CompiledOnce) ∧
    ∀ key p, getSpecializedPipeline d1.shaderCache key = some p →
      getSpecializedPipeline d2.shaderCache key = some p

/-! ## Concrete inputs -/

/-- A backend on which every driver call succeeds; kernels leave memory as it
is, and the kernel compiled for pipeline `id` is called `computeMain`. -/
def exampleBackend (asserts : Bool) : Backend :=
  { asserts := asserts
    status := fun _ => CUDA_SUCCESS
    compile := fun id _ => { kernelName := "computeMain", cudaModule := id + 1, cudaKernel := id + 1 }
    moduleGlobal := fun _ => (Ptr.null, 0)
    kernel := fun _ _ _ _ mem => mem
    fixupTextureDesc := fun d => d
    fixupBufferDesc := fun d => d
    uninitializedFormat := CUarray_format.CU_AD_FORMAT_FLOAT
    mappedBuffer := fun _ => Ptr.null
    arrayBytes := fun _ => []
    loadedModule := fun _ => 1
    moduleFunction := fun m _ => m }

/-- A device with two allocations of four bytes, an empty cache and no call
issued yet. -/
def exampleDevice : DeviceImpl :=
  { shaderCache := [], memory := [[0, 0, 0, 0], [0, 0, 0, 0]], trace := [] }

/-- A queue on `exampleDevice` with nothing bound. -/
def exampleQueue : CommandQueueImpl :=
  { m_device := exampleDevice, stream := 1, currentPipeline := none, currentRootObject := none,
    fault := none }

/-- A buffer of four bytes in allocation 0. -/
def exampleBufferX : BufferImpl :=
  { m_desc := { size := 4, elementSize := 0, format := Format.Unknown }
    m_cudaMemory := Ptr.device 0 0, m_cudaExternalMemory := none }

/-- A buffer of four bytes in allocation 1. -/
def exampleBufferY : BufferImpl :=
  { m_desc := { size := 4, elementSize := 0, format := Format.Unknown }
    m_cudaMemory := Ptr.device 1 0, m_cudaExternalMemory := none }

/-- A command buffer that uploads the two bytes 7, 9 to `exampleBufferX`. -/
def exampleUpload : CommandBufferImpl :=
  { m_commands := [{ name := CommandName.UploadBufferData, operands := [0, 0, 2, 0] }]
    m_objects := [Object.buffer exampleBufferX]
    m_data := [[7, 9]] }

/-- A command buffer that copies two bytes from `exampleBufferX` to
`exampleBufferY`. -/
def exampleCopy : CommandBufferImpl :=
  { m_commands := [{ name := CommandName.CopyBuffer, operands := [1, 0, 0, 0, 2] }]
    m_objects := [Object.buffer exampleBufferX, Object.buffer exampleBufferY]
    m_data := [] }

/-- A root object of a program with the one kernel `computeMain`. -/
def exampleRoot : RootShaderObjectImpl :=
  { layout := { kernels := [{ name := "computeMain", threadGroupSize := (4, 1, 1) }] }
    buffer := Ptr.null
    entryPointObjects := [{ buffer := [1, 2, 3] }]
    specializationArgs := [42] }

/-- A specialized pipeline for the kernel `computeMain`. -/
def examplePipeline : Pipeline :=
  Pipeline.Specialized { kernelName := "computeMain", cudaModule := 1, cudaKernel := 1 }

/-- A command buffer that dispatches with nothing bound, and then uploads. -/
def exampleDispatchUnbound : CommandBufferImpl :=
  { m_commands :=
      [{ name := CommandName.DispatchCompute, operands := [1, 1, 1] },
       { name := CommandName.UploadBufferData, operands := [0, 0, 2, 0] }]
    m_objects := [Object.buffer exampleBufferX]
    m_data := [[7, 9]] }

/-- A command buffer whose objects are a pipeline and a shader object that is
not a root object. -/
def exampleBindNonRoot : CommandBufferImpl :=
  { m_commands := []
    m_objects := [Object.pipeline examplePipeline, Object.shaderObject (ShaderObjectBase.other Ptr.null)]
    m_data := [] }

/-- A command buffer that dispatches three times with the unspecialized
pipeline 5 and `exampleRoot`, setting the pipeline anew before each dispatch. -/
def exampleThreeDispatches : CommandBufferImpl :=
  { m_commands :=
      [{ name := CommandName.SetPipeline, operands := [0] },
       { name := CommandName.BindRootShaderObject, operands := [1] },
       { name := CommandName.DispatchCompute, operands := [1, 1, 1] },
       { name := CommandName.SetPipeline, operands := [0] },
       { name := CommandName.DispatchCompute, operands := [2, 1, 1] },
       { name := CommandName.SetPipeline, operands := [0] },
       { name := CommandName.DispatchCompute, operands := [3, 1, 1] }]
    m_objects := [Object.pipeline (Pipeline.Unspecialized 5),
      Object.shaderObject (ShaderObjectBase.root exampleRoot)]
    m_data := [] }

/-- A single-mip 3D texture with two array layers. -/
def exampleTexture3DArray : TextureDesc :=
  { type := TextureType.Texture3D, size := { width := 4, height := 4, depth := 4 }
    arrayLength := 2, mipLevelCount := 1, format := Format.R32_FLOAT, usage := [] }

/-- A 4x4x4 R32_FLOAT texture description of shape `type` with two array
layers and `mips` mip levels. -/
def exampleArray (type : TextureType) (mips : Nat) : TextureDesc :=
  { exampleTexture3DArray with type := type, mipLevelCount := mips }

/-! ## Predicates and concrete inputs for textures, buffers and programs -/

/-- Byte width of a component of a CUDA array format: 4 for 32-bit, 2 for
16-bit and 1 for 8-bit components. -/
def componentWidthInBytes (format : CUarray_format) : Nat :=
  match format with
  | CUarray_format.CU_AD_FORMAT_FLOAT => 4
  | CUarray_format.CU_AD_FORMAT_UNSIGNED_INT32 => 4
  | CUarray_format.CU_AD_FORMAT_SIGNED_INT32 => 4
  | CUarray_format.CU_AD_FORMAT_HALF => 2
  | CUarray_format.CU_AD_FORMAT_UNSIGNED_INT16 => 2
  | CUarray_format.CU_AD_FORMAT_SIGNED_INT16 => 2
  | CUarray_format.CU_AD_FORMAT_UNSIGNED_INT8 => 1
  | CUarray_format.CU_AD_FORMAT_SIGNED_INT8 => 1

/-- The CUDA formats for which `createTexture` has an element size: float,
half and unsigned 8-bit. -/
def hasElementSize (format : CUarray_format) : Bool :=
  match format with
  | CUarray_format.CU_AD_FORMAT_FLOAT => true
  | CUarray_format.CU_AD_FORMAT_HALF => true
  | CUarray_format.CU_AD_FORMAT_UNSIGNED_INT8 => true
  | _ => false

/-- The first two steps of `createTexture`: the CUDA format of the pixel
format, then the element size. -/
def textureElementSize (be : Backend) (format : Format) : Run Nat :=
  Run.bind (DeviceImpl.getCUDAFormat be format) (fun cudaFormat =>
    elementSizeFor be cudaFormat (getFormatInfo format).channelCount)

/-- A backend like `exampleBackend` on which loading a module fails with
driver error 200. -/
def exampleBackendNoModule (asserts : Bool) : Backend :=
  { exampleBackend asserts with
      status := fun call =>
        match call with
        | BackendCall.cuModuleLoadData _ => 200
        | _ => CUDA_SUCCESS }

/-- A program without specialization parameters that compiles with a warning. -/
def exampleProgramWithWarning : ComponentType :=
  { id := 7, specializationParamCount := 0
    layout := some { entryPoints := [{ name := "computeMain", threadGroupSize := (4, 1, 1) }] }
    compileResult := Result.SLANG_OK
    kernelCode := some [1, 2, 3]
    diagnostics := some [119, 97, 114, 110] }

/-- A program without specialization parameters whose compilation fails with
an error message. -/
def exampleProgramWithError : ComponentType :=
  { id := 8, specializationParamCount := 0
    layout := some { entryPoints := [{ name := "computeMain", threadGroupSize := (4, 1, 1) }] }
    compileResult := Result.SLANG_FAIL
    kernelCode := none
    diagnostics := some [101, 114, 114] }

/-- A texture of 256 by 256 pixels of four 32-bit floats, with its array. -/
def exampleTexture256 : TextureImpl :=
  { m_desc :=
      { type := TextureType.Texture2D, size := { width := 256, height := 256, depth := 1 }
        arrayLength := 1, mipLevelCount := 1, format := Format.R32G32B32A32_FLOAT, usage := [] }
    m_cudaArray := some
      { desc := { Width := 256, Height := 256, Depth := 0, Format := CUarray_format.CU_AD_FORMAT_FLOAT
                  NumChannels := 4, Flags := 0 } }
    m_cudaMipMappedArray := none, m_cudaSurfObj := none, m_cudaTexObj := none
    m_cudaExternalMemory := none }

/-- The steps of `createTexture` before the surface and texture objects:
CUDA format, element size, array creation and upload of the init data.  The
run yields the texture with its array, and the resource type. -/
def createTextureStorage (be : Backend) (desc : TextureDesc)
    (initData : Option (List SubresourceData)) : Run (TextureImpl × CUresourcetype) :=
  let tex : TextureImpl :=
    { m_desc := be.fixupTextureDesc desc, m_cudaArray := none, m_cudaMipMappedArray := none
      m_cudaSurfObj := none, m_cudaTexObj := none, m_cudaExternalMemory := none }
  let width := (massagedExtents desc).1
  let height := (massagedExtents desc).2.1
  let depth := (massagedExtents desc).2.2
  Run.bind (DeviceImpl.getCUDAFormat be desc.format) (fun format =>
  let numChannels := (getFormatInfo desc.format).channelCount
  Run.bind (elementSizeFor be format numChannels) (fun elementSize =>
  Run.bind (createTextureArray be desc width height depth format numChannels tex) (fun created =>
  let upload : Run Unit :=
    match initData with
    | some data =>
      uploadMipLevels be desc data width height depth elementSize created.1 desc.mipLevelCount 0 []
    | none => Run.pure ()
  Run.bind upload (fun _ => Run.pure created))))

/-- The extent policy of section 4.5 of the spec for a texture that is not
arrayed: (w, 0, 0) for 1D, (w, h, 0) for 2D, (w, h, d) for 3D, and (w, h, 6)
for a cube (depth 1, times the 6 faces). -/
def extentPolicy (desc : TextureDesc) : Nat × Nat × Nat :=
  match desc.type with
  | TextureType.Texture1D => (desc.size.width, 0, 0)
  | TextureType.Texture2D => (desc.size.width, desc.size.height, 0)
  | TextureType.Texture3D => (desc.size.width, desc.size.height, desc.size.depth)
  | TextureType.TextureCube => (desc.size.width, desc.size.height, 6)

/-- The (width, height, depth) extents of an array creation call; a
`CUDA_ARRAY_DESCRIPTOR` has no depth, which stands for depth 0.  `none` for
every other call. -/
def arrayCreationExtents (call : BackendCall) : Option (Nat × Nat × Nat) :=
  match call with
  | BackendCall.cuMipmappedArrayCreate d _ => some (d.Width, d.Height, d.Depth)
  | BackendCall.cuArray3DCreate d => some (d.Width, d.Height, d.Depth)
  | BackendCall.cuArrayCreate d => some (d.Width, d.Height, 0)
  | _ => none

/-- A cube texture with two mip levels and three array layers. -/
def exampleCubeArray : TextureDesc :=
  { type := TextureType.TextureCube, size := { width := 4, height := 4, depth := 1 }
    arrayLength := 3, mipLevelCount := 2, format := Format.R8G8B8A8_UNORM, usage := [] }

/-- The bytes gathered for face `j` of mip level `mipLevel`: the first
`faceSizeInBytes` bytes of the subresource `initData[mipLevel + j * mipLevelCount]`. -/
def faceBytes (initData : List SubresourceData) (mipLevel mipLevelCount faceSizeInBytes j : Nat) :
    List Byte :=
  match initData[mipLevel + j * mipLevelCount]? with
  | some subresource => subresource.data.take faceSizeInBytes
  | none => []

/-- The bytes of `count` faces in a row, starting with face `j`. -/
def gatheredFaces (initData : List SubresourceData) (mipLevel mipLevelCount faceSizeInBytes : Nat) :
    Nat → Nat → List Byte
  | 0, _ => []
  | count + 1, j =>
    faceBytes initData mipLevel mipLevelCount faceSizeInBytes j
      ++ gatheredFaces initData mipLevel mipLevelCount faceSizeInBytes count (j + 1)

/-- The number of faces `createTexture` stages for a mip level of an arrayed
and/or cube texture: the array length, at least 1, times 6 for a cube. -/
def stagedFaceCount (desc : TextureDesc) : Nat :=
  max 1 desc.arrayLength * (if desc.type = TextureType.TextureCube then 6 else 1)

/-- A cube of 1 by 1 pixels of one byte with `arrayLength` 0 and one mip level. -/
def exampleCubeNoLayers : TextureDesc :=
  { type := TextureType.TextureCube, size := { width := 1, height := 1, depth := 1 }
    arrayLength := 0, mipLevelCount := 1, format := Format.R8_UINT, usage := [] }

/-- Init data of six faces of one byte each: 1, 2, 3, 4, 5, 6. -/
def exampleSixFaces : List SubresourceData :=
  [{ data := [1], strideY := 1, strideZ := 1 }, { data := [2], strideY := 1, strideZ := 1 },
   { data := [3], strideY := 1, strideZ := 1 }, { data := [4], strideY := 1, strideZ := 1 },
   { data := [5], strideY := 1, strideZ := 1 }, { data := [6], strideY := 1, strideZ := 1 }]

/-- Number of kernel launches in a trace. -/
def launchCount (trace : List BackendCall) : Nat :=
  trace.countP (fun call =>
    match call with
    | BackendCall.cuLaunchKernel _ _ _ _ _ _ _ _ _ _ _ => true
    | _ => false)

/-- The block dimensions `dispatchCompute` launches a kernel with. -/
def launchBlock (info : KernelInfo) : Int × Int × Int :=
  (toInt32 info.threadGroupSize.1, toInt32 info.threadGroupSize.2.1, toInt32 info.threadGroupSize.2.2)

/-- Add 1 to each 16-bit little-endian number of a byte string. -/
def incrementWords : List Byte → List Byte
  | lo :: hi :: rest =>
    ((lo + 256 * hi + 1) % 256) :: (((lo + 256 * hi + 1) / 256) % 256) :: incrementWords rest
  | rest => rest

/-- A backend like `exampleBackend` whose every kernel adds 1 to the four
16-bit numbers at the start of allocation 2. -/
def exampleBackendIncrement : Backend :=
  { exampleBackend true with
      kernel := fun _ _ _ _ mem =>
        match mem[2]? with
        | some bytes => mem.set 2 (incrementWords (bytes.take 8) ++ bytes.drop 8)
        | none => mem }

/-- A command buffer that sets the pipeline `examplePipeline`, binds
`exampleRoot` and dispatches one thread group. -/
def exampleDispatch : CommandBufferImpl :=
  { m_commands :=
      [{ name := CommandName.SetPipeline, operands := [0] },
       { name := CommandName.BindRootShaderObject, operands := [1] },
       { name := CommandName.DispatchCompute, operands := [1, 1, 1] }]
    m_objects := [Object.pipeline examplePipeline,
      Object.shaderObject (ShaderObjectBase.root exampleRoot)]
    m_data := [] }


/-- The device after creating, on `exampleDevice`, a buffer of eight bytes
holding the 16-bit numbers 0, 1, 2, 3. -/
def exampleWordsDevice : DeviceImpl :=
  (exampleDevice.createBuffer exampleBackendIncrement
    { size := 8, elementSize := 0, format := Format.Unknown }
    (some [0, 0, 1, 0, 2, 0, 3, 0]) none).device

/-- The buffer created on `exampleWordsDevice`: allocation 2. -/
def exampleWordsBuffer : BufferImpl :=
  { m_desc := { size := 8, elementSize := 0, format := Format.Unknown }
    m_cudaMemory := Ptr.device 2 0, m_cudaExternalMemory := none }

/-- A queue on `exampleWordsDevice` with nothing bound. -/
def exampleWordsQueue : CommandQueueImpl :=
  { m_device := exampleWordsDevice, stream := 1, currentPipeline := none,
    currentRootObject := none, fault := none }

/-! ## Predicates and concrete inputs for dispatches, copies and device choice -/

/-- The values of `globalParamsSymbol` and `globalParamsSymbolSize` in
`dispatchCompute` after the unchecked call of `cuModuleGetGlobal`: the
module's symbol, or 0 and 0, their initial values, when the lookup fails. -/
def globalParamsSymbol (be : Backend) (program : ShaderProgramImpl) : Ptr × Nat :=
  if be.status (BackendCall.cuModuleGetGlobal program.cudaModule) = CUDA_SUCCESS
  then be.moduleGlobal program.cudaModule else (Ptr.null, 0)

/-- The kernel launch `dispatchCompute(x, y, z)` issues for `program` on
stream `stream`, with the thread-group size of `info` and the parameter block
of `entryPoint`. -/
def kernelLaunch (program : ShaderProgramImpl) (x y z : Int) (info : KernelInfo) (stream : Nat)
    (entryPoint : EntryPointShaderObject) : BackendCall :=
  BackendCall.cuLaunchKernel program.cudaKernel x y z (launchBlock info).1 (launchBlock info).2.1
    (launchBlock info).2.2 0 stream entryPoint.buffer entryPoint.buffer.length

/-- The queue `exampleQueue` with `examplePipeline` and `exampleRoot` bound. -/
def exampleBoundQueue : CommandQueueImpl :=
  { exampleQueue with currentPipeline := some examplePipeline, currentRootObject := some exampleRoot }

/-- A device whose allocation 0 holds the four bytes 1, 2, 3, 4 and whose
allocation 1 holds eight zero bytes. -/
def exampleGlobalsDevice : DeviceImpl :=
  { shaderCache := [], memory := [[1, 2, 3, 4], [0, 0, 0, 0, 0, 0, 0, 0]], trace := [] }

/-- A backend like `exampleBackend` whose modules have their
`SLANG_globalParams` symbol at the start of allocation 1, with `size` bytes. -/
def exampleBackendSymbol (size : Nat) : Backend :=
  { exampleBackend true with moduleGlobal := fun _ => (Ptr.device 1 0, size) }

/-- A queue on `exampleGlobalsDevice` with `examplePipeline` bound and a root
object like `exampleRoot` whose global-scope data is allocation 0. -/
def exampleGlobalsQueue : CommandQueueImpl :=
  { m_device := exampleGlobalsDevice, stream := 1
    currentPipeline := some examplePipeline
    currentRootObject := some { exampleRoot with buffer := Ptr.device 0 0 }
    fault := none }

/-- A backend like `exampleBackend` whose compiler names the kernel handle
after the first specialization argument. -/
def exampleBackendByArgs : Backend :=
  { exampleBackend true with
      compile := fun id args => { kernelName := "computeMain", cudaModule := id, cudaKernel := args.headD 0 } }

/-- A command buffer that sets the unspecialized pipeline 5 once and
dispatches twice, first with `exampleRoot` (type argument 42) and then with a
root object of type argument 43. -/
def exampleTwoRoots : CommandBufferImpl :=
  { m_commands :=
      [{ name := CommandName.SetPipeline, operands := [0] },
       { name := CommandName.BindRootShaderObject, operands := [1] },
       { name := CommandName.DispatchCompute, operands := [1, 1, 1] },
       { name := CommandName.BindRootShaderObject, operands := [2] },
       { name := CommandName.DispatchCompute, operands := [1, 1, 1] }]
    m_objects := [Object.pipeline (Pipeline.Unspecialized 5),
      Object.shaderObject (ShaderObjectBase.root exampleRoot),
      Object.shaderObject (ShaderObjectBase.root { exampleRoot with specializationArgs := [43] })]
    m_data := [] }

/-- The byte at offset `j` of allocation `a`, if there is one. -/
def byteAt (mem : DeviceMemory) (a j : Nat) : Option Byte :=
  (mem[a]?).bind (fun bytes => bytes[j]?)

/-- A command buffer that sets `examplePipeline` and binds `exampleRoot`,
and dispatches nothing. -/
def exampleBindings : CommandBufferImpl :=
  { m_commands :=
      [{ name := CommandName.SetPipeline, operands := [0] },
       { name := CommandName.BindRootShaderObject, operands := [1] }]
    m_objects := [Object.pipeline examplePipeline,
      Object.shaderObject (ShaderObjectBase.root exampleRoot)]
    m_data := [] }

/-- A command buffer that only dispatches (2, 3, 4). -/
def exampleDispatchOnly : CommandBufferImpl :=
  { m_commands := [{ name := CommandName.DispatchCompute, operands := [2, 3, 4] }]
    m_objects := []
    m_data := [] }

/-- A program like `exampleProgramWithWarning` with one specialization
parameter. -/
def exampleProgramGeneric : ComponentType :=
  { exampleProgramWithWarning with specializationParamCount := 1 }

theorem executeCommand_of_fault (be : Backend) (cb : CommandBufferImpl) (q : CommandQueueImpl)
    (cmd : Command) (f : Fault) (h : q.fault = some f) : q.executeCommand be cb cmd = q := by
  simp [CommandQueueImpl.executeCommand, h]

theorem executeCommands_eq_foldl (be : Backend) (cb : CommandBufferImpl) (cmds : List Command)
    (q : CommandQueueImpl) :
    CommandQueueImpl.executeCommands be cb cmds q
      = cmds.foldl (fun s c => s.executeCommand be cb c) q := by
  induction cmds generalizing q with
  | nil => rfl
  | cons c rest ih => simp [CommandQueueImpl.executeCommands, ih]

theorem executeCommands_append (be : Backend) (cb : CommandBufferImpl) (xs ys : List Command)
    (q : CommandQueueImpl) :
    CommandQueueImpl.executeCommands be cb (xs ++ ys) q
      = CommandQueueImpl.executeCommands be cb ys (CommandQueueImpl.executeCommands be cb xs q) := by
  simp [executeCommands_eq_foldl]

theorem executeCommands_of_fault (be : Backend) (cb : CommandBufferImpl) (cmds : List Command)
    (q : CommandQueueImpl) (f : Fault) (h : q.fault = some f) :
    CommandQueueImpl.executeCommands be cb cmds q = q := by
  induction cmds with
  | nil => rfl
  | cons c rest ih => simp [CommandQueueImpl.executeCommands, executeCommand_of_fault be cb q c f h, ih]

theorem execute_of_fault (be : Backend) (cb : CommandBufferImpl) (q : CommandQueueImpl) (f : Fault)
    (h : q.fault = some f) : q.execute be cb = q :=
  executeCommands_of_fault be cb cb.m_commands q f h

theorem foldl_execute_of_fault (be : Backend) (bs : List CommandBufferImpl) (q : CommandQueueImpl)
    (f : Fault) (h : q.fault = some f) : bs.foldl (fun s b => s.execute be b) q = q := by
  induction bs with
  | nil => rfl
  | cons b rest ih => simp [List.foldl, execute_of_fault be b q f h, ih]

theorem submitLoop_eq_foldl (be : Backend) (bs pre : List CommandBufferImpl) (q : CommandQueueImpl) :
    CommandQueueImpl.submitLoop be (pre ++ bs) bs.length pre.length q
      = bs.foldl (fun s b => s.execute be b) q := by
  induction bs generalizing pre q with
  | nil => rfl
  | cons b rest ih =>
    cases hq : q.fault with
    | some f =>
      rw [foldl_execute_of_fault be (b :: rest) q f hq]
      simp [CommandQueueImpl.submitLoop, hq]
    | none =>
      have hget : (pre ++ b :: rest)[pre.length]? = some b := by
        rw [List.getElem?_append_right (le_refl _)]
        simp
      have hstep := ih (pre ++ [b]) (q.execute be b)
      simp only [List.append_assoc, List.singleton_append, List.length_append, List.length_singleton] at hstep
      simp only [List.length_cons, CommandQueueImpl.submitLoop, hq, hget, List.foldl]
      exact hstep

theorem submit_eq_foldl (be : Backend) (q : CommandQueueImpl) (bs : List CommandBufferImpl)
    (valueToSignal : Nat) :
    q.submit be bs.length bs none valueToSignal = bs.foldl (fun s b => s.execute be b) q := by
  cases hq : q.fault with
  | some f => simp [CommandQueueImpl.submit, hq, foldl_execute_of_fault be bs q f hq]
  | none =>
    have h := submitLoop_eq_foldl be bs [] q
    simp only [List.nil_append, List.length_nil] at h
    simp [CommandQueueImpl.submit, hq, h]

theorem submit_append (be : Backend) (q : CommandQueueImpl) (bs1 bs2 : List CommandBufferImpl)
    (valueToSignal : Nat) :
    q.submit be (bs1 ++ bs2).length (bs1 ++ bs2) none valueToSignal
      = (q.submit be bs1.length bs1 none valueToSignal).submit be bs2.length bs2 none valueToSignal := by
  simp only [submit_eq_foldl, List.foldl_append]

/-- C1: submit with a null fence performs execute(b1), ..., execute(bn) in
array order, execute(b) performs the opcodes of b one at a time in recorded
order, and submitting bs1 ++ bs2 leaves the same queue state, buffer memory and
backend-call trace as submitting bs1 and then bs2. -/
theorem submit_in_submission_order (be : Backend) (q : CommandQueueImpl)
    (bs1 bs2 : List CommandBufferImpl) (valueToSignal : Nat) :
    q.submit be bs1.length bs1 none valueToSignal = bs1.foldl (fun s b => s.execute be b) q
    ∧ (∀ b : CommandBufferImpl,
        q.execute be b = b.m_commands.foldl (fun s c => s.executeCommand be b c) q)
    ∧ q.submit be (bs1 ++ bs2).length (bs1 ++ bs2) none valueToSignal
        = (q.submit be bs1.length bs1 none valueToSignal).submit be bs2.length bs2 none valueToSignal :=
  ⟨submit_eq_foldl be q bs1 valueToSignal,
   fun b => executeCommands_eq_foldl be b b.m_commands q,
   submit_append be q bs1 bs2 valueToSignal⟩

/-! ## Memory -/

theorem ptr_add_zero (p : Ptr) : p.add 0 = p := by
  cases p <;> simp [Ptr.add]

theorem load_length (mem : DeviceMemory) (p : Ptr) (n : Nat) (data : List Byte)
    (h : load mem p n = some data) : data.length = n := by
  cases p with
  | null =>
    simp only [load] at h
    split at h
    · simp_all
    · simp at h
  | device a off =>
    simp only [load] at h
    split at h
    · split at h
      · simp only [Option.some.injEq] at h
        subst h
        simp
        omega
      · simp at h
    · simp at h
  | host bs =>
    simp only [load] at h
    split at h
    · simp only [Option.some.injEq] at h
      subst h
      simp
      omega
    · simp at h

theorem load_host (mem : DeviceMemory) (data : List Byte) :
    load mem (Ptr.host data) data.length = some data := by
  simp [load]

theorem deviceRange_mono (mem : DeviceMemory) (p : Ptr) (m n : Nat) (hmn : m ≤ n)
    (h : deviceRange mem p n = true) : deviceRange mem p m = true := by
  cases p with
  | null => simp [deviceRange] at h
  | host bs => simp [deviceRange] at h
  | device a off =>
    simp only [deviceRange] at h ⊢
    split at h
    · rename_i bs hbs
      simp only [decide_eq_true_eq] at h ⊢
      omega
    · simp at h

theorem splice_length (bs : List Byte) (off : Nat) (data : List Byte)
    (h : off + data.length ≤ bs.length) : (splice bs off data).length = bs.length := by
  simp [splice]
  omega

theorem load_splice (bs : List Byte) (off : Nat) (data : List Byte)
    (h : off + data.length ≤ bs.length) :
    ((splice bs off data).drop off).take data.length = data := by
  have h1 : (bs.take off).length = off := by simp; omega
  simp only [splice, List.append_assoc]
  rw [List.drop_append_of_le_length (by omega)]
  have h2 : List.drop off (List.take off bs) = [] := List.drop_eq_nil_of_le (by omega)
  rw [h2]
  simp

/-- A copy into a device range succeeds, leaves the copied bytes there, and
changes the size of no allocation. -/
theorem cuMemcpy_spec (mem : DeviceMemory) (dst src : Ptr) (n : Nat) (data : List Byte)
    (hsrc : load mem src n = some data) (hdst : deviceRange mem dst n = true) :
    load (cuMemcpy mem dst src n).2 dst n = some data
    ∧ ∀ p k, deviceRange (cuMemcpy mem dst src n).2 p k = deviceRange mem p k := by
  have hlen := load_length mem src n data hsrc
  cases dst with
  | null => simp [deviceRange] at hdst
  | host bs => simp [deviceRange] at hdst
  | device a off =>
    simp only [deviceRange] at hdst
    split at hdst
    · rename_i bs hbs
      simp only [decide_eq_true_eq] at hdst
      have hfit : off + data.length ≤ bs.length := by omega
      have ha : a < mem.length := by
        exact (List.getElem?_eq_some_iff.mp hbs).1
      simp only [cuMemcpy, hsrc, store, hbs, hfit, if_true]
      constructor
      · simp only [load, List.getElem?_set_self ha]
        rw [splice_length bs off data hfit]
        simp only [show off + n ≤ bs.length from hdst, if_true]
        rw [← hlen, load_splice bs off data hfit]
      · intro p k
        cases p with
        | null => rfl
        | host _ => rfl
        | device a2 off2 =>
          simp only [deviceRange]
          by_cases haa : a = a2
          · subst haa
            rw [List.getElem?_set_self ha]
            simp only [hbs, splice_length bs off data hfit]
          · rw [List.getElem?_set_ne haa]
    · simp at hdst

/-! ## Upload, copy and read back -/

theorem submit_one (be : Backend) (q : CommandQueueImpl) (cb : CommandBufferImpl) (valueToSignal : Nat) :
    q.submit be 1 [cb] none valueToSignal = q.execute be cb :=
  submit_eq_foldl be q [cb] valueToSignal

theorem submit_two (be : Backend) (q : CommandQueueImpl) (b1 b2 : CommandBufferImpl)
    (valueToSignal : Nat) :
    q.submit be 2 [b1, b2] none valueToSignal = (q.execute be b1).execute be b2 :=
  submit_eq_foldl be q [b1, b2] valueToSignal

theorem execute_upload (be : Backend) (q : CommandQueueImpl) (cb : CommandBufferImpl)
    (buf : BufferImpl) (data : List Byte) (iBuf offset size iBlob : Nat)
    (hq : q.fault = none)
    (hcmd : cb.m_commands = [{ name := CommandName.UploadBufferData, operands := [iBuf, offset, size, iBlob] }])
    (hbuf : cb.m_objects[iBuf]? = some (Object.buffer buf))
    (hblob : cb.m_data[iBlob]? = some data) :
    q.execute be cb = q.uploadBufferData (some buf) offset size (Ptr.host data) := by
  simp [CommandQueueImpl.execute, hcmd, CommandQueueImpl.executeCommands,
    CommandQueueImpl.executeCommand, hq, Command.operand, CommandBufferImpl.getBuffer,
    CommandBufferImpl.getData, hbuf, hblob]

theorem execute_copy (be : Backend) (q : CommandQueueImpl) (cb : CommandBufferImpl)
    (dst src : BufferImpl) (iDst dstOffset iSrc srcOffset size : Nat)
    (hq : q.fault = none)
    (hcmd : cb.m_commands =
      [{ name := CommandName.CopyBuffer, operands := [iDst, dstOffset, iSrc, srcOffset, size] }])
    (hdst : cb.m_objects[iDst]? = some (Object.buffer dst))
    (hsrc : cb.m_objects[iSrc]? = some (Object.buffer src)) :
    q.execute be cb = q.copyBuffer (some dst) dstOffset (some src) srcOffset size := by
  simp [CommandQueueImpl.execute, hcmd, CommandQueueImpl.executeCommands,
    CommandQueueImpl.executeCommand, hq, Command.operand, CommandBufferImpl.getBuffer, hdst, hsrc]

theorem readBuffer_of_load (dev : DeviceImpl) (buf : BufferImpl) (n : Nat) (data : List Byte)
    (outBlob : Option (List Byte)) (h : load dev.memory buf.m_cudaMemory n = some data) :
    (dev.readBuffer (some buf) 0 n outBlob).exit = Exit.returned Result.SLANG_OK
    ∧ (dev.readBuffer (some buf) 0 n outBlob).out = some data := by
  have hlen := load_length _ _ _ _ h
  simp [DeviceImpl.readBuffer, ptr_add_zero, cuMemcpyToHost, h, splice, hlen]

/-- C2: round trip.  For a buffer of size S in device memory, N at most S and
data of N bytes, executing UploadBufferData(buf, 0, N, data), waiting on the
host and calling readBuffer(buf, 0, N) returns success with a blob that is
exactly data (so of N bytes). -/
theorem upload_readBuffer_round_trip (be : Backend) (q : CommandQueueImpl) (cb : CommandBufferImpl)
    (buf : BufferImpl) (data : List Byte) (iBuf iBlob N valueToSignal : Nat)
    (outBlob : Option (List Byte))
    (hq : q.fault = none)
    (hcmd : cb.m_commands = [{ name := CommandName.UploadBufferData, operands := [iBuf, 0, N, iBlob] }])
    (hbuf : cb.m_objects[iBuf]? = some (Object.buffer buf))
    (hblob : cb.m_data[iBlob]? = some data)
    (halloc : deviceRange q.m_device.memory buf.m_cudaMemory buf.m_desc.size = true)
    (hN : N ≤ buf.m_desc.size)
    (hlen : data.length = N) :
    ((q.submit be 1 [cb] none valueToSignal).waitOnHost.m_device.readBuffer (some buf) 0 N outBlob).exit
        = Exit.returned Result.SLANG_OK
    ∧ ((q.submit be 1 [cb] none valueToSignal).waitOnHost.m_device.readBuffer (some buf) 0 N outBlob).out
        = some data
    ∧ data.length = N := by
  have hrange := deviceRange_mono _ _ N _ hN halloc
  have hsrc : load q.m_device.memory (Ptr.host data) N = some data := hlen ▸ load_host _ data
  have hcopy := (cuMemcpy_spec q.m_device.memory buf.m_cudaMemory (Ptr.host data) N data hsrc hrange).1
  have hmem : load (q.submit be 1 [cb] none valueToSignal).waitOnHost.m_device.memory
      buf.m_cudaMemory N = some data := by
    rw [submit_one, execute_upload be q cb buf data iBuf 0 N iBlob hq hcmd hbuf hblob]
    simpa [CommandQueueImpl.uploadBufferData, CommandQueueImpl.waitOnHost, hq, DeviceImpl.record,
      ptr_add_zero] using hcopy
  exact ⟨(readBuffer_of_load _ buf N data outBlob hmem).1,
    (readBuffer_of_load _ buf N data outBlob hmem).2, hlen⟩

/-- C3: read after write on one queue.  When command buffer B1 uploads d to
buffer X and command buffer B2 copies |d| bytes from X to Y, then after
submitting B1 and B2 (in one submit call or in two consecutive ones) and
waiting on the host, Y[0..|d|) equals d. -/
theorem copy_observes_earlier_upload (be : Backend) (q : CommandQueueImpl)
    (b1 b2 : CommandBufferImpl) (X Y : BufferImpl) (d : List Byte)
    (iX iBlob iY jX valueToSignal : Nat)
    (hq : q.fault = none)
    (hcmd1 : b1.m_commands =
      [{ name := CommandName.UploadBufferData, operands := [iX, 0, d.length, iBlob] }])
    (hX1 : b1.m_objects[iX]? = some (Object.buffer X))
    (hblob : b1.m_data[iBlob]? = some d)
    (hcmd2 : b2.m_commands =
      [{ name := CommandName.CopyBuffer, operands := [iY, 0, jX, 0, d.length] }])
    (hY2 : b2.m_objects[iY]? = some (Object.buffer Y))
    (hX2 : b2.m_objects[jX]? = some (Object.buffer X))
    (hfitX : deviceRange q.m_device.memory X.m_cudaMemory d.length = true)
    (hfitY : deviceRange q.m_device.memory Y.m_cudaMemory d.length = true) :
    load (q.submit be 2 [b1, b2] none valueToSignal).waitOnHost.m_device.memory
        Y.m_cudaMemory d.length = some d
    ∧ load ((q.submit be 1 [b1] none valueToSignal).submit be 1 [b2] none valueToSignal).waitOnHost.m_device.memory
        Y.m_cudaMemory d.length = some d := by
  have hup := cuMemcpy_spec q.m_device.memory X.m_cudaMemory (Ptr.host d) d.length d
    (load_host _ d) hfitX
  have hfitY' : deviceRange (cuMemcpy q.m_device.memory X.m_cudaMemory (Ptr.host d) d.length).2
      Y.m_cudaMemory d.length = true := by rw [hup.2]; exact hfitY
  have hcp := cuMemcpy_spec _ Y.m_cudaMemory X.m_cudaMemory d.length d hup.1 hfitY'
  have h1 : q.execute be b1 = q.uploadBufferData (some X) 0 d.length (Ptr.host d) :=
    execute_upload be q b1 X d iX 0 d.length iBlob hq hcmd1 hX1 hblob
  have hq1 : (q.uploadBufferData (some X) 0 d.length (Ptr.host d)).fault = none := by
    simp [CommandQueueImpl.uploadBufferData, hq]
  have h2 : (q.uploadBufferData (some X) 0 d.length (Ptr.host d)).execute be b2
      = (q.uploadBufferData (some X) 0 d.length (Ptr.host d)).copyBuffer (some Y) 0 (some X) 0 d.length :=
    execute_copy be _ b2 Y X iY 0 jX 0 d.length hq1 hcmd2 hY2 hX2
  have key : load ((q.execute be b1).execute be b2).waitOnHost.m_device.memory
      Y.m_cudaMemory d.length = some d := by
    rw [h1, h2]
    simpa [CommandQueueImpl.uploadBufferData, CommandQueueImpl.copyBuffer,
      CommandQueueImpl.waitOnHost, hq, DeviceImpl.record, ptr_add_zero] using hcp.1
  refine ⟨?_, ?_⟩
  · rw [submit_two]; exact key
  · rw [submit_one, submit_one]; exact key

/-- Witness of C2 with the two bytes 7, 9. -/
theorem upload_readBuffer_round_trip_witness :
    deviceRange exampleQueue.m_device.memory exampleBufferX.m_cudaMemory exampleBufferX.m_desc.size = true
    ∧ (((exampleQueue.submit (exampleBackend true) 1 [exampleUpload] none 0).waitOnHost.m_device.readBuffer
        (some exampleBufferX) 0 2 none).exit = Exit.returned Result.SLANG_OK
      ∧ ((exampleQueue.submit (exampleBackend true) 1 [exampleUpload] none 0).waitOnHost.m_device.readBuffer
        (some exampleBufferX) 0 2 none).out = some [7, 9]
      ∧ [7, 9].length = 2) :=
  ⟨by decide,
   upload_readBuffer_round_trip (exampleBackend true) exampleQueue exampleUpload exampleBufferX [7, 9]
     0 0 2 0 none rfl rfl rfl rfl (by decide) (by decide) rfl⟩

/-- Witness of C3 with the two bytes 7, 9. -/
theorem copy_observes_earlier_upload_witness :
    deviceRange exampleQueue.m_device.memory exampleBufferY.m_cudaMemory 2 = true
    ∧ (load (exampleQueue.submit (exampleBackend true) 2 [exampleUpload, exampleCopy] none 0).waitOnHost.m_device.memory
          exampleBufferY.m_cudaMemory 2 = some [7, 9]
      ∧ load ((exampleQueue.submit (exampleBackend true) 1 [exampleUpload] none 0).submit
          (exampleBackend true) 1 [exampleCopy] none 0).waitOnHost.m_device.memory
          exampleBufferY.m_cudaMemory 2 = some [7, 9]) :=
  ⟨by decide,
   copy_observes_earlier_upload (exampleBackend true) exampleQueue exampleUpload exampleCopy
     exampleBufferX exampleBufferY [7, 9] 0 0 1 0 0 rfl rfl rfl rfl rfl rfl rfl (by decide) (by decide)⟩

/-! ## Null external handles -/

/-- C4: with a null handle, createBufferFromSharedHandle and
createTextureFromSharedHandle return success, set the output resource to null
and leave the device as it was: no backend call is made. -/
theorem null_shared_handle_gives_null_resource (be : Backend) (dev : DeviceImpl)
    (handle : NativeHandle) (bufferDesc : BufferDesc) (textureDesc : TextureDesc) (size : Nat)
    (outBuffer : Option BufferImpl) (outTexture : Option TextureImpl)
    (hnull : handle.toBool = false) :
    (dev.createBufferFromSharedHandle be handle bufferDesc outBuffer).exit = Exit.returned Result.SLANG_OK
    ∧ (dev.createBufferFromSharedHandle be handle bufferDesc outBuffer).out = none
    ∧ (dev.createBufferFromSharedHandle be handle bufferDesc outBuffer).device = dev
    ∧ (dev.createTextureFromSharedHandle be handle textureDesc size outTexture).exit
        = Exit.returned Result.SLANG_OK
    ∧ (dev.createTextureFromSharedHandle be handle textureDesc size outTexture).out = none
    ∧ (dev.createTextureFromSharedHandle be handle textureDesc size outTexture).device = dev := by
  simp [DeviceImpl.createBufferFromSharedHandle, DeviceImpl.createBufferFromSharedHandleBody,
    DeviceImpl.createTextureFromSharedHandle, DeviceImpl.createTextureFromSharedHandleBody,
    hnull, Run.finish, Run.pure]

/-- Witness of C4: the handle of type Undefined, with a buffer and a texture
already in the output parameters. -/
theorem null_shared_handle_gives_null_resource_witness :
    NativeHandle.toBool { type := NativeHandleType.Undefined, value := 0 } = false
    ∧ (exampleDevice.createBufferFromSharedHandle (exampleBackend true)
        { type := NativeHandleType.Undefined, value := 0 } exampleBufferX.m_desc (some exampleBufferX)).out
        = none :=
  ⟨by decide,
   (null_shared_handle_gives_null_resource (exampleBackend true) exampleDevice
     { type := NativeHandleType.Undefined, value := 0 } exampleBufferX.m_desc exampleTexture3DArray 64
     (some exampleBufferX) none (by decide)).2.1⟩

/-! ## Dispatch without bindings -/

theorem dispatchCompute_unbound (be : Backend) (q : CommandQueueImpl) (x y z : Int)
    (h : q.currentPipeline = none ∨ q.currentRootObject = none) :
    (q.dispatchCompute be x y z).fault = some Fault.nullDereference
    ∧ (q.dispatchCompute be x y z).m_device = q.m_device := by
  cases hp : q.currentPipeline with
  | none => simp [CommandQueueImpl.dispatchCompute, DeviceImpl.maybeSpecializePipeline, hp]
  | some p =>
    have hr : q.currentRootObject = none := by
      cases h with
      | inl h => rw [hp] at h; cases h
      | inr h => exact h
    cases p with
    | Unspecialized id =>
      simp [CommandQueueImpl.dispatchCompute, DeviceImpl.maybeSpecializePipeline, hp, hr]
    | Specialized program =>
      simp [CommandQueueImpl.dispatchCompute, DeviceImpl.maybeSpecializePipeline, hp, hr,
        CommandQueueImpl.raise]

/-- Counterexample to C5: a DispatchCompute executed with nothing bound is not
reported as a validation error.  Execution stops on a null dereference: the
upload recorded after the dispatch is never executed, memory and trace are
untouched. -/
theorem dispatch_unbound_not_reported :
    (exampleQueue.execute (exampleBackend true) exampleDispatchUnbound).fault
        = some Fault.nullDereference
    ∧ (exampleQueue.execute (exampleBackend true) exampleDispatchUnbound).m_device = exampleDevice := by
  decide

/-- C5 as amended: when, after the opcodes recorded before it, the queue has
no current pipeline or no current root object, executing a DispatchCompute
stops execution on a null dereference; no result is returned, and the device
is left as the earlier opcodes left it, so no kernel is launched and no other
backend call is made.  The earlier opcodes execute as usual: the dispatch only
matters when it is executed. -/
theorem dispatch_unbound_stops_execution (be : Backend) (cb : CommandBufferImpl)
    (pre : List Command) (d : Command) (q : CommandQueueImpl)
    (hd : d.name = CommandName.DispatchCompute)
    (halive : (CommandQueueImpl.executeCommands be cb pre q).fault = none)
    (hunbound : (CommandQueueImpl.executeCommands be cb pre q).currentPipeline = none
      ∨ (CommandQueueImpl.executeCommands be cb pre q).currentRootObject = none) :
    (CommandQueueImpl.executeCommands be cb (pre ++ [d]) q).fault = some Fault.nullDereference
    ∧ (CommandQueueImpl.executeCommands be cb (pre ++ [d]) q).m_device
        = (CommandQueueImpl.executeCommands be cb pre q).m_device := by
  rw [executeCommands_append]
  simp only [CommandQueueImpl.executeCommands, CommandQueueImpl.executeCommand, halive, hd]
  exact dispatchCompute_unbound be _ _ _ _ hunbound

/-- Witness of C5 as amended: a pipeline is set, then a shader object that is
not a root object is bound, which clears the current root object. -/
theorem dispatch_unbound_stops_execution_witness :
    (CommandQueueImpl.executeCommands (exampleBackend true) exampleBindNonRoot
        [{ name := CommandName.SetPipeline, operands := [0] },
         { name := CommandName.BindRootShaderObject, operands := [1] }] exampleQueue).currentRootObject
        = none
    ∧ (CommandQueueImpl.executeCommands (exampleBackend true) exampleBindNonRoot
        ([{ name := CommandName.SetPipeline, operands := [0] },
          { name := CommandName.BindRootShaderObject, operands := [1] }]
          ++ [{ name := CommandName.DispatchCompute, operands := [1, 1, 1] }]) exampleQueue).fault
        = some Fault.nullDereference :=
  ⟨by decide,
   (dispatch_unbound_stops_execution (exampleBackend true) exampleBindNonRoot
     [{ name := CommandName.SetPipeline, operands := [0] },
      { name := CommandName.BindRootShaderObject, operands := [1] }]
     { name := CommandName.DispatchCompute, operands := [1, 1, 1] } exampleQueue rfl (by decide)
     (Or.inr (by decide))).1⟩

/-! ## Specialization cache -/

theorem sameCompiles_refl (d : DeviceImpl) : d.SameCompiles d :=
  ⟨rfl, fun _ _ => rfl⟩

theorem compiledOnce_of_empty_trace (dev : DeviceImpl) (h : dev.trace = []) : dev.CompiledOnce := by
  intro id args
  simp [compileCount, h]

theorem continues_refl (d : DeviceImpl) : d.Continues d :=
  ⟨fun h => h, fun _ _ h => h⟩

theorem continues_trans (d1 d2 d3 : DeviceImpl) (h12 : d1.Continues d2) (h23 : d2.Continues d3) :
    d1.Continues d3 :=
  ⟨fun h => h23.1 (h12.1 h), fun key p h => h23.2 key p (h12.2 key p h)⟩

theorem continues_of_same (d1 d2 : DeviceImpl) (hs : d1.SameCompiles d2) : d1.Continues d2 := by
  refine ⟨?_, ?_⟩
  · intro h id args
    rw [hs.1, hs.2]
    exact h id args
  · intro key p h
    rw [hs.1]
    exact h

theorem sameCompiles_of_call (d : DeviceImpl) (mem : DeviceMemory) (calls : List BackendCall)
    (hc : ∀ c ∈ calls, ∀ i a, c ≠ BackendCall.compileKernel i a) :
    d.SameCompiles { shaderCache := d.shaderCache, memory := mem, trace := d.trace ++ calls } := by
  refine ⟨rfl, ?_⟩
  intro id args
  have h0 : List.count (BackendCall.compileKernel id args) calls = 0 := by
    rw [List.count_eq_zero]
    intro hmem
    exact hc _ hmem id args rfl
  simp [compileCount, List.count_append, h0]

theorem maybeSpecializePipeline_continues (be : Backend) (dev : DeviceImpl)
    (p : Option Pipeline) (r : Option RootShaderObjectImpl) :
    dev.Continues (dev.maybeSpecializePipeline be p r).1 := by
  unfold DeviceImpl.maybeSpecializePipeline
  split
  · exact continues_refl dev
  · exact continues_refl dev
  · rename_i pid
    split
    · exact continues_refl dev
    · rename_i root
      split
      · exact continues_refl dev
      · rename_i hmiss
        refine ⟨?_, ?_⟩
        · intro h id args
          have h0 := (h pid root.specializationArgs).2 hmiss
          by_cases hk : (pid, root.specializationArgs) = (id, args)
          · simp only [Prod.mk.injEq] at hk
            obtain ⟨h1, h2⟩ := hk
            subst h1 h2
            simp only [compileCount] at h0
            simp [compileCount, getSpecializedPipeline, List.count_append, h0]
          · have hne : BackendCall.compileKernel pid root.specializationArgs
                ≠ BackendCall.compileKernel id args := by
              intro heq
              injection heq with e1 e2
              exact hk (by rw [e1, e2])
            have hcount : compileCount
                (dev.trace ++ [BackendCall.compileKernel pid root.specializationArgs]) id args
                = compileCount dev.trace id args := by
              simp [compileCount, List.count_append, List.count_cons, hne]
            simp only [getSpecializedPipeline, hk, if_false, hcount]
            exact h id args
        · intro key cached hcached
          have hk : (pid, root.specializationArgs) ≠ key := by
            intro heq
            rw [heq] at hmiss
            rw [hmiss] at hcached
            cases hcached
          simp only [getSpecializedPipeline, hk, if_false]
          exact hcached

theorem launch_sameCompiles (be : Backend) (q : CommandQueueImpl) (program : ShaderProgramImpl)
    (root : RootShaderObjectImpl) (x y z : Int) :
    q.m_device.SameCompiles (q.launch be program root x y z).m_device := by
  unfold CommandQueueImpl.launch
  simp only []
  split
  · exact sameCompiles_refl _
  · split
    · exact sameCompiles_refl _
    · split
      · exact ⟨rfl, fun id args => by simp [compileCount, List.count_append, List.count_cons]⟩
      · split <;>
          exact ⟨rfl, fun id args => by simp [compileCount, List.count_append, List.count_cons]⟩

theorem dispatchCompute_continues (be : Backend) (q : CommandQueueImpl) (x y z : Int) :
    q.m_device.Continues (q.dispatchCompute be x y z).m_device := by
  have hs := maybeSpecializePipeline_continues be q.m_device q.currentPipeline q.currentRootObject
  unfold CommandQueueImpl.dispatchCompute
  simp only []
  split
  · exact hs
  · exact hs
  · split
    · exact hs
    · exact continues_trans _ _ _ hs (continues_of_same _ _ (launch_sameCompiles be _ _ _ x y z))

theorem executeCommand_continues (be : Backend) (cb : CommandBufferImpl) (q : CommandQueueImpl)
    (cmd : Command) : q.m_device.Continues (q.executeCommand be cb cmd).m_device := by
  have hrec : ∀ c, (∀ i a, c ≠ BackendCall.compileKernel i a) → ∀ mem, q.m_device.Continues
      { shaderCache := q.m_device.shaderCache, memory := mem, trace := q.m_device.trace ++ [c] } := by
    intro c hc mem
    refine continues_of_same _ _ (sameCompiles_of_call q.m_device mem [c] ?_)
    intro c' hc'
    rw [List.mem_singleton] at hc'
    subst hc'
    exact hc
  have h := continues_refl q.m_device
  unfold CommandQueueImpl.executeCommand
  split
  · exact h
  · split
    · split <;> exact h
    · split
      · simp only [CommandQueueImpl.bindRootShaderObject]
        split <;> exact h
      · exact h
    · exact dispatchCompute_continues be q _ _ _
    · split
      · exact hrec _ (fun _ _ => by simp) _
      · exact h
      · exact h
    · split
      · exact hrec _ (fun _ _ => by simp) _
      · exact h
      · exact h
    · split
      · simp only [CommandQueueImpl.writeTimestamp]
        split
        · exact hrec _ (fun _ _ => by simp) _
        · exact h
      · exact h

theorem executeCommands_continues (be : Backend) (cb : CommandBufferImpl) (cmds : List Command)
    (q : CommandQueueImpl) :
    q.m_device.Continues (CommandQueueImpl.executeCommands be cb cmds q).m_device := by
  induction cmds generalizing q with
  | nil => exact continues_refl _
  | cons c rest ih => exact continues_trans _ _ _ (executeCommand_continues be cb q c) (ih _)

theorem submitLoop_continues (be : Backend) (bs : List CommandBufferImpl) (remaining i : Nat)
    (q : CommandQueueImpl) :
    q.m_device.Continues (CommandQueueImpl.submitLoop be bs remaining i q).m_device := by
  induction remaining generalizing i q with
  | zero => exact continues_refl _
  | succ n ih =>
    unfold CommandQueueImpl.submitLoop
    split
    · exact continues_refl _
    · split
      · exact continues_refl _
      · exact continues_trans _ _ _ (executeCommands_continues be _ _ q) (ih _ _)

theorem submit_continues (be : Backend) (q : CommandQueueImpl) (count : Nat)
    (bs : List CommandBufferImpl) (fence : Option Nat) (valueToSignal : Nat) :
    q.m_device.Continues (q.submit be count bs fence valueToSignal).m_device := by
  unfold CommandQueueImpl.submit
  split
  · exact continues_refl _
  · split
    · exact continues_refl _
    · exact submitLoop_continues be bs count 0 q

/-- C6: specialization memoization.  On a device whose cache holds every key
compiled so far (a fresh device for one), whatever command buffers are
submitted, and however often the same unspecialized pipeline is dispatched with
the same type arguments, the kernel for a (pipeline, type arguments) pair is
compiled at most once; the cache keeps holding every compiled key, so the bound
holds over all later submissions.  Specializing for a pair caches the pipeline
it yields, a cached pipeline stays cached, and specializing for a cached pair
compiles nothing and yields the cached pipeline. -/
theorem specialization_compiles_at_most_once (be : Backend) (q : CommandQueueImpl) (count : Nat)
    (bs : List CommandBufferImpl) (fence : Option Nat) (valueToSignal : Nat)
    (id : Nat) (args : List Nat)
    (hcache : q.m_device.CompiledOnce) :
    compileCount (q.submit be count bs fence valueToSignal).m_device.trace id args ≤ 1
    ∧ (q.submit be count bs fence valueToSignal).m_device.CompiledOnce
    ∧ (∀ p : Pipeline, getSpecializedPipeline q.m_device.shaderCache (id, args) = some p →
        getSpecializedPipeline (q.submit be count bs fence valueToSignal).m_device.shaderCache (id, args)
          = some p)
    ∧ (∀ (dev : DeviceImpl) (root : RootShaderObjectImpl),
        (dev.maybeSpecializePipeline be (some (Pipeline.Unspecialized id)) (some root)).2.2.isSome = true
        ∧ getSpecializedPipeline
            (dev.maybeSpecializePipeline be (some (Pipeline.Unspecialized id)) (some root)).1.shaderCache
            (id, root.specializationArgs)
          = (dev.maybeSpecializePipeline be (some (Pipeline.Unspecialized id)) (some root)).2.2)
    ∧ (∀ (dev : DeviceImpl) (root : RootShaderObjectImpl) (p : Pipeline),
        getSpecializedPipeline dev.shaderCache (id, root.specializationArgs) = some p →
        dev.maybeSpecializePipeline be (some (Pipeline.Unspecialized id)) (some root)
          = (dev, Result.SLANG_OK, some p)) := by
  have h := submit_continues be q count bs fence valueToSignal
  refine ⟨(h.1 hcache id args).1, h.1 hcache, fun p hp => h.2 _ p hp, ?_, ?_⟩
  · intro dev root
    cases hlook : getSpecializedPipeline dev.shaderCache (id, root.specializationArgs) with
    | none => simp [DeviceImpl.maybeSpecializePipeline, hlook, getSpecializedPipeline]
    | some p => simp [DeviceImpl.maybeSpecializePipeline, hlook]
  · intro dev root p hp
    simp [DeviceImpl.maybeSpecializePipeline, hp]

/-- Witness of C6: three dispatches of pipeline 5 with the type arguments of
`exampleRoot` on a fresh device compile the kernel once. -/
theorem specialization_compiles_at_most_once_witness :
    compileCount (exampleQueue.submit (exampleBackend true) 1 [exampleThreeDispatches] none 0).m_device.trace
        5 [42] = 1
    ∧ compileCount (exampleQueue.submit (exampleBackend true) 1 [exampleThreeDispatches] none 0).m_device.trace
        5 [42] ≤ 1 :=
  ⟨by decide,
   (specialization_compiles_at_most_once (exampleBackend true) exampleQueue 1 [exampleThreeDispatches]
     none 0 5 [42] (compiledOnce_of_empty_trace exampleDevice rfl)).1⟩

/-! ## Unsupported operations -/

/-- Counterexample to C7: waitForFenceValuesOnDevice does not return the
"not available" result; what it returns is the generic failure SLANG_FAIL. -/
theorem waitForFenceValuesOnDevice_not_the_not_available_result :
    (exampleQueue.waitForFenceValuesOnDevice 1 [0] [1]).2 ≠ Result.SLANG_E_NOT_AVAILABLE
    ∧ (exampleQueue.waitForFenceValuesOnDevice 1 [0] [1]).2 = Result.SLANG_FAIL := by
  decide

/-- C7 as amended: for every fence count, fence array and wait-value array,
waitForFenceValuesOnDevice returns the generic failure SLANG_FAIL, which is a
failure and is neither success nor the "not available" result, and it leaves
the queue as it was. -/
theorem waitForFenceValuesOnDevice_always_fails (q : CommandQueueImpl) (fenceCount : Nat)
    (fences waitValues : List Nat) :
    (q.waitForFenceValuesOnDevice fenceCount fences waitValues).2 = Result.SLANG_FAIL
    ∧ SLANG_FAILED (q.waitForFenceValuesOnDevice fenceCount fences waitValues).2 = true
    ∧ (q.waitForFenceValuesOnDevice fenceCount fences waitValues).2 ≠ Result.SLANG_OK
    ∧ (q.waitForFenceValuesOnDevice fenceCount fences waitValues).2 ≠ Result.SLANG_E_NOT_AVAILABLE
    ∧ (q.waitForFenceValuesOnDevice fenceCount fences waitValues).1 = q := by
  simp [CommandQueueImpl.waitForFenceValuesOnDevice, SLANG_FAILED]

/-- C8: createRenderPipeline and createInputLayout return the "not available"
result for every description; neither returns success, neither writes its
output parameter, and the device is left as it was. -/
theorem render_pipeline_and_input_layout_not_available {RenderPipelineDesc IPipeline
    InputLayoutDesc IInputLayout : Type} (dev : DeviceImpl)
    (pipelineDesc : RenderPipelineDesc) (outPipeline : Option IPipeline)
    (layoutDesc : InputLayoutDesc) (outLayout : Option IInputLayout) :
    (dev.createRenderPipeline pipelineDesc outPipeline).exit
        = Exit.returned Result.SLANG_E_NOT_AVAILABLE
    ∧ (dev.createRenderPipeline pipelineDesc outPipeline).exit ≠ Exit.returned Result.SLANG_OK
    ∧ (dev.createRenderPipeline pipelineDesc outPipeline).out = outPipeline
    ∧ (dev.createRenderPipeline pipelineDesc outPipeline).device = dev
    ∧ (dev.createInputLayout layoutDesc outLayout).exit = Exit.returned Result.SLANG_E_NOT_AVAILABLE
    ∧ (dev.createInputLayout layoutDesc outLayout).exit ≠ Exit.returned Result.SLANG_OK
    ∧ (dev.createInputLayout layoutDesc outLayout).out = outLayout
    ∧ (dev.createInputLayout layoutDesc outLayout).device = dev := by
  simp [DeviceImpl.createRenderPipeline, DeviceImpl.createInputLayout]

/-- Counterexample to C9: createSampler returns success, not the "not
available" result. -/
theorem createSampler_returns_success :
    (exampleDevice.createSampler (0 : Nat) (some (5 : Nat))).exit = Exit.returned Result.SLANG_OK
    ∧ (exampleDevice.createSampler (0 : Nat) (some (5 : Nat))).exit
        ≠ Exit.returned Result.SLANG_E_NOT_AVAILABLE := by
  decide

/-- C9 as amended: for every sampler description createSampler returns
success and sets the output sampler to null; it never returns the "not
available" result, and it makes no backend call. -/
theorem createSampler_null_sampler {SamplerDesc ISampler : Type} (dev : DeviceImpl)
    (desc : SamplerDesc) (outSampler : Option ISampler) :
    (dev.createSampler desc outSampler).exit = Exit.returned Result.SLANG_OK
    ∧ (dev.createSampler desc outSampler).out = none
    ∧ (dev.createSampler desc outSampler).exit ≠ Exit.returned Result.SLANG_E_NOT_AVAILABLE
    ∧ (dev.createSampler desc outSampler).device = dev := by
  simp [DeviceImpl.createSampler]

/-! ## Texture arrays -/

/-- C10, the code at the failing input: for a single-mip Texture3D with two
array layers and no init data, on a backend whose calls all succeed,
createTexture returns success with a texture whose array has depth 2, with
assertions compiled in as well as without; with two mip levels the same
request is refused. -/
theorem createTexture_single_mip_3D_array_succeeds :
    (∀ asserts : Bool,
      (exampleDevice.createTexture (exampleBackend asserts) exampleTexture3DArray none none).exit
          = Exit.returned Result.SLANG_OK
      ∧ ((exampleDevice.createTexture (exampleBackend asserts) exampleTexture3DArray none none).out.bind
          (fun t => t.m_cudaArray)).map (fun a => a.desc.Depth) = some 2)
    ∧ (exampleDevice.createTexture (exampleBackend false)
        { exampleTexture3DArray with mipLevelCount := 2 } none none).exit
        = Exit.returned Result.SLANG_FAIL
    ∧ (exampleDevice.createTexture (exampleBackend true)
        { exampleTexture3DArray with mipLevelCount := 2 } none none).exit
        = Exit.fatal Fault.assertion := by
  decide

/-! ## Array shapes and element sizes of textures -/

/-- C11, the code at the failing input: for single-mip arrays of two layers
of type Texture2D, Texture1D and TextureCube, on a backend whose calls all
succeed, createTexture returns SLANG_FAIL (with assertions compiled in, stops
on the assertion) with no texture and without any backend call; with two mip
levels the same descriptions give success with a texture. -/
theorem createTexture_single_mip_array_rejected :
    ((exampleDevice.createTexture (exampleBackend false) (exampleArray TextureType.Texture2D 1)
        none none).exit = Exit.returned Result.SLANG_FAIL
      ∧ (exampleDevice.createTexture (exampleBackend true) (exampleArray TextureType.Texture2D 1)
        none none).exit = Exit.fatal Fault.assertion
      ∧ (exampleDevice.createTexture (exampleBackend false) (exampleArray TextureType.Texture2D 1)
        none none).out = none
      ∧ (exampleDevice.createTexture (exampleBackend false) (exampleArray TextureType.Texture2D 1)
        none none).device = exampleDevice
      ∧ (exampleDevice.createTexture (exampleBackend true) (exampleArray TextureType.Texture2D 2)
        none none).exit = Exit.returned Result.SLANG_OK
      ∧ (exampleDevice.createTexture (exampleBackend true) (exampleArray TextureType.Texture2D 2)
        none none).out.isSome = true)
    ∧ ((exampleDevice.createTexture (exampleBackend false) (exampleArray TextureType.Texture1D 1)
        none none).exit = Exit.returned Result.SLANG_FAIL
      ∧ (exampleDevice.createTexture (exampleBackend true) (exampleArray TextureType.Texture1D 1)
        none none).exit = Exit.fatal Fault.assertion
      ∧ (exampleDevice.createTexture (exampleBackend false) (exampleArray TextureType.Texture1D 1)
        none none).out = none
      ∧ (exampleDevice.createTexture (exampleBackend false) (exampleArray TextureType.Texture1D 1)
        none none).device = exampleDevice
      ∧ (exampleDevice.createTexture (exampleBackend true) (exampleArray TextureType.Texture1D 2)
        none none).exit = Exit.returned Result.SLANG_OK
      ∧ (exampleDevice.createTexture (exampleBackend true) (exampleArray TextureType.Texture1D 2)
        none none).out.isSome = true)
    ∧ ((exampleDevice.createTexture (exampleBackend false) (exampleArray TextureType.TextureCube 1)
        none none).exit = Exit.returned Result.SLANG_FAIL
      ∧ (exampleDevice.createTexture (exampleBackend true) (exampleArray TextureType.TextureCube 1)
        none none).exit = Exit.fatal Fault.assertion
      ∧ (exampleDevice.createTexture (exampleBackend false) (exampleArray TextureType.TextureCube 1)
        none none).out = none
      ∧ (exampleDevice.createTexture (exampleBackend false) (exampleArray TextureType.TextureCube 1)
        none none).device = exampleDevice
      ∧ (exampleDevice.createTexture (exampleBackend true) (exampleArray TextureType.TextureCube 2)
        none none).exit = Exit.returned Result.SLANG_OK
      ∧ (exampleDevice.createTexture (exampleBackend true) (exampleArray TextureType.TextureCube 2)
        none none).out.isSome = true) := by
  decide

/-- Counterexample to C15: R32_UINT is accepted by getCUDAFormat, but
createTexture derives no element size for it and fails because of the format,
before any backend call. -/
theorem createTexture_R32_UINT_fails :
    cudaFormatOf Format.R32_UINT = some CUarray_format.CU_AD_FORMAT_UNSIGNED_INT32
    ∧ (textureElementSize (exampleBackend false) Format.R32_UINT).res
        = Except.error (Exit.returned Result.SLANG_FAIL)
    ∧ (exampleDevice.createTexture (exampleBackend false)
        { exampleTexture3DArray with arrayLength := 1, format := Format.R32_UINT } none none).exit
        = Exit.returned Result.SLANG_FAIL
    ∧ (exampleDevice.createTexture (exampleBackend false)
        { exampleTexture3DArray with arrayLength := 1, format := Format.R32_UINT } none none).device
        = exampleDevice :=
  ⟨rfl, rfl, by decide, by decide⟩

theorem createTextureBody_of_elementSize_error (be : Backend) (desc : TextureDesc)
    (initData : Option (List SubresourceData)) (e : Exit)
    (h : (textureElementSize be desc.format).res = Except.error e) :
    (DeviceImpl.createTextureBody be desc initData).res = Except.error e
    ∧ (DeviceImpl.createTextureBody be desc initData).calls = (textureElementSize be desc.format).calls := by
  unfold textureElementSize at h ⊢
  unfold DeviceImpl.createTextureBody
  simp only []
  generalize DeviceImpl.getCUDAFormat be desc.format = r1 at h ⊢
  cases hr1 : r1.res with
  | error e1 =>
    simp only [Run.bind, hr1] at h ⊢
    injection h with h
    subst h
    simp
  | ok cf =>
    simp only [Run.bind, hr1] at h ⊢
    generalize elementSizeFor be cf (getFormatInfo desc.format).channelCount = r2 at h ⊢
    cases hr2 : r2.res with
    | error e2 =>
      simp only [hr2] at h ⊢
      injection h with h
      subst h
      simp
    | ok n => rw [hr2] at h; cases h

/-- C15 as amended: for every pixel format that getCUDAFormat accepts and
whose CUDA component format is float, half or unsigned 8-bit, createTexture
derives the element size channelCount * componentWidthInBytes (4, 2 and 1
bytes per component) without a backend call and does not fail because of the
format; for every other accepted format (unsigned 16- and 32-bit, signed 8-,
16- and 32-bit) it derives no element size: createTexture stops on the
assertion, or returns SLANG_FAIL when assertions are compiled out, and the
device is left as it was. -/
theorem createTexture_element_size (be : Backend) (format : Format) (cudaFormat : CUarray_format)
    (haccepted : cudaFormatOf format = some cudaFormat) :
    (hasElementSize cudaFormat = true →
      (textureElementSize be format).res
          = Except.ok ((getFormatInfo format).channelCount * componentWidthInBytes cudaFormat)
      ∧ (textureElementSize be format).calls = [])
    ∧ (hasElementSize cudaFormat = false →
      ∀ (dev : DeviceImpl) (desc : TextureDesc) (initData : Option (List SubresourceData))
        (outTexture : Option TextureImpl), desc.format = format →
        (dev.createTexture be desc initData outTexture).exit
            = (if be.asserts then Exit.fatal Fault.assertion else Exit.returned Result.SLANG_FAIL)
        ∧ (dev.createTexture be desc initData outTexture).out = outTexture
        ∧ (dev.createTexture be desc initData outTexture).device = dev) := by
  constructor
  · intro hsup
    cases cudaFormat <;> simp [hasElementSize] at hsup <;>
      simp [textureElementSize, DeviceImpl.getCUDAFormat, haccepted, elementSizeFor, Run.bind, Run.pure,
        componentWidthInBytes, Nat.mul_comm]
  · intro hunsup dev desc initData outTexture hfmt
    have herr : (textureElementSize be desc.format).res
        = Except.error (if be.asserts then Exit.fatal Fault.assertion else Exit.returned Result.SLANG_FAIL)
        ∧ (textureElementSize be desc.format).calls = [] := by
      rw [hfmt]
      cases hb : be.asserts <;> cases cudaFormat <;> simp [hasElementSize] at hunsup <;>
        simp [textureElementSize, DeviceImpl.getCUDAFormat, haccepted, elementSizeFor, Run.bind,
          Run.pure, Run.assert, Run.fault, Run.ret, hb]
    have hbody := createTextureBody_of_elementSize_error be desc initData _ herr.1
    simp [DeviceImpl.createTexture, Run.finish, hbody.1, hbody.2, herr.2]

/-- Witness of C15 as amended: R32G32B32A32_FLOAT gives 16, R16G16_FLOAT gives
4 and R8G8B8A8_UNORM gives 4. -/
theorem createTexture_element_size_witness :
    (textureElementSize (exampleBackend true) Format.R32G32B32A32_FLOAT).res = Except.ok 16
    ∧ (textureElementSize (exampleBackend true) Format.R16G16_FLOAT).res = Except.ok 4
    ∧ (textureElementSize (exampleBackend true) Format.R8G8B8A8_UNORM).res = Except.ok 4
    ∧ (exampleDevice.createTexture (exampleBackend true)
        { exampleTexture3DArray with format := Format.R32_SINT } none none).exit
        = Exit.fatal Fault.assertion :=
  ⟨((createTexture_element_size (exampleBackend true) Format.R32G32B32A32_FLOAT
      CUarray_format.CU_AD_FORMAT_FLOAT rfl).1 rfl).1,
   ((createTexture_element_size (exampleBackend true) Format.R16G16_FLOAT
      CUarray_format.CU_AD_FORMAT_HALF rfl).1 rfl).1,
   ((createTexture_element_size (exampleBackend true) Format.R8G8B8A8_UNORM
      CUarray_format.CU_AD_FORMAT_UNSIGNED_INT8 rfl).1 rfl).1,
   ((createTexture_element_size (exampleBackend true) Format.R32_SINT
      CUarray_format.CU_AD_FORMAT_SIGNED_INT32 rfl).2 rfl exampleDevice
      { exampleTexture3DArray with format := Format.R32_SINT } none none rfl).1⟩

/-! ## Buffers: creation and read back -/

theorem cuMemcpy_status (mem : DeviceMemory) (dst src : Ptr) (n : Nat) (data : List Byte)
    (hsrc : load mem src n = some data) (hdst : deviceRange mem dst n = true) :
    (cuMemcpy mem dst src n).1 = CUDA_SUCCESS := by
  have hlen := load_length mem src n data hsrc
  cases dst with
  | null => simp [deviceRange] at hdst
  | host bs => simp [deviceRange] at hdst
  | device a off =>
    simp only [deviceRange] at hdst
    split at hdst
    · rename_i bs hbs
      simp only [decide_eq_true_eq] at hdst
      have hfit : off + data.length ≤ bs.length := by omega
      simp [cuMemcpy, hsrc, store, hbs, hfit]
    · simp at hdst

theorem deviceRange_fresh (mem : DeviceMemory) (n : Nat) :
    deviceRange (mem ++ [List.replicate n 0]) (Ptr.device mem.length 0) n = true := by
  simp [deviceRange]

/-- C17: a successful createBuffer(desc, initData), where initData has as many
bytes as the size of the (fixed-up) description, yields a buffer that
readBuffer(buffer, 0, size) reads back as exactly initData, with result
success; the description's element size and format play no part. -/
theorem createBuffer_readBuffer_round_trip (be : Backend) (dev : DeviceImpl) (descIn : BufferDesc)
    (initData : List Byte) (outBuffer : Option BufferImpl) (outBlob : Option (List Byte))
    (hlen : initData.length = (be.fixupBufferDesc descIn).size)
    (hok : (dev.createBuffer be descIn (some initData) outBuffer).exit = Exit.returned Result.SLANG_OK) :
    ∃ buffer : BufferImpl,
      (dev.createBuffer be descIn (some initData) outBuffer).out = some buffer
      ∧ buffer.m_desc = be.fixupBufferDesc descIn
      ∧ ((dev.createBuffer be descIn (some initData) outBuffer).device.readBuffer (some buffer) 0
          (be.fixupBufferDesc descIn).size outBlob).exit = Exit.returned Result.SLANG_OK
      ∧ ((dev.createBuffer be descIn (some initData) outBuffer).device.readBuffer (some buffer) 0
          (be.fixupBufferDesc descIn).size outBlob).out = some initData := by
  have hsrc : load (dev.memory ++ [List.replicate (be.fixupBufferDesc descIn).size 0])
      (Ptr.host initData) (be.fixupBufferDesc descIn).size = some initData := by
    rw [← hlen]; exact load_host _ initData
  have hdst := deviceRange_fresh dev.memory (be.fixupBufferDesc descIn).size
  have hstatus := cuMemcpy_status _ _ _ _ _ hsrc hdst
  have hcopy := (cuMemcpy_spec _ _ _ _ _ hsrc hdst).1
  by_cases halloc : be.status (BackendCall.cuMemAllocManaged (be.fixupBufferDesc descIn).size)
      = CUDA_SUCCESS
  · refine ⟨{ m_desc := be.fixupBufferDesc descIn, m_cudaMemory := Ptr.device dev.memory.length 0,
              m_cudaExternalMemory := none }, ?_, rfl, ?_⟩
    · simp [DeviceImpl.createBuffer, halloc, hstatus]
    · have hmem : load (dev.createBuffer be descIn (some initData) outBuffer).device.memory
          (Ptr.device dev.memory.length 0) (be.fixupBufferDesc descIn).size = some initData := by
        simpa [DeviceImpl.createBuffer, halloc, hstatus] using hcopy
      exact readBuffer_of_load _
        { m_desc := be.fixupBufferDesc descIn, m_cudaMemory := Ptr.device dev.memory.length 0,
          m_cudaExternalMemory := none } _ initData outBlob hmem
  · exfalso
    simp [DeviceImpl.createBuffer, halloc, SLANG_CUDA_HANDLE_ERROR] at hok

/-- Witness of C17: the eight bytes of the 16-bit numbers 0, 1, 2, 3, with
element size 0 and format Unknown. -/
theorem createBuffer_readBuffer_round_trip_witness :
    (exampleDevice.createBuffer (exampleBackend true)
        { size := 8, elementSize := 0, format := Format.Unknown } (some [0, 0, 1, 0, 2, 0, 3, 0]) none).exit
        = Exit.returned Result.SLANG_OK
    ∧ ∃ buffer : BufferImpl,
      (exampleDevice.createBuffer (exampleBackend true)
        { size := 8, elementSize := 0, format := Format.Unknown } (some [0, 0, 1, 0, 2, 0, 3, 0]) none).out
        = some buffer
      ∧ buffer.m_desc = { size := 8, elementSize := 0, format := Format.Unknown }
      ∧ ((exampleDevice.createBuffer (exampleBackend true)
          { size := 8, elementSize := 0, format := Format.Unknown } (some [0, 0, 1, 0, 2, 0, 3, 0])
          none).device.readBuffer (some buffer) 0 8 none).exit = Exit.returned Result.SLANG_OK
      ∧ ((exampleDevice.createBuffer (exampleBackend true)
          { size := 8, elementSize := 0, format := Format.Unknown } (some [0, 0, 1, 0, 2, 0, 3, 0])
          none).device.readBuffer (some buffer) 0 8 none).out = some [0, 0, 1, 0, 2, 0, 3, 0] :=
  ⟨by decide,
   createBuffer_readBuffer_round_trip (exampleBackend true) exampleDevice
     { size := 8, elementSize := 0, format := Format.Unknown } [0, 0, 1, 0, 2, 0, 3, 0] none none rfl
     (by decide)⟩

/-- C20, the code at the failing input: reading 8 bytes from a buffer of 4
bytes makes the driver's copy fail, and readBuffer still returns success, with
a blob of 8 bytes that the copy never filled.  More generally readBuffer
returns success for every buffer, offset and size. -/
theorem readBuffer_drops_copy_error :
    (cuMemcpyToHost exampleDevice.memory (List.replicate 8 0) (exampleBufferX.m_cudaMemory.add 0) 8).1
        = CUDA_ERROR_INVALID_VALUE
    ∧ (exampleDevice.readBuffer (some exampleBufferX) 0 8 none).exit = Exit.returned Result.SLANG_OK
    ∧ (exampleDevice.readBuffer (some exampleBufferX) 0 8 none).out = some [0, 0, 0, 0, 0, 0, 0, 0]
    ∧ ∀ (dev : DeviceImpl) (buffer : BufferImpl) (offset size : Nat) (outBlob : Option (List Byte)),
        (dev.readBuffer (some buffer) offset size outBlob).exit = Exit.returned Result.SLANG_OK :=
  ⟨by decide, by decide, by decide, fun _ _ _ _ _ => rfl⟩

/-! ## Reading a texture back -/

/-- C18: a successful readTexture of a texture of width w and height h, whose
format has block size B and P pixels per block, returns pixelSize = B / P,
rowPitch = w * pixelSize and a blob of exactly h * rowPitch bytes, so the
bytes of every pixel (x, y) with x < w and y < h lie inside the blob;
readTexture takes B and P from the format table. -/
theorem readTexture_pitch_and_size (be : Backend) (dev : DeviceImpl) (formatInfo : FormatInfo)
    (texture : TextureImpl) (outBlob : Option (List Byte)) (outRowPitch outPixelSize : Nat)
    (hok : (dev.readTextureWith be formatInfo texture outBlob outRowPitch outPixelSize).exit
      = Exit.returned Result.SLANG_OK) :
    (dev.readTextureWith be formatInfo texture outBlob outRowPitch outPixelSize).outPixelSize
        = formatInfo.blockSizeInBytes / formatInfo.pixelsPerBlock
    ∧ (dev.readTextureWith be formatInfo texture outBlob outRowPitch outPixelSize).outRowPitch
        = texture.m_desc.size.width * (formatInfo.blockSizeInBytes / formatInfo.pixelsPerBlock)
    ∧ (∃ blob : List Byte,
        (dev.readTextureWith be formatInfo texture outBlob outRowPitch outPixelSize).outBlob = some blob
        ∧ blob.length = texture.m_desc.size.height
            * (texture.m_desc.size.width * (formatInfo.blockSizeInBytes / formatInfo.pixelsPerBlock))
        ∧ ∀ x y : Nat, x < texture.m_desc.size.width → y < texture.m_desc.size.height →
            y * (texture.m_desc.size.width * (formatInfo.blockSizeInBytes / formatInfo.pixelsPerBlock))
              + (x + 1) * (formatInfo.blockSizeInBytes / formatInfo.pixelsPerBlock) ≤ blob.length)
    ∧ dev.readTexture be (some texture) outBlob outRowPitch outPixelSize
        = dev.readTextureWith be (getFormatInfo texture.m_desc.format) texture outBlob outRowPitch
            outPixelSize := by
  have hP : formatInfo.pixelsPerBlock ≠ 0 := by
    intro h0
    simp [DeviceImpl.readTextureWith, h0] at hok
  have hsucc : be.status (BackendCall.cuMemcpy2DToHost
      { srcArray := texture.m_cudaArray
        dstSize := texture.m_desc.size.height * (texture.m_desc.size.width
          * (formatInfo.blockSizeInBytes / formatInfo.pixelsPerBlock))
        dstPitch := texture.m_desc.size.width * (formatInfo.blockSizeInBytes / formatInfo.pixelsPerBlock)
        WidthInBytes := texture.m_desc.size.width
          * (formatInfo.blockSizeInBytes / formatInfo.pixelsPerBlock)
        Height := texture.m_desc.size.height }) = CUDA_SUCCESS := by
    by_contra hne
    simp [DeviceImpl.readTextureWith, hP, hne, SLANG_CUDA_HANDLE_ERROR] at hok
  have hlen : (resize (be.arrayBytes texture.m_cudaArray)
      (texture.m_desc.size.height * (texture.m_desc.size.width
        * (formatInfo.blockSizeInBytes / formatInfo.pixelsPerBlock)))).length
      = texture.m_desc.size.height * (texture.m_desc.size.width
        * (formatInfo.blockSizeInBytes / formatInfo.pixelsPerBlock)) := by
    simp [resize]
    omega
  refine ⟨?_, ?_, ⟨resize (be.arrayBytes texture.m_cudaArray)
      (texture.m_desc.size.height * (texture.m_desc.size.width
        * (formatInfo.blockSizeInBytes / formatInfo.pixelsPerBlock))), ?_, hlen, ?_⟩, rfl⟩
  · simp [DeviceImpl.readTextureWith, hP, hsucc]
  · simp [DeviceImpl.readTextureWith, hP, hsucc]
  · simp [DeviceImpl.readTextureWith, hP, hsucc]
  · intro x y hx hy
    rw [hlen]
    calc y * (texture.m_desc.size.width * (formatInfo.blockSizeInBytes / formatInfo.pixelsPerBlock))
          + (x + 1) * (formatInfo.blockSizeInBytes / formatInfo.pixelsPerBlock)
        ≤ y * (texture.m_desc.size.width * (formatInfo.blockSizeInBytes / formatInfo.pixelsPerBlock))
          + texture.m_desc.size.width * (formatInfo.blockSizeInBytes / formatInfo.pixelsPerBlock) :=
          Nat.add_le_add_left (Nat.mul_le_mul_right _ hx) _
      _ = (y + 1) * (texture.m_desc.size.width
            * (formatInfo.blockSizeInBytes / formatInfo.pixelsPerBlock)) := by ring
      _ ≤ texture.m_desc.size.height * (texture.m_desc.size.width
            * (formatInfo.blockSizeInBytes / formatInfo.pixelsPerBlock)) :=
          Nat.mul_le_mul_right _ hy

/-- Witness of C18: a texture of 256 by 256 pixels of format
R32G32B32A32_FLOAT gives pixelSize 16, rowPitch 4096 and a blob of 1048576
bytes. -/
theorem readTexture_pitch_and_size_witness :
    (exampleDevice.readTextureWith (exampleBackend true) (getFormatInfo Format.R32G32B32A32_FLOAT)
        exampleTexture256 none 0 0).exit = Exit.returned Result.SLANG_OK
    ∧ (exampleDevice.readTextureWith (exampleBackend true) (getFormatInfo Format.R32G32B32A32_FLOAT)
        exampleTexture256 none 0 0).outPixelSize = 16
    ∧ (exampleDevice.readTextureWith (exampleBackend true) (getFormatInfo Format.R32G32B32A32_FLOAT)
        exampleTexture256 none 0 0).outRowPitch = 4096
    ∧ ∃ blob : List Byte,
        (exampleDevice.readTextureWith (exampleBackend true) (getFormatInfo Format.R32G32B32A32_FLOAT)
          exampleTexture256 none 0 0).outBlob = some blob
        ∧ blob.length = 1048576 :=
  have h := readTexture_pitch_and_size (exampleBackend true) exampleDevice
    (getFormatInfo Format.R32G32B32A32_FLOAT) exampleTexture256 none 0 0 rfl
  ⟨rfl, h.1, h.2.1, h.2.2.1.elim (fun blob hb => ⟨blob, hb.1, hb.2.1⟩)⟩

/-! ## Diagnostics of shader compilation -/

/-- Counterexample to C19: a program compiles successfully with a warning,
and loading the module fails in the driver with error 200.  The diagnostics
blob is handed out, but the result is the backend failure, not the
compilation's success result. -/
theorem createShaderProgram_result_not_the_compile_result :
    exampleProgramWithWarning.compileResult = Result.SLANG_OK
    ∧ (exampleDevice.createShaderProgram (exampleBackendNoModule true)
        { slangGlobalScope := some exampleProgramWithWarning } none (some none)).exit
        = Exit.returned (Result.backendFailure 200)
    ∧ (exampleDevice.createShaderProgram (exampleBackendNoModule true)
        { slangGlobalScope := some exampleProgramWithWarning } none (some none)).outDiagnosticBlob
        = some (some [119, 97, 114, 110]) := by
  decide

/-- C19 as amended: for every program without specialization parameters whose
compilation yields a diagnostics blob, createShaderProgram hands that blob to
the caller when a diagnostics output is supplied, and to handleMessage as a
warning or an error, both when compilation succeeds and when it fails.  When
compilation fails the result is exactly the compilation's result.  In every
case the result, the program output and the device are those of the same call
for the same program without diagnostics: the diagnostics never change the
result code (which after a successful compilation is decided by the module
load and the kernel lookup). -/
theorem createShaderProgram_diagnostics (be : Backend) (dev : DeviceImpl) (scope : ComponentType)
    (text : List Byte) (outProgram : Option ShaderProgramImpl) (previous : Option (List Byte))
    (hplain : scope.specializationParamCount = 0)
    (hdiag : scope.diagnostics = some text) :
    (dev.createShaderProgram be { slangGlobalScope := some scope } outProgram (some previous)).outDiagnosticBlob
        = some (some text)
    ∧ (dev.createShaderProgram be { slangGlobalScope := some scope } outProgram (some previous)).messages
        = [(if scope.compileResult = Result.SLANG_OK then DebugMessageType.Warning
            else DebugMessageType.Error, text)]
    ∧ (SLANG_FAILED scope.compileResult = true →
        ∀ out : Option (Option (List Byte)),
          (dev.createShaderProgram be { slangGlobalScope := some scope } outProgram out).exit
            = Exit.returned scope.compileResult)
    ∧ (∀ out : Option (Option (List Byte)),
        (dev.createShaderProgram be { slangGlobalScope := some scope } outProgram out).exit
          = (dev.createShaderProgram be { slangGlobalScope := some { scope with diagnostics := none } }
              outProgram out).exit
        ∧ (dev.createShaderProgram be { slangGlobalScope := some scope } outProgram out).outProgram
          = (dev.createShaderProgram be { slangGlobalScope := some { scope with diagnostics := none } }
              outProgram out).outProgram
        ∧ (dev.createShaderProgram be { slangGlobalScope := some scope } outProgram out).device
          = (dev.createShaderProgram be { slangGlobalScope := some { scope with diagnostics := none } }
              outProgram out).device) := by
  refine ⟨?_, ?_, ?_, ?_⟩
  · cases hc : SLANG_FAILED scope.compileResult <;>
      simp [DeviceImpl.createShaderProgram, hplain, hdiag, hc]
  · cases hc : SLANG_FAILED scope.compileResult <;>
      simp [DeviceImpl.createShaderProgram, hplain, hdiag, hc]
  · intro hc out
    simp [DeviceImpl.createShaderProgram, hplain, hc]
  · intro out
    cases hc : SLANG_FAILED scope.compileResult <;>
      simp [DeviceImpl.createShaderProgram, hplain, hc, DeviceImpl.loadShaderProgram]

/-- Witness of C19 as amended: a compilation that fails with an error message. -/
theorem createShaderProgram_diagnostics_witness :
    (exampleDevice.createShaderProgram (exampleBackend true)
        { slangGlobalScope := some exampleProgramWithError } none (some none)).outDiagnosticBlob
        = some (some [101, 114, 114])
    ∧ (exampleDevice.createShaderProgram (exampleBackend true)
        { slangGlobalScope := some exampleProgramWithError } none (some none)).exit
        = Exit.returned Result.SLANG_FAIL :=
  ⟨(createShaderProgram_diagnostics (exampleBackend true) exampleDevice exampleProgramWithError
      [101, 114, 114] none none rfl rfl).1,
   (createShaderProgram_diagnostics (exampleBackend true) exampleDevice exampleProgramWithError
      [101, 114, 114] none none rfl rfl).2.2.1 rfl (some none)⟩

/-! ## Runs -/

theorem run_pure_bind {α β : Type} (a : α) (f : α → Run β) : Run.bind (Run.pure a) f = f a := by
  simp [Run.bind, Run.pure]

theorem run_bind_assoc {α β γ : Type} (r : Run α) (f : α → Run β) (g : β → Run γ) :
    Run.bind (Run.bind r f) g = Run.bind r (fun a => Run.bind (f a) g) := by
  cases hr : r.res with
  | error e => simp [Run.bind, hr]
  | ok a =>
    cases hf : (f a).res with
    | error e => simp [Run.bind, hr, hf]
    | ok b => simp [Run.bind, hr, hf]

theorem run_bind_of_ok {α β : Type} (r : Run α) (f : α → Run β) (a : α) (h : r.res = Except.ok a) :
    (Run.bind r f).res = (f a).res ∧ (Run.bind r f).calls = r.calls ++ (f a).calls := by
  simp [Run.bind, h]

theorem run_bind_of_error {α β : Type} (r : Run α) (f : α → Run β) (e : Exit)
    (h : r.res = Except.error e) :
    (Run.bind r f).res = Except.error e ∧ (Run.bind r f).calls = r.calls := by
  simp [Run.bind, h]

theorem run_bind_ok_inv {α β : Type} (r : Run α) (f : α → Run β) (b : β)
    (h : (Run.bind r f).res = Except.ok b) :
    ∃ a, r.res = Except.ok a ∧ (f a).res = Except.ok b
      ∧ (Run.bind r f).calls = r.calls ++ (f a).calls := by
  cases hr : r.res with
  | error e => simp [Run.bind, hr] at h
  | ok a =>
    refine ⟨a, rfl, ?_, ?_⟩
    · simpa [Run.bind, hr] using h
    · simp [Run.bind, hr]

theorem createTextureBody_eq (be : Backend) (desc : TextureDesc)
    (initData : Option (List SubresourceData)) :
    DeviceImpl.createTextureBody be desc initData
      = Run.bind (createTextureStorage be desc initData) (fun created =>
          Run.bind (createTextureObjects be desc created.2 created.1) (fun t => Run.pure (some t))) := by
  simp only [DeviceImpl.createTextureBody, createTextureStorage, run_bind_assoc, run_pure_bind]

/-! ## Surface objects -/

theorem run_bind_calls_forall {α β : Type} (P : BackendCall → Prop) (r : Run α) (f : α → Run β)
    (hr : ∀ c ∈ r.calls, P c) (hf : ∀ a, ∀ c ∈ (f a).calls, P c) :
    ∀ c ∈ (Run.bind r f).calls, P c := by
  intro c hc
  cases hres : r.res with
  | error e =>
    simp only [Run.bind, hres] at hc
    exact hr c hc
  | ok a =>
    simp only [Run.bind, hres, List.mem_append] at hc
    cases hc with
    | inl h => exact hr c h
    | inr h => exact hf a c h

theorem run_call_calls_forall (P : BackendCall → Prop) (be : Backend) (call : BackendCall)
    (h : P call) : ∀ c ∈ (Run.call be call).calls, P c := by
  intro c hc
  simp only [Run.call, List.mem_singleton] at hc
  subst hc
  exact h

theorem run_assert_calls (be : Backend) (cond : Bool) : (Run.assert be cond).calls = [] := by
  unfold Run.assert
  split <;> rfl

theorem stageMipLevel_calls (be : Backend) (desc : TextureDesc) (initData : List SubresourceData)
    (elementSize mipWidth mipHeight mipLevel : Nat) (workspace : List Byte) :
    (stageMipLevel be desc initData elementSize mipWidth mipHeight mipLevel workspace).calls = [] := by
  have hstage : ∀ n k w, (stageFaces initData mipLevel desc.mipLevelCount n k w).calls = [] := by
    intro n k w
    unfold stageFaces
    split <;> rfl
  unfold stageMipLevel
  split
  · cases ha : (Run.assert be (is1D2DOrCube desc.type)).res with
    | error e => simp [Run.bind, ha, run_assert_calls]
    | ok u =>
      cases hs : (stageFaces initData mipLevel desc.mipLevelCount (elementSize * mipWidth * mipHeight)
          (arrayFaceCount desc) workspace).res with
      | error e => simp [Run.bind, ha, hs, run_assert_calls, hstage]
      | ok w => simp [Run.bind, ha, hs, run_assert_calls, hstage, Run.pure]
  · split
    · cases hs : (stageFaces initData mipLevel desc.mipLevelCount (elementSize * mipWidth * mipHeight)
          6 workspace).res with
      | error e => simp [Run.bind, hs, hstage]
      | ok w => simp [Run.bind, hs, hstage, Run.pure]
    · split <;> rfl

theorem uploadMipLevel_calls_no_creation (be : Backend) (desc : TextureDesc)
    (initData : List SubresourceData) (width height depth elementSize : Nat) (tex : TextureImpl)
    (mipLevel : Nat) (workspace : List Byte) :
    ∀ c ∈ (uploadMipLevel be desc initData width height depth elementSize tex mipLevel workspace).calls,
      arrayCreationExtents c = none := by
  unfold uploadMipLevel
  simp only []
  apply run_bind_calls_forall
  · unfold mipLevelArray
    split
    · apply run_bind_calls_forall
      · exact run_call_calls_forall _ _ _ rfl
      · intro _ c hc; simp [Run.pure] at hc
    · intro c hc; simp [Run.pure] at hc
  · intro dstArray
    apply run_bind_calls_forall
    · intro c hc; simp [run_assert_calls] at hc
    · intro _
      apply run_bind_calls_forall
      · unfold checkMipLevel
        apply run_bind_calls_forall
        · exact run_call_calls_forall _ _ _ rfl
        · intro _
          split
          · apply run_bind_calls_forall
            · intro c hc; simp [run_assert_calls] at hc
            · intro _ c hc; simp [run_assert_calls] at hc
          · intro c hc; simp [Run.pure] at hc
      · intro _
        apply run_bind_calls_forall
        · intro c hc; simp [stageMipLevel_calls] at hc
        · intro staged
          apply run_bind_calls_forall
          · unfold copyMipLevel
            split
            · apply run_bind_calls_forall
              · intro c hc; simp [run_assert_calls] at hc
              · intro _; exact run_call_calls_forall _ _ _ rfl
            · split <;> exact run_call_calls_forall _ _ _ rfl
          · intro _ c hc; simp [Run.pure] at hc

theorem uploadMipLevels_calls_no_creation (be : Backend) (desc : TextureDesc)
    (initData : List SubresourceData) (width height depth elementSize : Nat) (tex : TextureImpl)
    (remaining mipLevel : Nat) (workspace : List Byte) :
    ∀ c ∈ (uploadMipLevels be desc initData width height depth elementSize tex remaining mipLevel
        workspace).calls, arrayCreationExtents c = none := by
  induction remaining generalizing mipLevel workspace with
  | zero => intro c hc; simp [uploadMipLevels, Run.pure] at hc
  | succ n ih =>
    unfold uploadMipLevels
    apply run_bind_calls_forall
    · exact uploadMipLevel_calls_no_creation _ _ _ _ _ _ _ _ _ _
    · intro w
      exact ih _ _

theorem createTextureObjects_calls_no_creation (be : Backend) (desc : TextureDesc)
    (resourceType : CUresourcetype) (tex : TextureImpl) :
    ∀ c ∈ (createTextureObjects be desc resourceType tex).calls, arrayCreationExtents c = none := by
  unfold createTextureObjects
  simp only []
  apply run_bind_calls_forall
  · split
    · apply run_bind_calls_forall
      · intro c hc; simp [run_assert_calls] at hc
      · intro _
        apply run_bind_calls_forall
        · exact run_call_calls_forall _ _ _ rfl
        · intro _ c hc; simp [Run.pure] at hc
    · intro c hc; simp [Run.pure] at hc
  · intro _
    apply run_bind_calls_forall
    · exact run_call_calls_forall _ _ _ rfl
    · intro _ c hc; simp [Run.pure] at hc

theorem getCUDAFormat_of_accepted (be : Backend) (format : Format) (cudaFormat : CUarray_format)
    (h : cudaFormatOf format = some cudaFormat) :
    DeviceImpl.getCUDAFormat be format = Run.pure cudaFormat := by
  simp [DeviceImpl.getCUDAFormat, h]

theorem elementSizeFor_of_supported (be : Backend) (cudaFormat : CUarray_format) (numChannels : Nat)
    (h : hasElementSize cudaFormat = true) :
    elementSizeFor be cudaFormat numChannels
      = Run.pure (componentWidthInBytes cudaFormat * numChannels) := by
  cases cudaFormat <;> simp [hasElementSize] at h <;> simp [elementSizeFor, componentWidthInBytes]

theorem createTextureBody_calls_split (be : Backend) (desc : TextureDesc)
    (initData : Option (List SubresourceData)) (cudaFormat : CUarray_format)
    (haccepted : cudaFormatOf desc.format = some cudaFormat)
    (hsize : hasElementSize cudaFormat = true) :
    ∃ tail : List BackendCall,
      (DeviceImpl.createTextureBody be desc initData).calls
        = (createTextureArray be desc (massagedExtents desc).1 (massagedExtents desc).2.1
            (massagedExtents desc).2.2 cudaFormat (getFormatInfo desc.format).channelCount
            { m_desc := be.fixupTextureDesc desc, m_cudaArray := none, m_cudaMipMappedArray := none
              m_cudaSurfObj := none, m_cudaTexObj := none, m_cudaExternalMemory := none }).calls ++ tail
      ∧ ∀ c ∈ tail, arrayCreationExtents c = none := by
  unfold DeviceImpl.createTextureBody
  simp only [getCUDAFormat_of_accepted be desc.format cudaFormat haccepted,
    elementSizeFor_of_supported be cudaFormat _ hsize, run_pure_bind]
  generalize createTextureArray be desc (massagedExtents desc).1 (massagedExtents desc).2.1
    (massagedExtents desc).2.2 cudaFormat (getFormatInfo desc.format).channelCount
    { m_desc := be.fixupTextureDesc desc, m_cudaArray := none, m_cudaMipMappedArray := none
      m_cudaSurfObj := none, m_cudaTexObj := none, m_cudaExternalMemory := none } = arr
  cases harr : arr.res with
  | error e =>
    refine ⟨[], ?_, ?_⟩
    · simp [Run.bind, harr]
    · intro c hc; cases hc
  | ok created =>
    refine ⟨_, (run_bind_of_ok arr _ created harr).2, ?_⟩
    apply run_bind_calls_forall
    · cases initData with
      | none => intro c hc; simp [Run.pure] at hc
      | some data => exact uploadMipLevels_calls_no_creation _ _ _ _ _ _ _ _ _ _ _
    · intro _
      apply run_bind_calls_forall
      · exact createTextureObjects_calls_no_creation _ _ _ _
      · intro _ c hc; simp [Run.pure] at hc

theorem run_call_bind_pure_calls {α : Type} (be : Backend) (call : BackendCall) (x : α) :
    (Run.bind (Run.call be call) (fun _ => Run.pure x)).calls = [call] := by
  by_cases h : be.status call = CUDA_SUCCESS <;> simp [Run.bind, Run.call, Run.pure, h]

theorem run_call_calls (be : Backend) (call : BackendCall) : (Run.call be call).calls = [call] :=
  rfl

theorem run_bind_pure_calls {α β : Type} (r : Run α) (g : α → β) :
    (Run.bind r (fun a => Run.pure (g a))).calls = r.calls := by
  cases h : r.res <;> simp [Run.bind, Run.pure, h]

theorem createTextureArray_calls_plain (be : Backend) (desc : TextureDesc)
    (format : CUarray_format) (numChannels : Nat) (tex : TextureImpl)
    (hplain : desc.arrayLength ≤ 1) :
    ∃ call, (createTextureArray be desc (massagedExtents desc).1 (massagedExtents desc).2.1
        (massagedExtents desc).2.2 format numChannels tex).calls = [call]
      ∧ arrayCreationExtents call = some (extentPolicy desc) := by
  have hnot : ¬ desc.arrayLength > 1 := by omega
  by_cases hmip : desc.mipLevelCount > 1
  · cases htype : desc.type <;>
      simp only [createTextureArray, createMipmappedArray, hmip, hnot, htype, massagedExtents,
        extentPolicy, run_bind_pure_calls, run_pure_bind, run_call_calls, if_true, if_false,
        reduceCtorEq] <;>
      exact ⟨_, rfl, rfl⟩
  · cases htype : desc.type <;>
      simp only [createTextureArray, createPlainArray, hmip, hnot, htype, massagedExtents,
        extentPolicy, run_bind_pure_calls, run_call_calls, if_true, if_false, reduceCtorEq,
        decide_True, decide_False, Bool.or_self, Bool.or_true, Bool.true_or, Bool.false_eq_true] <;>
      exact ⟨_, rfl, rfl⟩

theorem createTextureArray_calls_cube_array (be : Backend) (desc : TextureDesc)
    (format : CUarray_format) (numChannels : Nat) (tex : TextureImpl)
    (harray : desc.arrayLength > 1) (hcube : desc.type = TextureType.TextureCube) :
    (desc.mipLevelCount > 1 →
      ∃ call, (createTextureArray be desc (massagedExtents desc).1 (massagedExtents desc).2.1
          (massagedExtents desc).2.2 format numChannels tex).calls = [call]
        ∧ arrayCreationExtents call
            = some (desc.size.width, desc.size.height, 6 * desc.arrayLength))
    ∧ (¬ desc.mipLevelCount > 1 →
      (createTextureArray be desc (massagedExtents desc).1 (massagedExtents desc).2.1
          (massagedExtents desc).2.2 format numChannels tex).calls = []) := by
  constructor
  · intro hmip
    simp only [createTextureArray, createMipmappedArray, hmip, harray, hcube, is1D2DOrCube,
      massagedExtents, run_bind_pure_calls, run_pure_bind, run_call_calls, if_true,
      decide_True, Bool.or_true]
    exact ⟨_, rfl, by simp [arrayCreationExtents, Nat.mul_comm]⟩
  · intro hmip
    have hcalls : (Run.bind (Run.assert be false)
        (fun _ => (Run.ret Result.SLANG_FAIL : Run TextureImpl))).calls = [] := by
      cases hb : be.asserts <;> simp [Run.bind, Run.assert, Run.fault, Run.ret, Run.pure, hb]
    simp [createTextureArray, createPlainArray, hmip, harray, hcube, is1D2DOrCube,
      run_bind_pure_calls, hcalls]

theorem run_finish_trace {α : Type} (dev : DeviceImpl) (out : Option α) (body : Run (Option α)) :
    (Run.finish dev out body).device.trace = dev.trace ++ body.calls := by
  unfold Run.finish
  split <;> rfl

/-- C14: extent policy.  For a texture with a format createTexture has an
element size for, the calls createTexture makes start with the array creation.
When the texture is not arrayed, the extents handed to it are (w, 0, 0) for
Texture1D, (w, h, 0) for Texture2D, (w, h, d) for Texture3D and (w, h, 6) for
TextureCube, whatever the mip level count, and no other array creation call is
made.  For an arrayed cube every array creation call has extents
(w, h, 6 * arrayLength), and with more than one mip level that call is made. -/
theorem createTexture_extent_policy (be : Backend) (dev : DeviceImpl) (desc : TextureDesc)
    (initData : Option (List SubresourceData)) (outTexture : Option TextureImpl)
    (cudaFormat : CUarray_format)
    (haccepted : cudaFormatOf desc.format = some cudaFormat)
    (hsize : hasElementSize cudaFormat = true) :
    ∃ calls : List BackendCall,
      (dev.createTexture be desc initData outTexture).device.trace = dev.trace ++ calls
      ∧ (desc.arrayLength ≤ 1 →
          calls.head?.bind arrayCreationExtents = some (extentPolicy desc)
          ∧ ∀ c ∈ calls, ∀ e, arrayCreationExtents c = some e → e = extentPolicy desc)
      ∧ (desc.arrayLength > 1 → desc.type = TextureType.TextureCube →
          (desc.mipLevelCount > 1 →
            calls.head?.bind arrayCreationExtents
              = some (desc.size.width, desc.size.height, 6 * desc.arrayLength))
          ∧ ∀ c ∈ calls, ∀ e, arrayCreationExtents c = some e →
              e = (desc.size.width, desc.size.height, 6 * desc.arrayLength)) := by
  obtain ⟨tail, hcalls, htail⟩ := createTextureBody_calls_split be desc initData cudaFormat haccepted hsize
  refine ⟨(DeviceImpl.createTextureBody be desc initData).calls, run_finish_trace _ _ _, ?_, ?_⟩
  · intro hplain
    obtain ⟨call, hcall, hext⟩ := createTextureArray_calls_plain be desc cudaFormat
      (getFormatInfo desc.format).channelCount
      { m_desc := be.fixupTextureDesc desc, m_cudaArray := none, m_cudaMipMappedArray := none
        m_cudaSurfObj := none, m_cudaTexObj := none, m_cudaExternalMemory := none } hplain
    rw [hcalls, hcall]
    refine ⟨by simpa using hext, ?_⟩
    intro c hc e he
    simp only [List.singleton_append, List.mem_cons] at hc
    cases hc with
    | inl h =>
      subst h
      rw [hext] at he
      injection he with he
      exact he.symm
    | inr h =>
      rw [htail c h] at he
      cases he
  · intro harray hcube
    have h := createTextureArray_calls_cube_array be desc cudaFormat
      (getFormatInfo desc.format).channelCount
      { m_desc := be.fixupTextureDesc desc, m_cudaArray := none, m_cudaMipMappedArray := none
        m_cudaSurfObj := none, m_cudaTexObj := none, m_cudaExternalMemory := none } harray hcube
    by_cases hmip : desc.mipLevelCount > 1
    · obtain ⟨call, hcall, hext⟩ := h.1 hmip
      rw [hcalls, hcall]
      refine ⟨fun _ => by simpa using hext, ?_⟩
      intro c hc e he
      simp only [List.singleton_append, List.mem_cons] at hc
      cases hc with
      | inl h =>
        subst h
        rw [hext] at he
        injection he with he
        exact he.symm
      | inr h =>
        rw [htail c h] at he
        cases he
    · rw [hcalls, h.2 hmip]
      refine ⟨fun hm => absurd hm hmip, ?_⟩
      intro c hc e he
      simp only [List.nil_append] at hc
      rw [htail c hc] at he
      cases he

/-- Witness of C14: a cube with two mip levels and three layers is created
with depth 18; the same cube without layers and with one mip level with
depth 6. -/
theorem createTexture_extent_policy_witness :
    (exampleDevice.createTexture (exampleBackend true) exampleCubeArray none none).device.trace.head?.bind
        arrayCreationExtents = some (4, 4, 18)
    ∧ (exampleDevice.createTexture (exampleBackend true)
        { exampleCubeArray with arrayLength := 1, mipLevelCount := 1 } none none).device.trace.head?.bind
        arrayCreationExtents = some (4, 4, 6)
    ∧ ∃ calls : List BackendCall,
        (exampleDevice.createTexture (exampleBackend true) exampleCubeArray none none).device.trace
          = exampleDevice.trace ++ calls
        ∧ ∀ c ∈ calls, ∀ e, arrayCreationExtents c = some e → e = (4, 4, 18) :=
  ⟨by decide, by decide,
   (createTexture_extent_policy (exampleBackend true) exampleDevice exampleCubeArray none none
      CUarray_format.CU_AD_FORMAT_UNSIGNED_INT8 rfl rfl).elim
      (fun calls h => ⟨calls, h.1, (h.2.2 (by decide) rfl).2⟩)⟩

/-! ## Face gather -/

theorem drop_splice (ws : List Byte) (off : Nat) (d : List Byte) (k : Nat)
    (hfit : off + d.length ≤ ws.length) (hk : off + d.length ≤ k) :
    (splice ws off d).drop k = ws.drop k := by
  have h1 : (ws.take off ++ d).length = off + d.length := by simp; omega
  obtain ⟨t, rfl⟩ : ∃ t, k = (ws.take off ++ d).length + t := ⟨k - (off + d.length), by omega⟩
  unfold splice
  rw [List.drop_append, List.drop_drop, h1]

theorem take_splice (ws : List Byte) (off : Nat) (d : List Byte)
    (hfit : off + d.length ≤ ws.length) :
    (splice ws off d).take (off + d.length) = ws.take off ++ d := by
  have h1 : (ws.take off ++ d).length = off + d.length := by simp; omega
  unfold splice
  rw [← h1, List.take_left]

theorem gatherFaces_closed (initData : List SubresourceData) (mipLevel mipLevelCount fs : Nat) :
    ∀ (remaining j : Nat) (ws result : List Byte),
      (j + remaining) * fs ≤ ws.length →
      gatherFaces initData mipLevel mipLevelCount fs remaining j ws = Except.ok result →
      result = ws.take (j * fs) ++ gatheredFaces initData mipLevel mipLevelCount fs remaining j
          ++ ws.drop ((j + remaining) * fs)
      ∧ ∀ i, j ≤ i → i < j + remaining →
          ∃ sub, initData[mipLevel + i * mipLevelCount]? = some sub ∧ fs ≤ sub.data.length := by
  intro remaining
  induction remaining with
  | zero =>
    intro j ws result _ h
    simp only [gatherFaces] at h
    injection h with h
    subst h
    refine ⟨by simp [gatheredFaces], ?_⟩
    intro i h1 h2
    omega
  | succ n ih =>
    intro j ws result hlen h
    unfold gatherFaces at h
    split at h
    · cases h
    · rename_i sub hsub
      split at h
      · rename_i hfs
        have hd : (sub.data.take fs).length = fs := by simp; omega
        have hexp : (j + (n + 1)) * fs = j * fs + fs + n * fs := by ring
        have hfit : fs * j + (sub.data.take fs).length ≤ ws.length := by
          rw [hd, Nat.mul_comm fs j]; omega
        have hlen' : (j + 1 + n) * fs ≤ (splice ws (fs * j) (sub.data.take fs)).length := by
          rw [splice_length ws _ _ hfit]
          have : (j + 1 + n) * fs = (j + (n + 1)) * fs := by ring
          omega
        obtain ⟨hres, hsrc⟩ := ih (j + 1) _ result hlen' h
        constructor
        · rw [hres]
          have ht : (splice ws (fs * j) (sub.data.take fs)).take ((j + 1) * fs)
              = ws.take (j * fs) ++ sub.data.take fs := by
            have := take_splice ws (fs * j) (sub.data.take fs) hfit
            rw [hd] at this
            have he : (j + 1) * fs = fs * j + fs := by ring
            rw [he, this, Nat.mul_comm fs j]
          have hdr : (splice ws (fs * j) (sub.data.take fs)).drop ((j + 1 + n) * fs)
              = ws.drop ((j + (n + 1)) * fs) := by
            have he : (j + 1 + n) * fs = (j + (n + 1)) * fs := by ring
            rw [he]
            apply drop_splice ws (fs * j) (sub.data.take fs) _ hfit
            rw [hd, Nat.mul_comm fs j]
            omega
          rw [ht, hdr]
          simp [gatheredFaces, faceBytes, hsub]
        · intro i h1 h2
          by_cases hi : i = j
          · subst hi
            exact ⟨sub, hsub, hfs⟩
          · exact hsrc i (by omega) (by omega)
      · cases h

theorem gatheredFaces_block (initData : List SubresourceData) (mipLevel mipLevelCount fs : Nat) :
    ∀ (count j : Nat),
      (∀ i, j ≤ i → i < j + count →
        ∃ sub, initData[mipLevel + i * mipLevelCount]? = some sub ∧ fs ≤ sub.data.length) →
      (gatheredFaces initData mipLevel mipLevelCount fs count j).length = count * fs
      ∧ ∀ i, i < count →
          ((gatheredFaces initData mipLevel mipLevelCount fs count j).drop (i * fs)).take fs
            = faceBytes initData mipLevel mipLevelCount fs (j + i) := by
  intro count
  induction count with
  | zero =>
    intro j _
    refine ⟨by simp [gatheredFaces], ?_⟩
    intro i hi
    omega
  | succ n ih =>
    intro j hsrc
    obtain ⟨sub, hsub, hfs⟩ := hsrc j (le_refl _) (by omega)
    have hface : (faceBytes initData mipLevel mipLevelCount fs j).length = fs := by
      simp [faceBytes, hsub]; omega
    obtain ⟨hlen, hblocks⟩ := ih (j + 1) (fun i h1 h2 => hsrc i (by omega) (by omega))
    constructor
    · simp only [gatheredFaces, List.length_append, hface, hlen]
      ring
    · intro i hi
      cases i with
      | zero =>
        simp only [gatheredFaces, Nat.zero_mul, List.drop_zero, Nat.add_zero]
        exact List.take_left' hface
      | succ k =>
        have hk := hblocks k (by omega)
        have he : (k + 1) * fs
            = (faceBytes initData mipLevel mipLevelCount fs j).length + k * fs := by
          rw [hface]; ring
        simp only [gatheredFaces]
        rw [he, List.drop_append, hk]
        congr 1
        omega

theorem resize_length (ws : List Byte) (n : Nat) : (resize ws n).length = n := by
  simp [resize]
  omega

theorem stageFaces_spec (initData : List SubresourceData) (mipLevel mipLevelCount fs count : Nat)
    (ws region : List Byte)
    (h : (stageFaces initData mipLevel mipLevelCount fs count ws).res = Except.ok region) :
    region.length = fs * count
    ∧ ∀ i, i < count →
        ∃ sub, initData[mipLevel + i * mipLevelCount]? = some sub ∧ fs ≤ sub.data.length
          ∧ (region.drop (i * fs)).take fs = sub.data.take fs := by
  unfold stageFaces at h
  split at h
  · rename_i w hw
    simp only [Run.pure] at h
    injection h with h
    subst h
    have hlen : (0 + count) * fs ≤ (resize ws (fs * count)).length := by
      rw [resize_length, Nat.zero_add, Nat.mul_comm]
    obtain ⟨hres, hsrc⟩ := gatherFaces_closed initData mipLevel mipLevelCount fs count 0 _ _ hlen hw
    have hdrop : (resize ws (fs * count)).drop ((0 + count) * fs) = [] := by
      apply List.drop_eq_nil_of_le
      rw [resize_length, Nat.zero_add, Nat.mul_comm]
    simp only [Nat.zero_mul, List.take_zero, List.nil_append, hdrop, List.append_nil] at hres
    obtain ⟨hblen, hblocks⟩ := gatheredFaces_block initData mipLevel mipLevelCount fs count 0 hsrc
    subst hres
    refine ⟨by rw [hblen, Nat.mul_comm], ?_⟩
    intro i hi
    obtain ⟨sub, hsub, hfs⟩ := hsrc i (Nat.zero_le _) (by omega)
    refine ⟨sub, hsub, hfs, ?_⟩
    rw [hblocks i hi]
    simp [faceBytes, hsub]
  · simp [Run.fault] at h

theorem stagedFaceCount_of_array (desc : TextureDesc) (h : desc.arrayLength > 1) :
    arrayFaceCount desc = stagedFaceCount desc := by
  have hmax : max 1 desc.arrayLength = desc.arrayLength := Nat.max_eq_right (by omega)
  unfold arrayFaceCount stagedFaceCount
  rw [hmax]
  split <;> simp

theorem stagedFaceCount_of_cube (desc : TextureDesc) (h : ¬ desc.arrayLength > 1)
    (hcube : desc.type = TextureType.TextureCube) : stagedFaceCount desc = 6 := by
  have hmax : max 1 desc.arrayLength = 1 := Nat.max_eq_left (by omega)
  simp [stagedFaceCount, hmax, hcube]

theorem stageMipLevel_spec (be : Backend) (desc : TextureDesc) (initData : List SubresourceData)
    (elementSize mipWidth mipHeight mipLevel : Nat) (ws : List Byte) (staged : List Byte × List Byte)
    (hshape : desc.arrayLength > 1 ∨ desc.type = TextureType.TextureCube)
    (h : (stageMipLevel be desc initData elementSize mipWidth mipHeight mipLevel ws).res
      = Except.ok staged) :
    staged.2 = staged.1
    ∧ staged.1.length = elementSize * mipWidth * mipHeight * stagedFaceCount desc
    ∧ ∀ i, i < stagedFaceCount desc →
        ∃ sub, initData[mipLevel + i * desc.mipLevelCount]? = some sub
          ∧ elementSize * mipWidth * mipHeight ≤ sub.data.length
          ∧ (staged.1.drop (i * (elementSize * mipWidth * mipHeight))).take
              (elementSize * mipWidth * mipHeight)
            = sub.data.take (elementSize * mipWidth * mipHeight) := by
  unfold stageMipLevel at h
  split at h
  · rename_i harr
    obtain ⟨_, _, h2, _⟩ := run_bind_ok_inv _ _ _ h
    obtain ⟨region, hregion, h3, _⟩ := run_bind_ok_inv _ _ _ h2
    simp only [Run.pure] at h3
    injection h3 with h3
    subst h3
    rw [stagedFaceCount_of_array desc harr] at hregion
    exact ⟨rfl, stageFaces_spec _ _ _ _ _ _ _ hregion⟩
  · rename_i harr
    have hcube : desc.type = TextureType.TextureCube := by
      cases hshape with
      | inl h => exact absurd h harr
      | inr h => exact h
    simp only [hcube, if_true] at h
    obtain ⟨region, hregion, h3, _⟩ := run_bind_ok_inv _ _ _ h
    simp only [Run.pure] at h3
    injection h3 with h3
    subst h3
    rw [stagedFaceCount_of_cube desc harr hcube]
    exact ⟨rfl, stageFaces_spec _ _ _ _ _ _ _ hregion⟩

theorem copyMipLevel_spec (be : Backend) (desc : TextureDesc) (dstArray : Option CUarray)
    (elementSize mipWidth mipHeight mipDepth : Nat) (srcData : List Byte)
    (hshape : desc.arrayLength > 1 ∨ desc.type = TextureType.TextureCube)
    (hdepth : desc.type = TextureType.TextureCube → mipDepth = 6)
    (h : (copyMipLevel be desc dstArray elementSize mipWidth mipHeight mipDepth srcData).res
      = Except.ok ()) :
    (copyMipLevel be desc dstArray elementSize mipWidth mipHeight mipDepth srcData).calls
      = [BackendCall.cuMemcpy3D
          { dstArray := dstArray, srcHost := srcData, srcPitch := mipWidth * elementSize
            WidthInBytes := mipWidth * elementSize, Height := mipHeight
            Depth := stagedFaceCount desc }] := by
  unfold copyMipLevel at h ⊢
  split at h
  · rename_i harr
    obtain ⟨_, ha, _, hc⟩ := run_bind_ok_inv _ _ _ h
    simp only [harr, if_true]
    rw [hc, run_assert_calls, run_call_calls, ← stagedFaceCount_of_array desc harr]
    rfl
  · rename_i harr
    have hcube : desc.type = TextureType.TextureCube := by
      cases hshape with
      | inl h => exact absurd h harr
      | inr h => exact h
    simp only [harr, if_false, hcube, run_call_calls, stagedFaceCount_of_cube desc harr hcube,
      hdepth hcube]

theorem uploadMipLevel_spec (be : Backend) (desc : TextureDesc) (initData : List SubresourceData)
    (width height depth elementSize : Nat) (tex : TextureImpl) (mipLevel : Nat) (ws ws' : List Byte)
    (hshape : desc.arrayLength > 1 ∨ desc.type = TextureType.TextureCube)
    (h : (uploadMipLevel be desc initData width height depth elementSize tex mipLevel ws).res
      = Except.ok ws') :
    (∃ dstArray, BackendCall.cuMemcpy3D
        { dstArray := dstArray, srcHost := ws'
          srcPitch := mipExtent width mipLevel * elementSize
          WidthInBytes := mipExtent width mipLevel * elementSize
          Height := mipExtent height mipLevel
          Depth := stagedFaceCount desc }
      ∈ (uploadMipLevel be desc initData width height depth elementSize tex mipLevel ws).calls)
    ∧ ws'.length
        = elementSize * mipExtent width mipLevel * mipExtent height mipLevel * stagedFaceCount desc
    ∧ ∀ i, i < stagedFaceCount desc →
        ∃ sub, initData[mipLevel + i * desc.mipLevelCount]? = some sub
          ∧ elementSize * mipExtent width mipLevel * mipExtent height mipLevel ≤ sub.data.length
          ∧ (ws'.drop (i * (elementSize * mipExtent width mipLevel * mipExtent height mipLevel))).take
              (elementSize * mipExtent width mipLevel * mipExtent height mipLevel)
            = sub.data.take (elementSize * mipExtent width mipLevel * mipExtent height mipLevel) := by
  unfold uploadMipLevel at h ⊢
  simp only [] at h ⊢
  obtain ⟨dstArray, _, h1, c1⟩ := run_bind_ok_inv _ _ _ h
  obtain ⟨_, _, h2, c2⟩ := run_bind_ok_inv _ _ _ h1
  obtain ⟨_, _, h3, c3⟩ := run_bind_ok_inv _ _ _ h2
  obtain ⟨staged, hstaged, h4, c4⟩ := run_bind_ok_inv _ _ _ h3
  obtain ⟨u, hcopy, h5, c5⟩ := run_bind_ok_inv _ _ _ h4
  simp only [Run.pure] at h5
  injection h5 with h5
  obtain ⟨hsame, hlen, hfaces⟩ := stageMipLevel_spec be desc initData elementSize _ _ mipLevel ws
    staged hshape hstaged
  have hcalls := copyMipLevel_spec be desc dstArray elementSize _ _ _ staged.2 hshape
    (fun hc => by simp [hc]) hcopy
  subst h5
  refine ⟨⟨dstArray, ?_⟩, hlen, hfaces⟩
  rw [c1, c2, c3, c4, c5, hcalls, hsame]
  simp

theorem uploadMipLevels_levels (be : Backend) (desc : TextureDesc) (initData : List SubresourceData)
    (width height depth elementSize : Nat) (tex : TextureImpl) :
    ∀ (remaining start : Nat) (ws : List Byte),
      (uploadMipLevels be desc initData width height depth elementSize tex remaining start ws).res
        = Except.ok () →
      ∀ m, start ≤ m → m < start + remaining →
        ∃ ws1 ws2,
          (uploadMipLevel be desc initData width height depth elementSize tex m ws1).res
            = Except.ok ws2
          ∧ ∀ c ∈ (uploadMipLevel be desc initData width height depth elementSize tex m ws1).calls,
              c ∈ (uploadMipLevels be desc initData width height depth elementSize tex remaining
                start ws).calls := by
  intro remaining
  induction remaining with
  | zero =>
    intro start ws _ m h1 h2
    omega
  | succ n ih =>
    intro start ws h m h1 h2
    unfold uploadMipLevels at h ⊢
    obtain ⟨w', hfirst, hrest, hcalls⟩ := run_bind_ok_inv _ _ _ h
    by_cases hm : m = start
    · subst hm
      refine ⟨ws, w', hfirst, ?_⟩
      intro c hc
      rw [hcalls]
      exact List.mem_append_left _ hc
    · obtain ⟨ws1, ws2, hrun, hsub⟩ := ih (start + 1) w' hrest m (by omega) (by omega)
      refine ⟨ws1, ws2, hrun, ?_⟩
      intro c hc
      rw [hcalls]
      exact List.mem_append_right _ (hsub c hc)

/-- Counterexample to C13: a cube with arrayLength 0 and six faces of one
byte.  createTexture succeeds and copies with depth 6 from a staged region of
the 6 bytes 1..6, whereas arrayLength * 6 is 0. -/
theorem createTexture_cube_without_layers_stages_six_faces :
    (exampleDevice.createTexture (exampleBackend true) exampleCubeNoLayers (some exampleSixFaces) none).exit
        = Exit.returned Result.SLANG_OK
    ∧ BackendCall.cuMemcpy3D
        { dstArray := some
            { desc := { Width := 1, Height := 1, Depth := 6
                        Format := CUarray_format.CU_AD_FORMAT_UNSIGNED_INT8, NumChannels := 1
                        Flags := CUDA_ARRAY3D_CUBEMAP } }
          srcHost := [1, 2, 3, 4, 5, 6], srcPitch := 1, WidthInBytes := 1, Height := 1, Depth := 6 }
      ∈ (exampleDevice.createTexture (exampleBackend true) exampleCubeNoLayers (some exampleSixFaces)
          none).device.trace
    ∧ exampleCubeNoLayers.arrayLength * 6 = 0 := by
  decide

/-- C13 as amended: texture face gather.  Let an arrayed and/or cube texture
be given init data, and let its array be created and the data uploaded.  With
faceCount = max(1, arrayLength) * (6 if Cube else 1), which is arrayLength *
(6 if Cube else 1) whenever arrayLength is at least 1, and faceSize =
elementSize * max(1, width >> m) * max(1, height >> m): for every mip level m
a copy with depth faceCount is made from a staged region of faceSize *
faceCount bytes, in which for every face i < faceCount the first faceSize
bytes of initData[m + i * mipLevelCount] stand unchanged at offset i *
faceSize.  For a cube of positive width and height the region of mip level 0
has elementSize * width * height * 6 * max(1, arrayLength) bytes. -/
theorem createTexture_face_gather (be : Backend) (dev : DeviceImpl) (desc : TextureDesc)
    (initData : List SubresourceData) (outTexture : Option TextureImpl)
    (created : TextureImpl × CUresourcetype) (elementSize : Nat)
    (hshape : desc.arrayLength > 1 ∨ desc.type = TextureType.TextureCube)
    (hsize : (textureElementSize be desc.format).res = Except.ok elementSize)
    (hstorage : (createTextureStorage be desc (some initData)).res = Except.ok created) :
    (∀ m, m < desc.mipLevelCount →
      ∃ (region : List Byte) (dstArray : Option CUarray),
        BackendCall.cuMemcpy3D
          { dstArray := dstArray, srcHost := region
            srcPitch := mipExtent (massagedExtents desc).1 m * elementSize
            WidthInBytes := mipExtent (massagedExtents desc).1 m * elementSize
            Height := mipExtent (massagedExtents desc).2.1 m
            Depth := stagedFaceCount desc }
          ∈ (dev.createTexture be desc (some initData) outTexture).device.trace
        ∧ region.length
            = elementSize * mipExtent (massagedExtents desc).1 m
                * mipExtent (massagedExtents desc).2.1 m * stagedFaceCount desc
        ∧ ∀ i, i < stagedFaceCount desc →
            ∃ sub, initData[m + i * desc.mipLevelCount]? = some sub
              ∧ elementSize * mipExtent (massagedExtents desc).1 m
                  * mipExtent (massagedExtents desc).2.1 m ≤ sub.data.length
              ∧ (region.drop (i * (elementSize * mipExtent (massagedExtents desc).1 m
                    * mipExtent (massagedExtents desc).2.1 m))).take
                  (elementSize * mipExtent (massagedExtents desc).1 m
                    * mipExtent (massagedExtents desc).2.1 m)
                = sub.data.take (elementSize * mipExtent (massagedExtents desc).1 m
                    * mipExtent (massagedExtents desc).2.1 m))
    ∧ (1 ≤ desc.arrayLength →
        stagedFaceCount desc
          = desc.arrayLength * (if desc.type = TextureType.TextureCube then 6 else 1))
    ∧ (desc.type = TextureType.TextureCube → 0 < desc.size.width → 0 < desc.size.height →
        elementSize * mipExtent (massagedExtents desc).1 0 * mipExtent (massagedExtents desc).2.1 0
            * stagedFaceCount desc
          = elementSize * desc.size.width * desc.size.height * 6 * max 1 desc.arrayLength) := by
  refine ⟨?_, ?_, ?_⟩
  · intro m hm
    have htrace : ∀ c ∈ (createTextureStorage be desc (some initData)).calls,
        c ∈ (dev.createTexture be desc (some initData) outTexture).device.trace := by
      intro c hc
      unfold DeviceImpl.createTexture
      rw [run_finish_trace, createTextureBody_eq, (run_bind_of_ok _ _ created hstorage).2]
      exact List.mem_append_right _ (List.mem_append_left _ hc)
    unfold textureElementSize at hsize
    obtain ⟨format, hformat, hes, _⟩ := run_bind_ok_inv _ _ _ hsize
    unfold createTextureStorage at hstorage htrace
    simp only [] at hstorage htrace
    obtain ⟨format', hformat', h1, c1⟩ := run_bind_ok_inv _ _ _ hstorage
    rw [hformat] at hformat'
    injection hformat' with hformat'
    subst hformat'
    obtain ⟨es', hes', h2, c2⟩ := run_bind_ok_inv _ _ _ h1
    rw [hes] at hes'
    injection hes' with hes'
    subst hes'
    obtain ⟨arr, _, h3, c3⟩ := run_bind_ok_inv _ _ _ h2
    obtain ⟨u, hupload, _, c4⟩ := run_bind_ok_inv _ _ _ h3
    obtain ⟨ws1, ws2, hrun, hsub⟩ := uploadMipLevels_levels be desc initData _ _ _ elementSize arr.1
      desc.mipLevelCount 0 [] hupload m (Nat.zero_le _) (by omega)
    obtain ⟨⟨dstArray, hcall⟩, hlen, hfaces⟩ := uploadMipLevel_spec be desc initData _ _ _ elementSize
      arr.1 m ws1 ws2 hshape hrun
    refine ⟨ws2, dstArray, htrace _ ?_, hlen, hfaces⟩
    rw [c1, c2, c3, c4]
    exact List.mem_append_right _ (List.mem_append_right _ (List.mem_append_right _
      (List.mem_append_left _ (hsub _ hcall))))
  · intro hlayers
    have hmax : max 1 desc.arrayLength = desc.arrayLength := Nat.max_eq_right hlayers
    simp [stagedFaceCount, hmax]
  · intro hcube hw hh
    have hw0 : mipExtent desc.size.width 0 = desc.size.width := by
      simp [mipExtent]; omega
    have hh0 : mipExtent desc.size.height 0 = desc.size.height := by
      simp [mipExtent]; omega
    simp only [massagedExtents, hcube, stagedFaceCount, if_true, hw0, hh0]
    ring

/-- Witness of C13 as amended: the cube with six faces of one byte. -/
theorem createTexture_face_gather_witness :
    (createTextureStorage (exampleBackend true) exampleCubeNoLayers (some exampleSixFaces)).res.toOption.isSome
        = true
    ∧ ∃ (region : List Byte) (dstArray : Option CUarray),
        BackendCall.cuMemcpy3D
          { dstArray := dstArray, srcHost := region
            srcPitch := mipExtent (massagedExtents exampleCubeNoLayers).1 0 * 1
            WidthInBytes := mipExtent (massagedExtents exampleCubeNoLayers).1 0 * 1
            Height := mipExtent (massagedExtents exampleCubeNoLayers).2.1 0
            Depth := stagedFaceCount exampleCubeNoLayers }
          ∈ (exampleDevice.createTexture (exampleBackend true) exampleCubeNoLayers
              (some exampleSixFaces) none).device.trace
        ∧ region.length = 1 * mipExtent (massagedExtents exampleCubeNoLayers).1 0
            * mipExtent (massagedExtents exampleCubeNoLayers).2.1 0 * stagedFaceCount exampleCubeNoLayers :=
  ⟨rfl,
   ((createTexture_face_gather (exampleBackend true) exampleDevice exampleCubeNoLayers exampleSixFaces
      none ((createTextureStorage (exampleBackend true) exampleCubeNoLayers
        (some exampleSixFaces)).res.toOption.getD (exampleTexture256, CUresourcetype.CU_RESOURCE_TYPE_ARRAY))
      1 (Or.inr rfl) rfl rfl).1 0 (by decide)).elim
      (fun region h => h.elim (fun dstArray h2 => ⟨region, dstArray, h2.1, h2.2.1⟩))⟩

/-! ## End-to-end compute dispatch -/

theorem load_congr_alloc (mem1 mem2 : DeviceMemory) (a off n : Nat) (h : mem1[a]? = mem2[a]?) :
    load mem1 (Ptr.device a off) n = load mem2 (Ptr.device a off) n := by
  simp [load, h]

theorem store_other_alloc (mem mem' : DeviceMemory) (dst : Ptr) (data : List Byte) (a : Nat)
    (h : ∀ a' off', dst = Ptr.device a' off' → a' ≠ a) (hs : store mem dst data = some mem') :
    mem'[a]? = mem[a]? := by
  cases dst with
  | null =>
    simp only [store] at hs
    split at hs
    · injection hs with hs; rw [hs]
    · cases hs
  | host bs => simp [store] at hs
  | device a' off' =>
    have hne := h a' off' rfl
    simp only [store] at hs
    split at hs
    · split at hs
      · injection hs with hs
        rw [← hs, List.getElem?_set_ne hne]
      · cases hs
    · cases hs

theorem cuMemcpy_other_alloc (mem : DeviceMemory) (dst src : Ptr) (n a : Nat)
    (h : ∀ a' off', dst = Ptr.device a' off' → a' ≠ a) :
    (cuMemcpy mem dst src n).2[a]? = mem[a]? := by
  cases hl : load mem src n with
  | none => simp [cuMemcpy, hl]
  | some data =>
    cases hs : store mem dst data with
    | none => simp [cuMemcpy, hl, hs]
    | some mem' =>
      simp only [cuMemcpy, hl, hs]
      exact store_other_alloc mem mem' dst data a h hs

theorem maybeSpecializePipeline_memory (be : Backend) (dev : DeviceImpl) (p : Option Pipeline)
    (r : Option RootShaderObjectImpl) :
    (dev.maybeSpecializePipeline be p r).1.memory = dev.memory
    ∧ launchCount (dev.maybeSpecializePipeline be p r).1.trace = launchCount dev.trace := by
  unfold DeviceImpl.maybeSpecializePipeline
  split
  · exact ⟨rfl, rfl⟩
  · exact ⟨rfl, rfl⟩
  · split
    · exact ⟨rfl, rfl⟩
    · split
      · exact ⟨rfl, rfl⟩
      · exact ⟨rfl, by simp [launchCount, List.countP_append]⟩

theorem toInt32_one : toInt32 1 = 1 := by decide

theorem execute_bind_and_dispatch (be : Backend) (q : CommandQueueImpl) (cb : CommandBufferImpl)
    (P : Pipeline) (R : RootShaderObjectImpl) (iP iR : Nat)
    (hq : q.fault = none)
    (hcmd : cb.m_commands =
      [{ name := CommandName.SetPipeline, operands := [iP] },
       { name := CommandName.BindRootShaderObject, operands := [iR] },
       { name := CommandName.DispatchCompute, operands := [1, 1, 1] }])
    (hP : cb.m_objects[iP]? = some (Object.pipeline P))
    (hR : cb.m_objects[iR]? = some (Object.shaderObject (ShaderObjectBase.root R))) :
    q.execute be cb
      = CommandQueueImpl.dispatchCompute be
          { q with currentPipeline := some P, currentRootObject := some R } 1 1 1 := by
  simp [CommandQueueImpl.execute, hcmd, CommandQueueImpl.executeCommands,
    CommandQueueImpl.executeCommand, hq, Command.operand, CommandBufferImpl.getPipeline,
    CommandBufferImpl.getShaderObject, hP, hR, CommandQueueImpl.setPipeline,
    CommandQueueImpl.bindRootShaderObject, ShaderObjectBase.asRoot, toInt32_one]

theorem launch_spec (be : Backend) (q : CommandQueueImpl) (program : ShaderProgramImpl)
    (R : RootShaderObjectImpl) (k : Nat) (info : KernelInfo) (ep : EntryPointShaderObject)
    (x y z : Int)
    (hk : R.layout.getKernelIndex program.kernelName = (k : Int))
    (hinfo : R.layout.kernels[k]? = some info)
    (hep : R.entryPointObjects[k]? = some ep)
    (hlaunch : be.status (BackendCall.cuLaunchKernel program.cudaKernel x y z (launchBlock info).1
      (launchBlock info).2.1 (launchBlock info).2.2 0 q.stream ep.buffer ep.buffer.length)
        = CUDA_SUCCESS) :
    ∃ (globalParams : Ptr × Nat),
      (globalParams.1 = Ptr.null ∨ globalParams = be.moduleGlobal program.cudaModule)
      ∧ (q.launch be program R x y z).fault = q.fault
      ∧ (q.launch be program R x y z).m_device.memory
          = be.kernel program.cudaKernel (x, y, z) (launchBlock info) ep.buffer
              (cuMemcpy q.m_device.memory globalParams.1 R.buffer globalParams.2).2
      ∧ launchCount (q.launch be program R x y z).m_device.trace
          = launchCount q.m_device.trace + 1 := by
  have hneg : ¬ ((k : Int) < 0) := by omega
  have hne : ¬ ((k : Int) = -1) := by omega
  refine ⟨if be.status (BackendCall.cuModuleGetGlobal program.cudaModule) = CUDA_SUCCESS
      then be.moduleGlobal program.cudaModule else (Ptr.null, 0), ?_, ?_, ?_, ?_⟩
  · split
    · exact Or.inr rfl
    · exact Or.inl rfl
  · simp [CommandQueueImpl.launch, hk, hne, hneg,
      RootShaderObjectLayoutImpl.getKernelThreadGroupSize, hinfo, hep, launchBlock] at hlaunch ⊢
    simp [hlaunch]
  · simp [CommandQueueImpl.launch, hk, hne, hneg,
      RootShaderObjectLayoutImpl.getKernelThreadGroupSize, hinfo, hep, launchBlock] at hlaunch ⊢
    simp [hlaunch]
  · simp [CommandQueueImpl.launch, hk, hne, hneg,
      RootShaderObjectLayoutImpl.getKernelThreadGroupSize, hinfo, hep, launchBlock] at hlaunch ⊢
    simp [hlaunch, launchCount, List.countP_append, List.countP_cons]

theorem createBuffer_contents (be : Backend) (dev : DeviceImpl) (descIn : BufferDesc)
    (initData : List Byte) (outBuffer : Option BufferImpl)
    (hlen : initData.length = (be.fixupBufferDesc descIn).size)
    (hok : (dev.createBuffer be descIn (some initData) outBuffer).exit = Exit.returned Result.SLANG_OK) :
    (dev.createBuffer be descIn (some initData) outBuffer).out
        = some { m_desc := be.fixupBufferDesc descIn, m_cudaMemory := Ptr.device dev.memory.length 0,
                 m_cudaExternalMemory := none }
    ∧ load (dev.createBuffer be descIn (some initData) outBuffer).device.memory
        (Ptr.device dev.memory.length 0) (be.fixupBufferDesc descIn).size = some initData := by
  have hsrc : load (dev.memory ++ [List.replicate (be.fixupBufferDesc descIn).size 0])
      (Ptr.host initData) (be.fixupBufferDesc descIn).size = some initData := by
    rw [← hlen]; exact load_host _ initData
  have hdst := deviceRange_fresh dev.memory (be.fixupBufferDesc descIn).size
  have hstatus := cuMemcpy_status _ _ _ _ _ hsrc hdst
  have hcopy := (cuMemcpy_spec _ _ _ _ _ hsrc hdst).1
  by_cases halloc : be.status (BackendCall.cuMemAllocManaged (be.fixupBufferDesc descIn).size)
      = CUDA_SUCCESS
  · constructor
    · simp [DeviceImpl.createBuffer, halloc, hstatus]
    · simpa [DeviceImpl.createBuffer, halloc, hstatus] using hcopy
  · exfalso
    simp [DeviceImpl.createBuffer, halloc, SLANG_CUDA_HANDLE_ERROR] at hok

/-- C16: end-to-end compute dispatch.  A buffer is created with init data d.
A command buffer recorded as [SetPipeline, BindRootShaderObject,
DispatchCompute(1,1,1)] is submitted to a queue on that device; the pipeline
resolves to a program whose kernel is in the layout of the root object, whose
launch the driver accepts, whose global parameters live outside the buffer,
and whose kernel maps buffer contents x to f x.  Then after waiting on the
host the queue is still running, readBuffer returns success with f d, and
exactly one kernel launch was issued. -/
theorem compute_dispatch_end_to_end (be : Backend) (dev0 : DeviceImpl) (descIn : BufferDesc)
    (d : List Byte) (f : List Byte → List Byte) (outBuffer : Option BufferImpl) (buffer : BufferImpl)
    (q : CommandQueueImpl) (cb : CommandBufferImpl) (P : Pipeline) (R : RootShaderObjectImpl)
    (program : ShaderProgramImpl) (k : Nat) (info : KernelInfo) (ep : EntryPointShaderObject)
    (iP iR valueToSignal : Nat) (outBlob : Option (List Byte))
    (hlen : d.length = (be.fixupBufferDesc descIn).size)
    (hcreated : (dev0.createBuffer be descIn (some d) outBuffer).exit = Exit.returned Result.SLANG_OK)
    (hbuffer : (dev0.createBuffer be descIn (some d) outBuffer).out = some buffer)
    (hdev : q.m_device = (dev0.createBuffer be descIn (some d) outBuffer).device)
    (hq : q.fault = none)
    (hcmd : cb.m_commands =
      [{ name := CommandName.SetPipeline, operands := [iP] },
       { name := CommandName.BindRootShaderObject, operands := [iR] },
       { name := CommandName.DispatchCompute, operands := [1, 1, 1] }])
    (hP : cb.m_objects[iP]? = some (Object.pipeline P))
    (hR : cb.m_objects[iR]? = some (Object.shaderObject (ShaderObjectBase.root R)))
    (hspec : (q.m_device.maybeSpecializePipeline be (some P) (some R)).2.2
      = some (Pipeline.Specialized program))
    (hk : R.layout.getKernelIndex program.kernelName = (k : Int))
    (hinfo : R.layout.kernels[k]? = some info)
    (hep : R.entryPointObjects[k]? = some ep)
    (hlaunch : be.status (BackendCall.cuLaunchKernel program.cudaKernel 1 1 1 (launchBlock info).1
      (launchBlock info).2.1 (launchBlock info).2.2 0 q.stream ep.buffer ep.buffer.length)
        = CUDA_SUCCESS)
    (hglobal : ∀ a off, (be.moduleGlobal program.cudaModule).1 = Ptr.device a off →
      a ≠ dev0.memory.length)
    (hkernel : ∀ (mem : DeviceMemory) (x : List Byte),
      load mem buffer.m_cudaMemory (be.fixupBufferDesc descIn).size = some x →
      load (be.kernel program.cudaKernel (1, 1, 1) (launchBlock info) ep.buffer mem)
        buffer.m_cudaMemory (be.fixupBufferDesc descIn).size = some (f x)) :
    (q.submit be 1 [cb] none valueToSignal).waitOnHost.fault = none
    ∧ ((q.submit be 1 [cb] none valueToSignal).waitOnHost.m_device.readBuffer (some buffer) 0
        (be.fixupBufferDesc descIn).size outBlob).exit = Exit.returned Result.SLANG_OK
    ∧ ((q.submit be 1 [cb] none valueToSignal).waitOnHost.m_device.readBuffer (some buffer) 0
        (be.fixupBufferDesc descIn).size outBlob).out = some (f d)
    ∧ launchCount (q.submit be 1 [cb] none valueToSignal).waitOnHost.m_device.trace
        = launchCount q.m_device.trace + 1 := by
  obtain ⟨hout, hcontents⟩ := createBuffer_contents be dev0 descIn d outBuffer hlen hcreated
  rw [hbuffer] at hout
  injection hout with hout
  have hptr : buffer.m_cudaMemory = Ptr.device dev0.memory.length 0 := by rw [hout]
  rw [← hdev] at hcontents
  have hmem := maybeSpecializePipeline_memory be q.m_device (some P) (some R)
  have hdisp : q.execute be cb
      = CommandQueueImpl.launch be
          { q with
              m_device := (q.m_device.maybeSpecializePipeline be (some P) (some R)).1
              currentPipeline := some (Pipeline.Specialized program)
              currentRootObject := some R } program R 1 1 1 := by
    rw [execute_bind_and_dispatch be q cb P R iP iR hq hcmd hP hR]
    simp [CommandQueueImpl.dispatchCompute, hspec]
  obtain ⟨globalParams, hgp, hfault, hmemory, hcount⟩ := launch_spec be
    { q with
        m_device := (q.m_device.maybeSpecializePipeline be (some P) (some R)).1
        currentPipeline := some (Pipeline.Specialized program)
        currentRootObject := some R } program R k info ep 1 1 1 hk hinfo hep hlaunch
  have hsep : ∀ a' off', globalParams.1 = Ptr.device a' off' → a' ≠ dev0.memory.length := by
    intro a' off' h
    cases hgp with
    | inl hnull => rw [hnull] at h; cases h
    | inr heq => rw [heq] at h; exact hglobal a' off' h
  have hafter : load (q.execute be cb).m_device.memory buffer.m_cudaMemory
      (be.fixupBufferDesc descIn).size = some (f d) := by
    rw [hdisp, hmemory]
    apply hkernel
    rw [hptr, load_congr_alloc _ q.m_device.memory _ _ _
      (by rw [cuMemcpy_other_alloc _ _ _ _ _ hsep]; simp only [hmem.1])]
    exact hcontents
  have hfault' : (q.execute be cb).fault = none := by
    rw [hdisp, hfault]; exact hq
  have hwait : (q.submit be 1 [cb] none valueToSignal).waitOnHost.m_device.memory
      = (q.execute be cb).m_device.memory := by
    rw [submit_one]
    simp [CommandQueueImpl.waitOnHost, hfault', DeviceImpl.record]
  have hread := readBuffer_of_load (q.submit be 1 [cb] none valueToSignal).waitOnHost.m_device buffer
    (be.fixupBufferDesc descIn).size (f d) outBlob (by rw [hwait]; exact hafter)
  refine ⟨?_, hread.1, hread.2, ?_⟩
  · rw [submit_one]
    simp [CommandQueueImpl.waitOnHost, hfault']
  · rw [submit_one]
    simp only [CommandQueueImpl.waitOnHost, hfault', DeviceImpl.record]
    rw [hdisp]
    simp only [launchCount, List.countP_append] at hcount ⊢
    simp only [launchCount] at hmem
    rw [hcount, hmem.2]
    simp

theorem incrementWords_length : ∀ (n : Nat) (bs : List Byte), bs.length ≤ n →
    (incrementWords bs).length = bs.length
  | 0, bs, h => by
    have : bs = [] := List.length_eq_zero.mp (Nat.le_zero.mp h)
    subst this; rfl
  | n + 1, [], _ => rfl
  | n + 1, [_], _ => rfl
  | n + 1, _ :: _ :: rest, h => by
    have hrest : rest.length ≤ n := by simp at h; omega
    simp [incrementWords, incrementWords_length n rest hrest]

theorem exampleBackendIncrement_kernel (k : Nat) (grid block : Int × Int × Int)
    (params : List Byte) (mem : DeviceMemory) (x : List Byte)
    (h : load mem (Ptr.device 2 0) 8 = some x) :
    load (exampleBackendIncrement.kernel k grid block params mem) (Ptr.device 2 0) 8
      = some (incrementWords x) := by
  unfold load at h
  cases hm : mem[2]? with
  | none => simp [hm] at h
  | some bs =>
    simp only [hm] at h
    split at h
    · rename_i hle
      injection h with h
      simp only [List.drop_zero] at h
      have hlt : 2 < mem.length := by
        rcases Nat.lt_or_ge 2 mem.length with hlt | hge
        · exact hlt
        · rw [List.getElem?_eq_none hge] at hm; cases hm
      have hiw : (incrementWords (bs.take 8)).length = 8 := by
        rw [incrementWords_length 8 _ (by simp)]
        simp; omega
      have hget : (mem.set 2 (incrementWords (bs.take 8) ++ bs.drop 8))[2]?
          = some (incrementWords (bs.take 8) ++ bs.drop 8) := by
        simp [hlt]
      simp only [exampleBackendIncrement, hm, load, hget]
      rw [if_pos (by simp [hiw])]
      rw [← h]
      simp only [List.drop_zero]
      rw [List.take_left' hiw]
    · cases h

/-- Witness for C16 on the 16-bit numbers 0, 1, 2, 3 with a kernel that adds
one: the read-back is 1, 2, 3, 4 and one kernel launch was issued. -/
theorem compute_dispatch_end_to_end_witness :
    (exampleWordsQueue.submit exampleBackendIncrement 1 [exampleDispatch] none 7).waitOnHost.fault = none
    ∧ ((exampleWordsQueue.submit exampleBackendIncrement 1 [exampleDispatch] none 7).waitOnHost.m_device.readBuffer
        (some exampleWordsBuffer) 0 8 none).exit = Exit.returned Result.SLANG_OK
    ∧ ((exampleWordsQueue.submit exampleBackendIncrement 1 [exampleDispatch] none 7).waitOnHost.m_device.readBuffer
        (some exampleWordsBuffer) 0 8 none).out = some [1, 0, 2, 0, 3, 0, 4, 0]
    ∧ launchCount (exampleWordsQueue.submit exampleBackendIncrement 1 [exampleDispatch] none 7).waitOnHost.m_device.trace
        = launchCount exampleWordsDevice.trace + 1 :=
  compute_dispatch_end_to_end exampleBackendIncrement exampleDevice
    { size := 8, elementSize := 0, format := Format.Unknown } [0, 0, 1, 0, 2, 0, 3, 0]
    incrementWords none exampleWordsBuffer exampleWordsQueue
    exampleDispatch examplePipeline exampleRoot
    { kernelName := "computeMain", cudaModule := 1, cudaKernel := 1 } 0
    { name := "computeMain", threadGroupSize := (4, 1, 1) } { buffer := [1, 2, 3] } 0 1 7 none
    rfl rfl rfl rfl rfl rfl rfl rfl rfl rfl rfl rfl rfl
    (fun a off h => by cases h)
    (fun mem x h => exampleBackendIncrement_kernel _ _ _ _ mem x h)

/-! ## The kernel launch of a dispatch -/

theorem findKernel_spec (name : String) : ∀ (ks : List KernelInfo) (start : Nat),
    (findKernel name ks start = -1 ∧ ∀ info ∈ ks, info.name ≠ name)
    ∨ ∃ (k : Nat) (info : KernelInfo), findKernel name ks start = ((start + k : Nat) : Int)
        ∧ ks[k]? = some info ∧ info.name = name
  | [], start => Or.inl ⟨rfl, by simp⟩
  | k0 :: rest, start => by
    by_cases h : k0.name = name
    · exact Or.inr ⟨0, k0, by simp [findKernel, h], by simp, h⟩
    · rcases findKernel_spec name rest (start + 1) with ⟨h1, h2⟩ | ⟨k, info, h1, h2, h3⟩
      · refine Or.inl ⟨by simp [findKernel, h, h1], ?_⟩
        intro info hinfo
        rcases List.mem_cons.mp hinfo with rfl | hmem
        · exact h
        · exact h2 info hmem
      · refine Or.inr ⟨k + 1, info, ?_, by simpa using h2, h3⟩
        simp only [findKernel, h, if_false, h1]
        congr 1
        omega

theorem getKernelIndex_of_absent (layout : RootShaderObjectLayoutImpl) (name : String)
    (h : ∀ info ∈ layout.kernels, info.name ≠ name) : layout.getKernelIndex name = -1 := by
  rcases findKernel_spec name layout.kernels 0 with ⟨h1, _⟩ | ⟨k, info, _, h2, h3⟩
  · exact h1
  · exact absurd h3 (h info (List.mem_iff_getElem?.mpr ⟨k, h2⟩))

theorem getKernelIndex_of_present (layout : RootShaderObjectLayoutImpl) (name : String)
    (h : ∃ info ∈ layout.kernels, info.name = name) :
    ∃ (k : Nat) (info : KernelInfo), layout.getKernelIndex name = (k : Int)
      ∧ layout.kernels[k]? = some info ∧ info.name = name := by
  rcases findKernel_spec name layout.kernels 0 with ⟨_, h2⟩ | ⟨k, info, h1, h2, h3⟩
  · obtain ⟨info, hmem, hname⟩ := h
    exact absurd hname (h2 info hmem)
  · exact ⟨k, info, by simpa [RootShaderObjectLayoutImpl.getKernelIndex] using h1, h2, h3⟩

theorem launch_eq (be : Backend) (q : CommandQueueImpl) (program : ShaderProgramImpl)
    (R : RootShaderObjectImpl) (k : Nat) (info : KernelInfo) (ep : EntryPointShaderObject)
    (x y z : Int)
    (hk : R.layout.getKernelIndex program.kernelName = (k : Int))
    (hinfo : R.layout.kernels[k]? = some info)
    (hep : R.entryPointObjects[k]? = some ep) :
    q.launch be program R x y z
      = { q with
          m_device :=
            { q.m_device with
                memory :=
                  if be.status (kernelLaunch program x y z info q.stream ep) = CUDA_SUCCESS
                  then be.kernel program.cudaKernel (x, y, z) (launchBlock info) ep.buffer
                    (cuMemcpy q.m_device.memory (globalParamsSymbol be program).1 R.buffer
                      (globalParamsSymbol be program).2).2
                  else (cuMemcpy q.m_device.memory (globalParamsSymbol be program).1 R.buffer
                      (globalParamsSymbol be program).2).2
                trace := q.m_device.trace ++
                  [BackendCall.cuModuleGetGlobal program.cudaModule,
                   BackendCall.cuMemcpyAsync (globalParamsSymbol be program).1 R.buffer
                     (globalParamsSymbol be program).2,
                   kernelLaunch program x y z info q.stream ep] }
          fault :=
            if be.asserts && decide (be.status (kernelLaunch program x y z info q.stream ep) ≠ CUDA_SUCCESS)
            then some Fault.assertion else q.fault } := by
  have hneg : ¬ ((k : Int) < 0) := by omega
  have hne : ¬ ((k : Int) = -1) := by omega
  by_cases hs : be.status (BackendCall.cuLaunchKernel program.cudaKernel x y z
      (toInt32 info.threadGroupSize.1) (toInt32 info.threadGroupSize.2.1)
      (toInt32 info.threadGroupSize.2.2) 0 q.stream ep.buffer ep.buffer.length) = CUDA_SUCCESS <;>
    cases ha : be.asserts <;>
    simp [CommandQueueImpl.launch, hk, hne, hneg, RootShaderObjectLayoutImpl.getKernelThreadGroupSize,
      hinfo, hep, kernelLaunch, launchBlock, globalParamsSymbol, hs, ha]

theorem launch_of_absent (be : Backend) (q : CommandQueueImpl) (program : ShaderProgramImpl)
    (R : RootShaderObjectImpl) (x y z : Int)
    (hk : R.layout.getKernelIndex program.kernelName = -1) :
    q.launch be program R x y z
      = q.raise (if be.asserts then Fault.assertion else Fault.outOfBounds) := by
  cases ha : be.asserts <;>
    simp [CommandQueueImpl.launch, hk, ha, RootShaderObjectLayoutImpl.getKernelThreadGroupSize]

theorem dispatchCompute_eq (be : Backend) (q : CommandQueueImpl) (R : RootShaderObjectImpl)
    (program : ShaderProgramImpl) (x y z : Int)
    (hR : q.currentRootObject = some R)
    (hspec : (q.m_device.maybeSpecializePipeline be q.currentPipeline (some R)).2.2
      = some (Pipeline.Specialized program)) :
    q.dispatchCompute be x y z
      = CommandQueueImpl.launch be
          { q with
              m_device := (q.m_device.maybeSpecializePipeline be q.currentPipeline (some R)).1
              currentPipeline := some (Pipeline.Specialized program) } program R x y z := by
  simp [CommandQueueImpl.dispatchCompute, hR, hspec]

theorem maybeSpecializePipeline_trace (be : Backend) (dev : DeviceImpl) (p : Option Pipeline)
    (r : Option RootShaderObjectImpl) :
    ∃ calls : List BackendCall,
      (dev.maybeSpecializePipeline be p r).1.trace = dev.trace ++ calls ∧ launchCount calls = 0 := by
  unfold DeviceImpl.maybeSpecializePipeline
  split
  · exact ⟨[], by simp, rfl⟩
  · exact ⟨[], by simp, rfl⟩
  · split
    · exact ⟨[], by simp, rfl⟩
    · split
      · exact ⟨[], by simp, rfl⟩
      · exact ⟨[_], rfl, rfl⟩

theorem toInt32_of_lt (v : Nat) (h : v < 2 ^ 31) : toInt32 v = (v : Int) := by
  have h1 : v % 2 ^ 32 = v := Nat.mod_eq_of_lt (by omega)
  unfold toInt32
  rw [h1, if_pos h]

/-- C21: a DispatchCompute(x, y, z) executed with a pipeline P and a root
object R bound, P resolving to a specialized pipeline with program `program`,
and R holding one entry point object per kernel of its layout.  When the
layout of R has a kernel named like the kernel of the program, exactly one
kernel launch is issued, as the last call of the dispatch: its grid is
(x, y, z) and its block is the thread-group size the layout reports for that
kernel (converted to int, which changes no size below 2^31).  When the layout
has no kernel with that name, the dispatch stops (on the assertion when
assertions are compiled in, else on the index -1) and launches nothing. -/
theorem dispatchCompute_launches_with_layout_shape (be : Backend) (q : CommandQueueImpl)
    (P : Pipeline) (R : RootShaderObjectImpl) (program : ShaderProgramImpl) (x y z : Int)
    (hP : q.currentPipeline = some P)
    (hR : q.currentRootObject = some R)
    (hspec : (q.m_device.maybeSpecializePipeline be (some P) (some R)).2.2
      = some (Pipeline.Specialized program))
    (hentry : R.entryPointObjects.length = R.layout.kernels.length) :
    ((∃ info ∈ R.layout.kernels, info.name = program.kernelName) →
      ∃ (k : Nat) (info : KernelInfo) (ep : EntryPointShaderObject) (before : List BackendCall),
        R.layout.getKernelIndex program.kernelName = (k : Int)
        ∧ R.layout.kernels[k]? = some info
        ∧ info.name = program.kernelName
        ∧ R.entryPointObjects[k]? = some ep
        ∧ (q.dispatchCompute be x y z).m_device.trace
            = q.m_device.trace ++ before ++
              [BackendCall.cuLaunchKernel program.cudaKernel x y z
                (toInt32 info.threadGroupSize.1) (toInt32 info.threadGroupSize.2.1)
                (toInt32 info.threadGroupSize.2.2) 0 q.stream ep.buffer ep.buffer.length]
        ∧ launchCount before = 0
        ∧ launchCount (q.dispatchCompute be x y z).m_device.trace
            = launchCount q.m_device.trace + 1)
    ∧ ((∀ info ∈ R.layout.kernels, info.name ≠ program.kernelName) →
      (q.dispatchCompute be x y z).fault
          = some (if be.asserts then Fault.assertion else Fault.outOfBounds)
      ∧ launchCount (q.dispatchCompute be x y z).m_device.trace = launchCount q.m_device.trace)
    ∧ (∀ v : Nat, v < 2 ^ 31 → toInt32 v = (v : Int)) := by
  rw [← hP] at hspec
  have hd := dispatchCompute_eq be q R program x y z hR hspec
  obtain ⟨calls, hcalls, hnone⟩ :=
    maybeSpecializePipeline_trace be q.m_device q.currentPipeline (some R)
  refine ⟨?_, ?_, toInt32_of_lt⟩
  · intro hpresent
    obtain ⟨k, info, hk, hinfo, hname⟩ := getKernelIndex_of_present R.layout program.kernelName hpresent
    have hlt : k < R.entryPointObjects.length := by
      rw [hentry]; exact (List.getElem?_eq_some_iff.mp hinfo).1
    have hep : R.entryPointObjects[k]? = some (R.entryPointObjects.get ⟨k, hlt⟩) :=
      List.getElem?_eq_getElem hlt
    have hl := launch_eq be
      { q with
          m_device := (q.m_device.maybeSpecializePipeline be q.currentPipeline (some R)).1
          currentPipeline := some (Pipeline.Specialized program) }
      program R k info _ x y z hk hinfo hep
    refine ⟨k, info, _, calls ++ [BackendCall.cuModuleGetGlobal program.cudaModule,
      BackendCall.cuMemcpyAsync (globalParamsSymbol be program).1 R.buffer
        (globalParamsSymbol be program).2], hk, hinfo, hname, hep, ?_, ?_, ?_⟩
    · rw [hd, hl]
      simp [hcalls, kernelLaunch, launchBlock]
    · simp [launchCount, List.countP_append, List.countP_cons] at hnone ⊢
      exact hnone
    · rw [hd, hl]
      simp only [launchCount, List.countP_append, List.countP_cons, hcalls, kernelLaunch] at hnone ⊢
      simp [hnone]
  · intro habsent
    have hk := getKernelIndex_of_absent R.layout program.kernelName habsent
    rw [hd, launch_of_absent be _ program R x y z hk]
    refine ⟨by simp [CommandQueueImpl.raise], ?_⟩
    simp only [CommandQueueImpl.raise, hcalls, launchCount, List.countP_append] at hnone ⊢
    simp [hnone]

/-- Witness for C21: dispatching (2, 3, 4) on `exampleBoundQueue` issues one
launch with grid (2, 3, 4) and the block (4, 1, 1) of the layout. -/
theorem dispatchCompute_launches_with_layout_shape_witness :
    ∃ before : List BackendCall,
      (exampleBoundQueue.dispatchCompute (exampleBackend true) 2 3 4).m_device.trace
        = exampleBoundQueue.m_device.trace ++ before ++
            [BackendCall.cuLaunchKernel 1 2 3 4 4 1 1 0 1 [1, 2, 3] 3]
      ∧ launchCount before = 0 := by
  obtain ⟨k, info, ep, before, hk, hinfo, hname, hep, htrace, hnone, hcount⟩ :=
    (dispatchCompute_launches_with_layout_shape (exampleBackend true) exampleBoundQueue
      examplePipeline exampleRoot { kernelName := "computeMain", cudaModule := 1, cudaKernel := 1 }
      2 3 4 rfl rfl rfl rfl).1 ⟨{ name := "computeMain", threadGroupSize := (4, 1, 1) }, by decide, rfl⟩
  have hk0 : k = 0 := by
    have : (exampleRoot.layout.getKernelIndex "computeMain") = 0 := by decide
    rw [this] at hk
    exact_mod_cast hk.symm
  subst hk0
  have hinfo0 : info = { name := "computeMain", threadGroupSize := (4, 1, 1) } := by
    have : exampleRoot.layout.kernels[0]? = some { name := "computeMain", threadGroupSize := (4, 1, 1) } := rfl
    rw [this] at hinfo
    injection hinfo with hinfo
    exact hinfo.symm
  have hep0 : ep = { buffer := [1, 2, 3] } := by
    have : exampleRoot.entryPointObjects[0]? = some { buffer := [1, 2, 3] } := rfl
    rw [this] at hep
    injection hep with hep
    exact hep.symm
  subst hinfo0 hep0
  exact ⟨before, htrace, hnone⟩

/-! ## The parameter blocks of a dispatch -/

/-- Counterexample to C22: the root object's global-scope data are the four
bytes 1, 2, 3, 4.  With a `SLANG_globalParams` symbol of two bytes only the
bytes 1, 2 are copied, not the whole buffer.  With a symbol of eight bytes the
copy asks for eight bytes, more than the root buffer holds; the driver
rejects it, nothing is copied, and the kernel is launched all the same. -/
theorem dispatchCompute_copies_symbol_size :
    (exampleGlobalsQueue.dispatchCompute (exampleBackendSymbol 2) 1 1 1).m_device.memory
        = [[1, 2, 3, 4], [1, 2, 0, 0, 0, 0, 0, 0]]
    ∧ (exampleGlobalsQueue.dispatchCompute (exampleBackendSymbol 8) 1 1 1).m_device.trace
        = [BackendCall.cuModuleGetGlobal 1,
           BackendCall.cuMemcpyAsync (Ptr.device 1 0) (Ptr.device 0 0) 8,
           BackendCall.cuLaunchKernel 1 1 1 1 4 1 1 0 1 [1, 2, 3] 3]
    ∧ load exampleGlobalsDevice.memory (Ptr.device 0 0) 8 = none
    ∧ (exampleGlobalsQueue.dispatchCompute (exampleBackendSymbol 8) 1 1 1).m_device.memory
        = exampleGlobalsDevice.memory
    ∧ (exampleGlobalsQueue.dispatchCompute (exampleBackendSymbol 8) 1 1 1).fault = none := by
  decide

/-- C22 as amended: a dispatch with pipeline P and root object R bound, P
resolving to `program`, k the index of the program's kernel in the layout of
R.  After the calls of the specialization the dispatch issues exactly three
calls: the lookup of the module's `SLANG_globalParams` symbol, a copy from the
address of R's global-scope data to the symbol, whose size is the size of
the symbol (0 when the lookup failed) and not the size of R's data, and the
launch, whose argument block is the buffer and buffer size of
entryPointObjects[k].  The kernel runs on the memory left by the copy.  When
the symbol's range and that many bytes of R's data are in device memory, the
symbol holds those bytes verbatim before the launch. -/
theorem dispatchCompute_parameter_blocks (be : Backend) (q : CommandQueueImpl) (P : Pipeline)
    (R : RootShaderObjectImpl) (program : ShaderProgramImpl) (k : Nat) (info : KernelInfo)
    (ep : EntryPointShaderObject) (x y z : Int)
    (hP : q.currentPipeline = some P)
    (hR : q.currentRootObject = some R)
    (hspec : (q.m_device.maybeSpecializePipeline be (some P) (some R)).2.2
      = some (Pipeline.Specialized program))
    (hk : R.layout.getKernelIndex program.kernelName = (k : Int))
    (hinfo : R.layout.kernels[k]? = some info)
    (hep : R.entryPointObjects[k]? = some ep) :
    (q.dispatchCompute be x y z).m_device.trace
        = (q.m_device.maybeSpecializePipeline be (some P) (some R)).1.trace ++
          [BackendCall.cuModuleGetGlobal program.cudaModule,
           BackendCall.cuMemcpyAsync (globalParamsSymbol be program).1 R.buffer
             (globalParamsSymbol be program).2,
           BackendCall.cuLaunchKernel program.cudaKernel x y z (toInt32 info.threadGroupSize.1)
             (toInt32 info.threadGroupSize.2.1) (toInt32 info.threadGroupSize.2.2) 0 q.stream
             ep.buffer ep.buffer.length]
    ∧ (q.dispatchCompute be x y z).m_device.memory
        = (if be.status (kernelLaunch program x y z info q.stream ep) = CUDA_SUCCESS
          then be.kernel program.cudaKernel (x, y, z) (launchBlock info) ep.buffer
            (cuMemcpy q.m_device.memory (globalParamsSymbol be program).1 R.buffer
              (globalParamsSymbol be program).2).2
          else (cuMemcpy q.m_device.memory (globalParamsSymbol be program).1 R.buffer
              (globalParamsSymbol be program).2).2)
    ∧ (∀ data : List Byte,
        load q.m_device.memory R.buffer (globalParamsSymbol be program).2 = some data →
        deviceRange q.m_device.memory (globalParamsSymbol be program).1
          (globalParamsSymbol be program).2 = true →
        load (cuMemcpy q.m_device.memory (globalParamsSymbol be program).1 R.buffer
            (globalParamsSymbol be program).2).2
          (globalParamsSymbol be program).1 (globalParamsSymbol be program).2 = some data)
    ∧ ((globalParamsSymbol be program).2 = (be.moduleGlobal program.cudaModule).2
        ∨ (globalParamsSymbol be program).2 = 0) := by
  rw [← hP] at hspec ⊢
  have hd := dispatchCompute_eq be q R program x y z hR hspec
  have hl := launch_eq be
    { q with
        m_device := (q.m_device.maybeSpecializePipeline be q.currentPipeline (some R)).1
        currentPipeline := some (Pipeline.Specialized program) }
    program R k info ep x y z hk hinfo hep
  have hmem := (maybeSpecializePipeline_memory be q.m_device q.currentPipeline (some R)).1
  refine ⟨?_, ?_, ?_, ?_⟩
  · rw [hd, hl]
    simp [kernelLaunch, launchBlock]
  · rw [hd, hl]
    simp only [hmem]
  · intro data hsrc hdst
    exact (cuMemcpy_spec _ _ _ _ data hsrc hdst).1
  · unfold globalParamsSymbol
    split
    · exact Or.inl rfl
    · exact Or.inr rfl

/-- Witness for C22 as amended: with a symbol of four bytes the four bytes of
the root object's data are in the symbol after the dispatch. -/
theorem dispatchCompute_parameter_blocks_witness :
    (exampleGlobalsQueue.dispatchCompute (exampleBackendSymbol 4) 1 1 1).m_device.memory
      = [[1, 2, 3, 4], [1, 2, 3, 4, 0, 0, 0, 0]] :=
  ((dispatchCompute_parameter_blocks (exampleBackendSymbol 4) exampleGlobalsQueue examplePipeline
    { exampleRoot with buffer := Ptr.device 0 0 }
    { kernelName := "computeMain", cudaModule := 1, cudaKernel := 1 } 0
    { name := "computeMain", threadGroupSize := (4, 1, 1) } { buffer := [1, 2, 3] } 1 1 1
    rfl rfl rfl rfl rfl rfl).2.1).trans (by decide)

/-! ## The current pipeline across dispatches -/

theorem launch_bindings (be : Backend) (q : CommandQueueImpl) (program : ShaderProgramImpl)
    (R : RootShaderObjectImpl) (x y z : Int) :
    (q.launch be program R x y z).currentPipeline = q.currentPipeline
    ∧ (q.launch be program R x y z).currentRootObject = q.currentRootObject
    ∧ (q.launch be program R x y z).m_device.shaderCache = q.m_device.shaderCache := by
  unfold CommandQueueImpl.launch
  simp only []
  split
  · exact ⟨rfl, rfl, rfl⟩
  · split
    · exact ⟨rfl, rfl, rfl⟩
    · split
      · exact ⟨rfl, rfl, rfl⟩
      · split <;> exact ⟨rfl, rfl, rfl⟩

theorem dispatchCompute_bindings (be : Backend) (q : CommandQueueImpl) (x y z : Int) :
    (∀ p, (q.m_device.maybeSpecializePipeline be q.currentPipeline q.currentRootObject).2.2 = some p →
      (q.dispatchCompute be x y z).currentPipeline = some p)
    ∧ (q.dispatchCompute be x y z).currentRootObject = q.currentRootObject
    ∧ (q.dispatchCompute be x y z).m_device.shaderCache
        = (q.m_device.maybeSpecializePipeline be q.currentPipeline q.currentRootObject).1.shaderCache := by
  unfold CommandQueueImpl.dispatchCompute
  simp only []
  split
  · rename_i h
    exact ⟨fun p hp => (by rw [h] at hp; cases hp), rfl, rfl⟩
  · rename_i id h
    exact ⟨fun p hp => (by rw [h] at hp; injection hp with hp; rw [← hp]), rfl, rfl⟩
  · rename_i program h
    split
    · exact ⟨fun p hp => (by rw [h] at hp; injection hp with hp; rw [← hp]; rfl), rfl, rfl⟩
    · rename_i root hroot
      have hb := launch_bindings be
        { q with
            m_device := (q.m_device.maybeSpecializePipeline be q.currentPipeline q.currentRootObject).1
            currentPipeline := some (Pipeline.Specialized program) } program root x y z
      exact ⟨fun p hp => (by rw [h] at hp; injection hp with hp; rw [← hp]; exact hb.1), hb.2.1, hb.2.2⟩

theorem executeCommand_currentPipeline (be : Backend) (q : CommandQueueImpl)
    (cb : CommandBufferImpl) (cmd : Command)
    (h1 : cmd.name ≠ CommandName.SetPipeline) (h2 : cmd.name ≠ CommandName.DispatchCompute) :
    (q.executeCommand be cb cmd).currentPipeline = q.currentPipeline := by
  unfold CommandQueueImpl.executeCommand
  split
  · rfl
  · split
    · exact absurd (by assumption) h1
    · split
      · simp only [CommandQueueImpl.bindRootShaderObject]
        split <;> rfl
      · rfl
    · exact absurd (by assumption) h2
    · split <;> simp [CommandQueueImpl.raise, CommandQueueImpl.copyBuffer]
    · split <;> simp [CommandQueueImpl.raise, CommandQueueImpl.uploadBufferData]
    · split
      · simp only [CommandQueueImpl.writeTimestamp]
        split <;> simp [CommandQueueImpl.raise]
      · rfl

theorem executeCommand_currentRootObject (be : Backend) (q : CommandQueueImpl)
    (cb : CommandBufferImpl) (cmd : Command)
    (h1 : cmd.name ≠ CommandName.BindRootShaderObject) :
    (q.executeCommand be cb cmd).currentRootObject = q.currentRootObject := by
  unfold CommandQueueImpl.executeCommand
  split
  · rfl
  · split
    · split <;> simp [CommandQueueImpl.raise, CommandQueueImpl.setPipeline]
    · exact absurd (by assumption) h1
    · exact (dispatchCompute_bindings be q _ _ _).2.1
    · split <;> simp [CommandQueueImpl.raise, CommandQueueImpl.copyBuffer]
    · split <;> simp [CommandQueueImpl.raise, CommandQueueImpl.uploadBufferData]
    · split
      · simp only [CommandQueueImpl.writeTimestamp]
        split <;> simp [CommandQueueImpl.raise]
      · rfl

/-- Counterexample to C23: the unspecialized pipeline 5 is set once, then two
dispatches follow, with root objects of type arguments 42 and 43.  After the
first dispatch has returned, the current pipeline is the pipeline specialized
for 42, not the pipeline set by SetPipeline, and it still is when the second
dispatch starts: the second dispatch hands the pipeline specialized for 42,
and not the originally set pipeline, to the specialization. -/
theorem dispatch_replacement_outlives_dispatch :
    exampleTwoRoots.m_objects[0]? = some (Object.pipeline (Pipeline.Unspecialized 5))
    ∧ (CommandQueueImpl.executeCommands exampleBackendByArgs exampleTwoRoots
        (exampleTwoRoots.m_commands.take 2) exampleQueue).currentPipeline
      = some (Pipeline.Unspecialized 5)
    ∧ (CommandQueueImpl.executeCommands exampleBackendByArgs exampleTwoRoots
        (exampleTwoRoots.m_commands.take 3) exampleQueue).currentPipeline
      = some (Pipeline.Specialized { kernelName := "computeMain", cudaModule := 5, cudaKernel := 42 })
    ∧ (CommandQueueImpl.executeCommands exampleBackendByArgs exampleTwoRoots
        (exampleTwoRoots.m_commands.take 4) exampleQueue).currentPipeline
      = some (Pipeline.Specialized { kernelName := "computeMain", cudaModule := 5, cudaKernel := 42 })
    ∧ (CommandQueueImpl.executeCommands exampleBackendByArgs exampleTwoRoots
        (exampleTwoRoots.m_commands.take 4) exampleQueue).fault = none := by
  decide

/-- C23 as amended: on a running queue, SetPipeline makes the named pipeline
the current one and BindRootShaderObject makes the named root object the
current one; the other opcodes except DispatchCompute leave the current
pipeline alone, and every opcode except BindRootShaderObject leaves the current
root object alone.  A DispatchCompute runs the specialization on the current
pipeline and the current root object, and the pipeline it resolves to stays
the queue's current pipeline after the dispatch has returned (until the next
SetPipeline), so that a later dispatch starts from the resolved pipeline. -/
theorem dispatch_replaces_current_pipeline (be : Backend) (q : CommandQueueImpl)
    (cb : CommandBufferImpl) (cmd : Command) (hq : q.fault = none) :
    (∀ P, cmd.name = CommandName.SetPipeline →
      cb.m_objects[cmd.operand 0]? = some (Object.pipeline P) →
      (q.executeCommand be cb cmd).currentPipeline = some P)
    ∧ (∀ R, cmd.name = CommandName.BindRootShaderObject →
      cb.m_objects[cmd.operand 0]? = some (Object.shaderObject (ShaderObjectBase.root R)) →
      (q.executeCommand be cb cmd).currentRootObject = some R)
    ∧ (cmd.name = CommandName.DispatchCompute →
      (∀ p, (q.m_device.maybeSpecializePipeline be q.currentPipeline q.currentRootObject).2.2 = some p →
        (q.executeCommand be cb cmd).currentPipeline = some p)
      ∧ (q.executeCommand be cb cmd).m_device.shaderCache
          = (q.m_device.maybeSpecializePipeline be q.currentPipeline q.currentRootObject).1.shaderCache)
    ∧ (cmd.name ≠ CommandName.SetPipeline → cmd.name ≠ CommandName.DispatchCompute →
      (q.executeCommand be cb cmd).currentPipeline = q.currentPipeline)
    ∧ (cmd.name ≠ CommandName.BindRootShaderObject →
      (q.executeCommand be cb cmd).currentRootObject = q.currentRootObject) := by
  refine ⟨?_, ?_, ?_, ?_, ?_⟩
  · intro P hname hobj
    simp [CommandQueueImpl.executeCommand, hq, hname, CommandBufferImpl.getPipeline, hobj,
      CommandQueueImpl.setPipeline]
  · intro R hname hobj
    simp [CommandQueueImpl.executeCommand, hq, hname, CommandBufferImpl.getShaderObject, hobj,
      CommandQueueImpl.bindRootShaderObject, ShaderObjectBase.asRoot]
  · intro hname
    have hb := dispatchCompute_bindings be q (toInt32 (cmd.operand 0)) (toInt32 (cmd.operand 1))
      (toInt32 (cmd.operand 2))
    simp only [CommandQueueImpl.executeCommand, hq, hname]
    exact ⟨hb.1, hb.2.2⟩
  · intro h1 h2
    exact executeCommand_currentPipeline be q cb cmd h1 h2
  · intro h1
    exact executeCommand_currentRootObject be q cb cmd h1

/-- Witness for C23 as amended: a dispatch on a queue with the unspecialized
pipeline 5 and `exampleRoot` bound leaves the pipeline specialized for the
type argument 42 as the current pipeline. -/
theorem dispatch_replaces_current_pipeline_witness :
    ({ exampleQueue with
          currentPipeline := some (Pipeline.Unspecialized 5)
          currentRootObject := some exampleRoot }.executeCommand exampleBackendByArgs exampleTwoRoots
        { name := CommandName.DispatchCompute, operands := [1, 1, 1] }).currentPipeline
      = some (Pipeline.Specialized { kernelName := "computeMain", cudaModule := 5, cudaKernel := 42 }) :=
  (dispatch_replaces_current_pipeline exampleBackendByArgs
    { exampleQueue with
        currentPipeline := some (Pipeline.Unspecialized 5)
        currentRootObject := some exampleRoot } exampleTwoRoots
    { name := CommandName.DispatchCompute, operands := [1, 1, 1] } rfl).2.2.1 rfl |>.1 _ rfl

/-! ## The frame of a buffer copy -/

theorem splice_getElem?_outside (bs : List Byte) (o : Nat) (data : List Byte) (j : Nat)
    (hfit : o + data.length ≤ bs.length) (hj : j < o ∨ o + data.length ≤ j) :
    (splice bs o data)[j]? = bs[j]? := by
  unfold splice
  rcases hj with hj | hj
  · rw [List.append_assoc, List.getElem?_append_left (by simp; omega)]
    rw [List.getElem?_take_of_lt hj]
  · have h1 : (bs.take o ++ data).length = o + data.length := by simp; omega
    rw [List.getElem?_append_right (by omega), h1, List.getElem?_drop]
    congr 1
    omega

theorem splice_nil (bs : List Byte) (o : Nat) : splice bs o [] = bs := by
  simp [splice]

theorem deviceRange_add (mem : DeviceMemory) (p : Ptr) (k n total : Nat) (h : k + n ≤ total)
    (hp : deviceRange mem p total = true) : deviceRange mem (p.add k) n = true := by
  cases p with
  | null => simp [deviceRange] at hp
  | host bs => simp [deviceRange] at hp
  | device a off =>
    simp only [deviceRange, Ptr.add] at hp ⊢
    split at hp
    · rename_i bs hbs
      simp only [hbs, decide_eq_true_eq] at hp ⊢
      omega
    · cases hp

theorem load_of_deviceRange (mem : DeviceMemory) (p : Ptr) (n : Nat)
    (hp : deviceRange mem p n = true) : ∃ data, load mem p n = some data := by
  cases p with
  | null => simp [deviceRange] at hp
  | host bs => simp [deviceRange] at hp
  | device a off =>
    simp only [deviceRange] at hp
    split at hp
    · rename_i bs hbs
      simp only [decide_eq_true_eq] at hp
      exact ⟨(bs.drop off).take n, by simp [load, hbs, hp]⟩
    · cases hp

theorem cuMemcpy_frame (mem : DeviceMemory) (a o : Nat) (src : Ptr) (n : Nat) (data : List Byte)
    (hsrc : load mem src n = some data) (hdst : deviceRange mem (Ptr.device a o) n = true)
    (a' j : Nat) (hj : a' ≠ a ∨ j < o ∨ o + n ≤ j) :
    byteAt (cuMemcpy mem (Ptr.device a o) src n).2 a' j = byteAt mem a' j := by
  have hlen := load_length mem src n data hsrc
  simp only [deviceRange] at hdst
  split at hdst
  · rename_i bs hbs
    simp only [decide_eq_true_eq] at hdst
    have hfit : o + data.length ≤ bs.length := by omega
    have ha : a < mem.length := (List.getElem?_eq_some_iff.mp hbs).1
    simp only [cuMemcpy, hsrc, store, hbs, hfit, if_true, byteAt]
    by_cases haa : a' = a
    · subst haa
      rw [List.getElem?_set_self ha, hbs]
      simp only [Option.some_bind]
      apply splice_getElem?_outside bs o data j hfit
      rcases hj with hj | hj | hj
      · exact absurd rfl hj
      · exact Or.inl hj
      · exact Or.inr (by omega)
    · rw [List.getElem?_set_ne (Ne.symm haa)]
  · cases hdst

theorem cuMemcpy_zero (mem : DeviceMemory) (dst src : Ptr) : (cuMemcpy mem dst src 0).2 = mem := by
  cases hl : load mem src 0 with
  | none => simp [cuMemcpy, hl]
  | some data =>
    have hlen := load_length mem src 0 data hl
    have hnil : data = [] := List.length_eq_zero.mp hlen
    subst hnil
    cases dst with
    | null => simp [cuMemcpy, hl, store]
    | host bs => simp [cuMemcpy, hl, store]
    | device a off =>
      cases hm : mem[a]? with
      | none => simp [cuMemcpy, hl, store, hm]
      | some bs =>
        have ha : a < mem.length := (List.getElem?_eq_some_iff.mp hm).1
        have hget : mem[a] = bs := (List.getElem?_eq_some_iff.mp hm).2
        by_cases hfit : off ≤ bs.length
        · simp only [cuMemcpy, hl, store, hm, List.length_nil, Nat.add_zero, hfit, if_true, splice_nil]
          rw [← hget]
          apply List.ext_getElem?
          intro i
          by_cases hi : a = i
          · subst hi; simp [ha]
          · simp [List.getElem?_set_ne hi]
        · simp [cuMemcpy, hl, store, hm, hfit]

/-- C24: frame of CopyBuffer.  A CopyBuffer opcode with operands (dst,
dstOffset, src, srcOffset, size), both buffers lying in device memory and
both ranges inside their buffers, makes the size bytes of dst from dstOffset
on equal to the prior size bytes of src from srcOffset on, and leaves every
byte of device memory outside the destination range, the current pipeline,
the current root object and the cache as they were; the only call is the
copy.  With size 0 device memory is unchanged, whatever the operands. -/
theorem copyBuffer_frame (be : Backend) (q : CommandQueueImpl) (cb : CommandBufferImpl)
    (dst src : BufferImpl) (iDst dstOffset iSrc srcOffset size a off : Nat)
    (hq : q.fault = none)
    (hdst : cb.m_objects[iDst]? = some (Object.buffer dst))
    (hsrc : cb.m_objects[iSrc]? = some (Object.buffer src))
    (hptr : dst.m_cudaMemory = Ptr.device a off)
    (hfitD : deviceRange q.m_device.memory dst.m_cudaMemory dst.m_desc.size = true)
    (hfitS : deviceRange q.m_device.memory src.m_cudaMemory src.m_desc.size = true)
    (hD : dstOffset + size ≤ dst.m_desc.size)
    (hS : srcOffset + size ≤ src.m_desc.size) :
    (∃ data : List Byte,
      load q.m_device.memory (src.m_cudaMemory.add srcOffset) size = some data
      ∧ load (q.executeCommand be cb
            { name := CommandName.CopyBuffer
              operands := [iDst, dstOffset, iSrc, srcOffset, size] }).m_device.memory
          (dst.m_cudaMemory.add dstOffset) size = some data)
    ∧ (∀ a' j : Nat, (a' ≠ a ∨ j < off + dstOffset ∨ off + dstOffset + size ≤ j) →
        byteAt (q.executeCommand be cb
            { name := CommandName.CopyBuffer
              operands := [iDst, dstOffset, iSrc, srcOffset, size] }).m_device.memory a' j
          = byteAt q.m_device.memory a' j)
    ∧ (q.executeCommand be cb
        { name := CommandName.CopyBuffer
          operands := [iDst, dstOffset, iSrc, srcOffset, size] })
      = { q with
          m_device :=
            { q.m_device with
                memory := (q.executeCommand be cb
                  { name := CommandName.CopyBuffer
                    operands := [iDst, dstOffset, iSrc, srcOffset, size] }).m_device.memory
                trace := q.m_device.trace ++
                  [BackendCall.cuMemcpy (dst.m_cudaMemory.add dstOffset)
                    (src.m_cudaMemory.add srcOffset) size] } }
    ∧ (size = 0 →
        (q.executeCommand be cb
          { name := CommandName.CopyBuffer
            operands := [iDst, dstOffset, iSrc, srcOffset, size] }).m_device.memory
          = q.m_device.memory) := by
  have hexec : q.executeCommand be cb
      { name := CommandName.CopyBuffer, operands := [iDst, dstOffset, iSrc, srcOffset, size] }
      = q.copyBuffer (some dst) dstOffset (some src) srcOffset size := by
    simp [CommandQueueImpl.executeCommand, hq, Command.operand, CommandBufferImpl.getBuffer,
      hdst, hsrc]
  have hmem : (q.copyBuffer (some dst) dstOffset (some src) srcOffset size).m_device.memory
      = (cuMemcpy q.m_device.memory (dst.m_cudaMemory.add dstOffset)
          (src.m_cudaMemory.add srcOffset) size).2 := rfl
  have hrD := deviceRange_add _ _ dstOffset size _ hD hfitD
  have hrS := deviceRange_add _ _ srcOffset size _ hS hfitS
  obtain ⟨data, hload⟩ := load_of_deviceRange _ _ _ hrS
  rw [hexec]
  refine ⟨⟨data, hload, ?_⟩, ?_, ?_, ?_⟩
  · rw [hmem]
    exact (cuMemcpy_spec _ _ _ _ data hload hrD).1
  · intro a' j hj
    rw [hmem]
    rw [hptr] at hrD ⊢
    exact cuMemcpy_frame _ a (off + dstOffset) _ size data hload hrD a' j hj
  · rfl
  · intro h0
    rw [hmem, h0]
    exact cuMemcpy_zero _ _ _

/-- Witness for C24: copying bytes 2, 3 of the first allocation of
`exampleGlobalsDevice` to bytes 4, 5 of its second allocation leaves byte 6
of the second allocation as it was. -/
theorem copyBuffer_frame_witness :
    byteAt ({ exampleQueue with m_device := exampleGlobalsDevice }.executeCommand (exampleBackend true)
        { m_commands := [], m_data := []
          m_objects :=
            [Object.buffer { exampleBufferY with m_desc := { exampleBufferY.m_desc with size := 8 } },
             Object.buffer exampleBufferX] }
        { name := CommandName.CopyBuffer, operands := [0, 4, 1, 2, 2] }).m_device.memory 1 6
      = byteAt exampleGlobalsDevice.memory 1 6 :=
  (copyBuffer_frame (exampleBackend true) { exampleQueue with m_device := exampleGlobalsDevice }
    { m_commands := [], m_data := []
      m_objects :=
        [Object.buffer { exampleBufferY with m_desc := { exampleBufferY.m_desc with size := 8 } },
         Object.buffer exampleBufferX] }
    { exampleBufferY with m_desc := { exampleBufferY.m_desc with size := 8 } } exampleBufferX
    0 4 1 2 2 1 0 rfl rfl rfl rfl (by decide) (by decide) (by decide) (by decide)).2.1 1 6
    (Or.inr (Or.inr (by decide)))

/-! ## Specializable and concrete programs -/

/-- C25: createShaderProgram for a program with a program layout.  With a
non-zero specialization parameter count it returns success with a program
that holds only the root layout: kernel name, module and kernel handle are
unset, nothing is compiled, no driver call is made, and no diagnostics are
produced.  With a zero count, a call that returns success has compiled entry
point 0 successfully, loaded the module from the kernel code, looked the
kernel up under the name of entry point 0, and hands out a program with that
name, module and kernel and the root layout. -/
theorem createShaderProgram_specializable (be : Backend) (dev : DeviceImpl) (scope : ComponentType)
    (programLayout : ProgramLayout) (outProgram : Option ShaderProgramImpl)
    (outDiagnosticBlob : Option (Option (List Byte)))
    (hlayout : scope.layout = some programLayout) :
    (scope.specializationParamCount ≠ 0 →
      (dev.createShaderProgram be { slangGlobalScope := some scope } outProgram outDiagnosticBlob).exit
          = Exit.returned Result.SLANG_OK
      ∧ (dev.createShaderProgram be { slangGlobalScope := some scope } outProgram outDiagnosticBlob).outProgram
          = some { kernelName := "", cudaModule := 0, cudaKernel := 0
                   layout := some { kernels := programLayout.entryPoints } }
      ∧ (dev.createShaderProgram be { slangGlobalScope := some scope } outProgram outDiagnosticBlob).device
          = dev
      ∧ (dev.createShaderProgram be { slangGlobalScope := some scope } outProgram outDiagnosticBlob).messages
          = []
      ∧ (dev.createShaderProgram be { slangGlobalScope := some scope } outProgram
          outDiagnosticBlob).outDiagnosticBlob = outDiagnosticBlob)
    ∧ (scope.specializationParamCount = 0 →
      (dev.createShaderProgram be { slangGlobalScope := some scope } outProgram outDiagnosticBlob).exit
          = Exit.returned Result.SLANG_OK →
      ∃ (code : List Byte) (entryPoint : KernelInfo),
        scope.compileResult = Result.SLANG_OK
        ∧ scope.kernelCode = some code
        ∧ programLayout.entryPoints[0]? = some entryPoint
        ∧ (dev.createShaderProgram be { slangGlobalScope := some scope } outProgram
            outDiagnosticBlob).device.trace
          = dev.trace ++ [BackendCall.compileKernel scope.id [], BackendCall.cuModuleLoadData code,
              BackendCall.cuModuleGetFunction (be.loadedModule code) entryPoint.name]
        ∧ (dev.createShaderProgram be { slangGlobalScope := some scope } outProgram
            outDiagnosticBlob).outProgram
          = some { kernelName := entryPoint.name
                   cudaModule := be.loadedModule code
                   cudaKernel := be.moduleFunction (be.loadedModule code) entryPoint.name
                   layout := some { kernels := programLayout.entryPoints } }) := by
  constructor
  · intro hcount
    simp [DeviceImpl.createShaderProgram, hcount, hlayout, RootShaderObjectLayoutImpl.ofProgramLayout]
  · intro hcount hok
    have hres : scope.compileResult = Result.SLANG_OK := by
      by_contra hne
      have hfailed : SLANG_FAILED scope.compileResult = true := by
        cases hr : scope.compileResult <;> simp_all [SLANG_FAILED]
      simp [DeviceImpl.createShaderProgram, hcount, hfailed] at hok
      exact hne hok
    have hnot : SLANG_FAILED scope.compileResult = false := by rw [hres]; rfl
    cases hcode : scope.kernelCode with
    | none =>
      simp [DeviceImpl.createShaderProgram, hcount, hnot, DeviceImpl.loadShaderProgram, hcode,
        Run.finish, Run.fault] at hok
    | some code =>
      cases hep : programLayout.entryPoints[0]? with
      | none =>
        by_cases hload : be.status (BackendCall.cuModuleLoadData code) = CUDA_SUCCESS <;>
          simp [DeviceImpl.createShaderProgram, hcount, hnot, DeviceImpl.loadShaderProgram, hcode,
            hlayout, hep, Run.finish, Run.fault, Run.bind, Run.call, hload,
            SLANG_CUDA_HANDLE_ERROR] at hok
      | some entryPoint =>
        refine ⟨code, entryPoint, hres, rfl, rfl, ?_, ?_⟩
        · by_cases hload : be.status (BackendCall.cuModuleLoadData code) = CUDA_SUCCESS
          · by_cases hget : be.status
                (BackendCall.cuModuleGetFunction (be.loadedModule code) entryPoint.name) = CUDA_SUCCESS
            · simp [DeviceImpl.createShaderProgram, hcount, hnot, DeviceImpl.loadShaderProgram, hcode,
                hlayout, hep, Run.finish, Run.bind, Run.call, Run.pure, hload, hget,
                DeviceImpl.record]
            · simp [DeviceImpl.createShaderProgram, hcount, hnot, DeviceImpl.loadShaderProgram, hcode,
                hlayout, hep, Run.finish, Run.bind, Run.call, Run.pure, hload, hget,
                SLANG_CUDA_HANDLE_ERROR] at hok
          · simp [DeviceImpl.createShaderProgram, hcount, hnot, DeviceImpl.loadShaderProgram, hcode,
              hlayout, hep, Run.finish, Run.bind, Run.call, Run.pure, hload,
              SLANG_CUDA_HANDLE_ERROR] at hok
        · by_cases hload : be.status (BackendCall.cuModuleLoadData code) = CUDA_SUCCESS
          · by_cases hget : be.status
                (BackendCall.cuModuleGetFunction (be.loadedModule code) entryPoint.name) = CUDA_SUCCESS
            · simp [DeviceImpl.createShaderProgram, hcount, hnot, DeviceImpl.loadShaderProgram, hcode,
                hlayout, hep, Run.finish, Run.bind, Run.call, Run.pure, hload, hget]
            · simp [DeviceImpl.createShaderProgram, hcount, hnot, DeviceImpl.loadShaderProgram, hcode,
                hlayout, hep, Run.finish, Run.bind, Run.call, Run.pure, hload, hget,
                SLANG_CUDA_HANDLE_ERROR] at hok
          · simp [DeviceImpl.createShaderProgram, hcount, hnot, DeviceImpl.loadShaderProgram, hcode,
              hlayout, hep, Run.finish, Run.bind, Run.call, Run.pure, hload,
              SLANG_CUDA_HANDLE_ERROR] at hok

/-- Witness for C25: the specializable program `exampleProgramGeneric` gives
a program with a layout and nothing else. -/
theorem createShaderProgram_specializable_witness :
    (exampleDevice.createShaderProgram (exampleBackend true)
        { slangGlobalScope := some exampleProgramGeneric } none none).outProgram
      = some { kernelName := "", cudaModule := 0, cudaKernel := 0
               layout := some { kernels := [{ name := "computeMain", threadGroupSize := (4, 1, 1) }] } } :=
  ((createShaderProgram_specializable (exampleBackend true) exampleDevice exampleProgramGeneric
    { entryPoints := [{ name := "computeMain", threadGroupSize := (4, 1, 1) }] } none none rfl).1
    (by decide)).2.1

/-! ## Binding an object that is not a root object -/

/-- C26: bindRootShaderObject returns success exactly when the object is a
root shader object, and then makes it the current root object; otherwise it
returns the invalid-argument result and the current root object becomes null,
whatever was bound before.  Nothing else of the queue changes.  Executing a
BindRootShaderObject opcode drops the result: on a running queue, after an
opcode naming an object that is not a root object, execution carries on with
the next opcode, with no current root object and without a fault. -/
theorem bindRootShaderObject_result (be : Backend) (q : CommandQueueImpl)
    (object : Option ShaderObjectBase) (cb : CommandBufferImpl) (index : Nat) (buffer : Ptr)
    (rest : List Command)
    (hq : q.fault = none)
    (hobject : cb.m_objects[index]? = some (Object.shaderObject (ShaderObjectBase.other buffer))) :
    ((q.bindRootShaderObject object).2 = Result.SLANG_OK
        ↔ ∃ R, object = some (ShaderObjectBase.root R))
    ∧ (∀ R, object = some (ShaderObjectBase.root R) →
        q.bindRootShaderObject object = ({ q with currentRootObject := some R }, Result.SLANG_OK))
    ∧ ((¬ ∃ R, object = some (ShaderObjectBase.root R)) →
        q.bindRootShaderObject object
          = ({ q with currentRootObject := none }, Result.SLANG_E_INVALID_ARG))
    ∧ CommandQueueImpl.executeCommands be cb
        ({ name := CommandName.BindRootShaderObject, operands := [index] } :: rest) q
      = CommandQueueImpl.executeCommands be cb rest { q with currentRootObject := none } := by
  refine ⟨?_, ?_, ?_, ?_⟩
  · cases object with
    | none => simp [CommandQueueImpl.bindRootShaderObject, ShaderObjectBase.asRoot]
    | some o =>
      cases o with
      | root R => simp [CommandQueueImpl.bindRootShaderObject, ShaderObjectBase.asRoot]
      | other p => simp [CommandQueueImpl.bindRootShaderObject, ShaderObjectBase.asRoot]
  · intro R h
    subst h
    rfl
  · intro h
    cases object with
    | none => rfl
    | some o =>
      cases o with
      | root R => exact absurd ⟨R, rfl⟩ h
      | other p => rfl
  · simp [CommandQueueImpl.executeCommands, CommandQueueImpl.executeCommand, hq, Command.operand,
      CommandBufferImpl.getShaderObject, hobject, CommandQueueImpl.bindRootShaderObject,
      ShaderObjectBase.asRoot]

/-- Witness for C26: on a queue with `exampleRoot` bound, binding the object
of `exampleBindNonRoot` that is not a root object clears the current root
object, and the opcode sequence carries on. -/
theorem bindRootShaderObject_result_witness :
    CommandQueueImpl.executeCommands (exampleBackend true) exampleBindNonRoot
        [{ name := CommandName.BindRootShaderObject, operands := [1] },
         { name := CommandName.SetPipeline, operands := [0] }] exampleBoundQueue
      = CommandQueueImpl.executeCommands (exampleBackend true) exampleBindNonRoot
          [{ name := CommandName.SetPipeline, operands := [0] }]
          { exampleBoundQueue with currentRootObject := none } :=
  (bindRootShaderObject_result (exampleBackend true) exampleBoundQueue none exampleBindNonRoot 1
    Ptr.null [{ name := CommandName.SetPipeline, operands := [0] }] rfl rfl).2.2.2

/-! ## Bindings across command buffers -/

theorem executeCommands_bindings (be : Backend) (cb : CommandBufferImpl) :
    ∀ (cmds : List Command) (q : CommandQueueImpl),
      (∀ cmd ∈ cmds, cmd.name ≠ CommandName.SetPipeline ∧ cmd.name ≠ CommandName.BindRootShaderObject
        ∧ cmd.name ≠ CommandName.DispatchCompute) →
      (CommandQueueImpl.executeCommands be cb cmds q).currentPipeline = q.currentPipeline
      ∧ (CommandQueueImpl.executeCommands be cb cmds q).currentRootObject = q.currentRootObject
  | [], q, _ => ⟨rfl, rfl⟩
  | cmd :: rest, q, h => by
    have hc := h cmd (List.mem_cons_self _ _)
    have ih := executeCommands_bindings be cb rest (q.executeCommand be cb cmd)
      (fun c hmem => h c (List.mem_cons_of_mem _ hmem))
    simp only [CommandQueueImpl.executeCommands]
    rw [ih.1, ih.2, executeCommand_currentPipeline be q cb cmd hc.1 hc.2.2,
      executeCommand_currentRootObject be q cb cmd hc.2.1]
    exact ⟨rfl, rfl⟩

/-- C27: neither submit nor execute resets the current pipeline and the
current root object.  For command buffers b1 and b2, submitted in one call or
in two, b2 is executed from the queue state that b1 left.  When b2 reaches a
DispatchCompute after opcodes that neither set a pipeline, bind a root object
nor dispatch, the queue state at that dispatch has the current pipeline and
the current root object that b1 left, and the dispatch is run on it. -/
theorem bindings_survive_between_command_buffers (be : Backend) (q : CommandQueueImpl)
    (b1 b2 : CommandBufferImpl) (valueToSignal : Nat) (before rest : List Command) (x y z : Nat)
    (hcmd : b2.m_commands
      = before ++ { name := CommandName.DispatchCompute, operands := [x, y, z] } :: rest)
    (hbefore : ∀ cmd ∈ before, cmd.name ≠ CommandName.SetPipeline
      ∧ cmd.name ≠ CommandName.BindRootShaderObject ∧ cmd.name ≠ CommandName.DispatchCompute) :
    q.submit be 2 [b1, b2] none valueToSignal
        = CommandQueueImpl.executeCommands be b2 b2.m_commands (q.execute be b1)
    ∧ (q.submit be 1 [b1] none valueToSignal).submit be 1 [b2] none valueToSignal
        = CommandQueueImpl.executeCommands be b2 b2.m_commands (q.execute be b1)
    ∧ (CommandQueueImpl.executeCommands be b2 before (q.execute be b1)).currentPipeline
        = (q.execute be b1).currentPipeline
    ∧ (CommandQueueImpl.executeCommands be b2 before (q.execute be b1)).currentRootObject
        = (q.execute be b1).currentRootObject
    ∧ CommandQueueImpl.executeCommands be b2 b2.m_commands (q.execute be b1)
        = CommandQueueImpl.executeCommands be b2 rest
            ((CommandQueueImpl.executeCommands be b2 before (q.execute be b1)).executeCommand be b2
              { name := CommandName.DispatchCompute, operands := [x, y, z] })
    ∧ ((CommandQueueImpl.executeCommands be b2 before (q.execute be b1)).fault = none →
        (CommandQueueImpl.executeCommands be b2 before (q.execute be b1)).executeCommand be b2
            { name := CommandName.DispatchCompute, operands := [x, y, z] }
          = (CommandQueueImpl.executeCommands be b2 before (q.execute be b1)).dispatchCompute be
              (toInt32 x) (toInt32 y) (toInt32 z)) := by
  have hb := executeCommands_bindings be b2 before (q.execute be b1) hbefore
  refine ⟨?_, ?_, hb.1, hb.2, ?_, ?_⟩
  · rw [submit_two]; rfl
  · rw [submit_one, submit_one]; rfl
  · rw [hcmd, executeCommands_append]
    rfl
  · intro hf
    simp [CommandQueueImpl.executeCommand, hf, Command.operand]

/-- Witness for C27: `exampleBindings` followed by `exampleDispatchOnly`.  The
dispatch of the second command buffer runs with the pipeline and the root
object bound by the first one and launches the kernel. -/
theorem bindings_survive_between_command_buffers_witness :
    exampleQueue.submit (exampleBackend true) 2 [exampleBindings, exampleDispatchOnly] none 0
        = exampleBoundQueue.dispatchCompute (exampleBackend true) 2 3 4
    ∧ launchCount (exampleQueue.submit (exampleBackend true) 2 [exampleBindings, exampleDispatchOnly]
        none 0).m_device.trace = 1 := by
  have h := bindings_survive_between_command_buffers (exampleBackend true) exampleQueue
    exampleBindings exampleDispatchOnly 0 [] [] 2 3 4 rfl (fun cmd hmem => by cases hmem)
  have h1 : exampleQueue.submit (exampleBackend true) 2 [exampleBindings, exampleDispatchOnly] none 0
      = exampleBoundQueue.dispatchCompute (exampleBackend true) 2 3 4 := by
    rw [h.1, h.2.2.2.2.1, h.2.2.2.2.2 rfl]
    rfl
  exact ⟨h1, by rw [h1]; decide⟩

/-! ## Import of external memory by handle type -/

theorem run_call_bind_calls {β : Type} (P : BackendCall → Prop) (be : Backend) (call : BackendCall)
    (f : Unit → Run β) (hf : ∀ c ∈ (f ()).calls, P c) :
    ∃ rest, (Run.bind (Run.call be call) f).calls = call :: rest ∧ ∀ c ∈ rest, P c := by
  by_cases h : be.status call = CUDA_SUCCESS
  · exact ⟨(f ()).calls, by simp [Run.bind, Run.call, h], hf⟩
  · exact ⟨[], by simp [Run.bind, Run.call, h], fun c hc => by cases hc⟩

theorem createBufferFromSharedHandleBody_calls (be : Backend) (handle : NativeHandle)
    (desc : BufferDesc) (type : CUexternalMemoryHandleType)
    (hnonnull : handle.toBool = true)
    (htype : externalMemoryHandleType handle.type = some type) :
    ∃ rest, (DeviceImpl.createBufferFromSharedHandleBody be handle desc).calls
        = BackendCall.cuImportExternalMemory
            { type := type, handle := handle.value, size := desc.size
              flags := CUDA_EXTERNAL_MEMORY_DEDICATED } :: rest
      ∧ ∀ c ∈ rest, ∀ d, c ≠ BackendCall.cuImportExternalMemory d := by
  simp only [DeviceImpl.createBufferFromSharedHandleBody, hnonnull, Bool.not_true, htype,
    Bool.false_eq_true, if_false]
  refine run_call_bind_calls (fun c => ∀ d, c ≠ BackendCall.cuImportExternalMemory d) be _ _ ?_
  intro c hc d
  rw [run_call_bind_pure_calls] at hc
  simp only [List.mem_singleton] at hc
  subst hc
  intro h
  cases h

theorem createTextureFromSharedHandleBody_calls (be : Backend) (handle : NativeHandle)
    (desc : TextureDesc) (size : Nat) (type : CUexternalMemoryHandleType)
    (hnonnull : handle.toBool = true)
    (htype : externalMemoryHandleType handle.type = some type) :
    ∃ rest, (DeviceImpl.createTextureFromSharedHandleBody be handle desc size).calls
        = BackendCall.cuImportExternalMemory
            { type := type, handle := handle.value, size := size
              flags := CUDA_EXTERNAL_MEMORY_DEDICATED } :: rest
      ∧ ∀ c ∈ rest, ∀ d, c ≠ BackendCall.cuImportExternalMemory d := by
  simp only [DeviceImpl.createTextureFromSharedHandleBody, hnonnull, Bool.not_true, htype,
    Bool.false_eq_true, if_false]
  refine run_call_bind_calls (fun c => ∀ d, c ≠ BackendCall.cuImportExternalMemory d) be _ _ ?_
  refine run_bind_calls_forall (fun c => ∀ d, c ≠ BackendCall.cuImportExternalMemory d) _ _ ?_ ?_
  · intro c hc
    split at hc
    · cases hc
    · rw [run_bind_pure_calls, run_assert_calls] at hc
      cases hc
  · intro format
    refine run_bind_calls_forall _ _ _ (run_call_calls_forall _ be _ (fun d h => by cases h)) ?_
    intro _
    refine run_bind_calls_forall _ _ _ (run_call_calls_forall _ be _ (fun d h => by cases h)) ?_
    intro _
    refine run_bind_calls_forall _ _ _ (run_call_calls_forall _ be _ (fun d h => by cases h)) ?_
    intro _
    refine run_bind_calls_forall _ _ _ (run_call_calls_forall _ be _ (fun d h => by cases h)) ?_
    intro _ c hc
    cases hc

/-- C28: for a handle that is not null, createBufferFromSharedHandle and
createTextureFromSharedHandle attempt the import exactly for the handle
types D3D12Resource and Win32.  For these the first driver call is the import,
no later call is an import, and the byte size given to it is desc.size for a
buffer and the size argument for a texture.  For every other handle type they
return SLANG_FAIL, make no driver call and leave the output as it was. -/
theorem shared_handle_import_by_type (be : Backend) (dev : DeviceImpl) (handle : NativeHandle)
    (bufferDesc : BufferDesc) (textureDesc : TextureDesc) (size : Nat)
    (outBuffer : Option BufferImpl) (outTexture : Option TextureImpl)
    (hnonnull : handle.toBool = true) :
    ((handle.type = NativeHandleType.D3D12Resource ∨ handle.type = NativeHandleType.Win32) →
      ∃ (type : CUexternalMemoryHandleType) (restBuffer restTexture : List BackendCall),
        type = (if handle.type = NativeHandleType.D3D12Resource
          then CUexternalMemoryHandleType.CU_EXTERNAL_MEMORY_HANDLE_TYPE_D3D12_RESOURCE
          else CUexternalMemoryHandleType.CU_EXTERNAL_MEMORY_HANDLE_TYPE_OPAQUE_WIN32)
        ∧ (dev.createBufferFromSharedHandle be handle bufferDesc outBuffer).device.trace
            = dev.trace ++ BackendCall.cuImportExternalMemory
                { type := type, handle := handle.value, size := bufferDesc.size
                  flags := CUDA_EXTERNAL_MEMORY_DEDICATED } :: restBuffer
        ∧ (∀ c ∈ restBuffer, ∀ d, c ≠ BackendCall.cuImportExternalMemory d)
        ∧ (dev.createTextureFromSharedHandle be handle textureDesc size outTexture).device.trace
            = dev.trace ++ BackendCall.cuImportExternalMemory
                { type := type, handle := handle.value, size := size
                  flags := CUDA_EXTERNAL_MEMORY_DEDICATED } :: restTexture
        ∧ (∀ c ∈ restTexture, ∀ d, c ≠ BackendCall.cuImportExternalMemory d))
    ∧ (handle.type ≠ NativeHandleType.D3D12Resource → handle.type ≠ NativeHandleType.Win32 →
      (dev.createBufferFromSharedHandle be handle bufferDesc outBuffer).exit
          = Exit.returned Result.SLANG_FAIL
      ∧ (dev.createBufferFromSharedHandle be handle bufferDesc outBuffer).device = dev
      ∧ (dev.createBufferFromSharedHandle be handle bufferDesc outBuffer).out = outBuffer
      ∧ (dev.createTextureFromSharedHandle be handle textureDesc size outTexture).exit
          = Exit.returned Result.SLANG_FAIL
      ∧ (dev.createTextureFromSharedHandle be handle textureDesc size outTexture).device = dev
      ∧ (dev.createTextureFromSharedHandle be handle textureDesc size outTexture).out = outTexture) := by
  constructor
  · intro htype
    have hsome : externalMemoryHandleType handle.type
        = some (if handle.type = NativeHandleType.D3D12Resource
          then CUexternalMemoryHandleType.CU_EXTERNAL_MEMORY_HANDLE_TYPE_D3D12_RESOURCE
          else CUexternalMemoryHandleType.CU_EXTERNAL_MEMORY_HANDLE_TYPE_OPAQUE_WIN32) := by
      rcases htype with h | h <;> simp [externalMemoryHandleType, h]
    obtain ⟨restB, hB, hnB⟩ := createBufferFromSharedHandleBody_calls be handle bufferDesc _ hnonnull hsome
    obtain ⟨restT, hT, hnT⟩ :=
      createTextureFromSharedHandleBody_calls be handle textureDesc size _ hnonnull hsome
    refine ⟨_, restB, restT, rfl, ?_, hnB, ?_, hnT⟩
    · rw [DeviceImpl.createBufferFromSharedHandle, run_finish_trace, hB]
    · rw [DeviceImpl.createTextureFromSharedHandle, run_finish_trace, hT]
  · intro h1 h2
    have hnone : externalMemoryHandleType handle.type = none := by
      cases ht : handle.type <;> simp_all [externalMemoryHandleType]
    simp [DeviceImpl.createBufferFromSharedHandle, DeviceImpl.createTextureFromSharedHandle,
      DeviceImpl.createBufferFromSharedHandleBody, DeviceImpl.createTextureFromSharedHandleBody,
      hnonnull, hnone, Run.finish, Run.ret]

/-- Witness for C28: a file descriptor handle is refused without a driver
call. -/
theorem shared_handle_import_by_type_witness :
    (exampleDevice.createBufferFromSharedHandle (exampleBackend true)
        { type := NativeHandleType.FileDescriptor, value := 3 }
        { size := 16, elementSize := 0, format := Format.Unknown } none).exit
      = Exit.returned Result.SLANG_FAIL :=
  ((shared_handle_import_by_type (exampleBackend true) exampleDevice
    { type := NativeHandleType.FileDescriptor, value := 3 }
    { size := 16, elementSize := 0, format := Format.Unknown } exampleTexture3DArray 64 none none rfl).2
    (by decide) (by decide)).1

/-! ## Cores per multiprocessor -/

end rhi
